import Mathlib

/-!
# umlinteraction: layout geometry of the sequence-diagram generator

A shallow embedding of the Go sources `diag/lifeline/spacing.go`,
`diag/interactions/make.go` and `diag/creator.go`.

Conventions of the embedding

* `float64` values are idealised as exact rationals (`ℚ`); every formula is
  transcribed with Go's operator precedence.
* A `*dsl.Statement` used as an identity (a lifeline) is its address, a `Nat`.
* A Go `error` is `Option String` (`none` is `nil`); a function returning
  `(value, error)` returns the pair, so that a caller can ignore the error
  exactly as the Go caller can.
* A Go panic (unknown sizer property, index out of range, nil map entry) is
  the outer `Option` being `none`.
-/

/-- Go `error` value: `none` is `nil`, `some msg` a non-nil error. -/
abbrev GoError := Option String

/-- Address of a `dsl.Statement`; lifelines are compared by pointer identity. -/
abbrev StatementPtr := Nat

namespace sizer

/-- The `sizer.Sizer` interface of `sizer/api.go`: `Get` returns the size, or
panics (`none`) when the property name is not recognised. -/
structure Sizer where
  Get : String → Option ℚ

/-- Modelled from the spec: `NewLiteralSizer`, used by the tests and absent
from the sources, is a sizer that looks names up in a literal table. -/
def NewLiteralSizer (table : List (String × ℚ)) : Sizer :=
  ⟨fun propertyName => table.lookup propertyName⟩

end sizer

namespace lifeline

/-- Struct `Spacing` of `spacing.go`. -/
structure Spacing where
  sizer : sizer.Sizer
  lifelines : List StatementPtr

/-- Constructor `NewSpacing` of `spacing.go`. -/
def NewSpacing (sizer : sizer.Sizer) (lifelines : List StatementPtr) : Spacing :=
  { sizer := sizer, lifelines := lifelines }

/-- Struct `drivingValues` of `spacing.go`. -/
structure drivingValues where
  titleBoxWidth : ℚ
  titleBoxGutter : ℚ
  deriving DecidableEq, Repr

/-- Method `(*Spacing).calcDrivingValues`. The clamped branch is transcribed with
Go's precedence: `diagWidth - float64(n+1)*gutter/float64(n)`. With `n = 0`
that branch divides by zero, which `float64` answers with an infinity or NaN
and `ℚ` with `0`; nothing below relies on that case. -/
def Spacing.calcDrivingValues (s : Spacing) : Option drivingValues :=
  match s.sizer.Get "IdealLifelineTitleBoxWidth" with
  | none => none
  | some idealWidth =>
    let n : Nat := s.lifelines.length
    match s.sizer.Get "DiagWidth" with
    | none => none
    | some diagWidth =>
      let spaceAvail : ℚ := diagWidth - idealWidth * (n : ℚ)
      let nGuttersRequired : Nat := n + 1
      let gutter : ℚ := spaceAvail / (nGuttersRequired : ℚ)
      match s.sizer.Get "FontHt" with
      | none => none
      | some fontHt =>
        if gutter < fontHt then
          some { titleBoxGutter := fontHt,
                 titleBoxWidth := diagWidth - ((n + 1 : Nat) : ℚ) * fontHt / (n : ℚ) }
        else
          some { titleBoxWidth := idealWidth, titleBoxGutter := gutter }

/-- The loop of `lifelineNumber`, started at index `num`. -/
def lifelineNumberFrom : List StatementPtr → StatementPtr → Nat → Int × GoError
  | [], _, _ => (-1, some "lifeline is not registered")
  | registered :: rest, lifeline, num =>
    if registered = lifeline then ((num : Int), none)
    else lifelineNumberFrom rest lifeline (num + 1)

/-- Method `(*Spacing).lifelineNumber`. -/
def Spacing.lifelineNumber (s : Spacing) (lifeline : StatementPtr) : Int × GoError :=
  lifelineNumberFrom s.lifelines lifeline 0

/-- Method `Spacing.CentreLine`: the driving values and the lifeline number are
computed and discarded (`_ = dv`, `_ = num`); the formula is commented out in
the source and the function returns `0.0, nil`. -/
def Spacing.CentreLine (s : Spacing) (lifeline : StatementPtr) : Option (ℚ × GoError) :=
  match s.calcDrivingValues with
  | none => none
  | some _dv =>
    match s.lifelineNumber lifeline with
    | (_num, some err) => some (0, some ("lifelineNumber: " ++ err))
    | (_num, none) => some (0, none)

/-- The formula the source keeps in a comment inside `CentreLine`:
`(n+1)*TitleBoxGutter + (n+0.5)*TitleBoxWidth`. -/
def commentedCentreLineFormula (dv : drivingValues) (n : Nat) : ℚ :=
  ((n : ℚ) + 1) * dv.titleBoxGutter + ((n : ℚ) + 1 / 2) * dv.titleBoxWidth

/-- The sizer of the test scenarios (`make_test.go`): width 2000, font
height 10, ideal title box width 300. -/
def scenarioSizer : sizer.Sizer :=
  sizer.NewLiteralSizer
    [("IdealLifelineTitleBoxWidth", 300), ("DiagWidth", 2000), ("FontHt", 10)]

/-- Two lifelines `A` (address 1) and `B` (address 2), as in `make_test.go`. -/
def scenarioSpacing : Spacing := NewSpacing scenarioSizer [1, 2]

/-- A narrow diagram with two lifelines, whose ideal gutter `20/3` is below
the font height `10`. -/
def narrowSpacing : Spacing :=
  NewSpacing
    (sizer.NewLiteralSizer
      [("IdealLifelineTitleBoxWidth", 40), ("DiagWidth", 100), ("FontHt", 10)])
    [1, 2]

end lifeline

/-! ## Statements and the graphics model -/

namespace umli

/-- Modelled from the spec: the closed keyword set of §3 (the `umli` package
that declares the constants is absent from the sources). -/
inductive Keyword
  | Life | Title | Full | Dash | Self | Stop | TextSize | ShowLetters
  deriving DecidableEq, Repr

end umli

namespace dsl

/-- Modelled from the spec: `dsl.Statement` (§3), whose declaration is absent
from the sources; the fields are the ones the sources read. Referenced
lifelines are pointers to the declaring `Life` statements. -/
structure Statement where
  Keyword : umli.Keyword
  LifelineName : String
  ReferencedLifelines : List StatementPtr
  LabelSegments : List String
  TextSize : ℚ
  ShowLetters : Bool
  deriving DecidableEq, Repr

end dsl

namespace graphics

/-- Modelled from the spec: text justification (`graphics.Left`,
`graphics.Centre` and `graphics.Top` occur in the sources; the declaration is
absent). -/
inductive Justification
  | Left | Centre | Right | Top | Bottom
  deriving DecidableEq, Repr

/-- Modelled from the spec: `graphics.Point`, built by `NewPoint(x, y)`. -/
structure Point where
  X : ℚ
  Y : ℚ
  deriving DecidableEq, Repr

/-- Modelled from the spec: `graphics.Label`, with the field names of the
tests. -/
structure Label where
  TheString : String
  FontHeight : ℚ
  Anchor : Point
  HJust : Justification
  VJust : Justification
  deriving DecidableEq, Repr

/-- Modelled from the spec: `graphics.Line`, with the field names of the
tests. -/
structure Line where
  P1 : Point
  P2 : Point
  Dashed : Bool
  deriving DecidableEq, Repr

/-- Modelled from the spec: a rectangle `{left, top, right, bottom}` (§3). -/
structure Rect where
  Left : ℚ
  Top : ℚ
  Right : ℚ
  Bottom : ℚ
  deriving DecidableEq, Repr

/-- Modelled from the spec: a filled polygon `{vertices}` (§3). -/
structure FilledPoly where
  Vertices : List Point
  deriving DecidableEq, Repr

/-- Modelled from the spec: the four ordered, append-only collections of
§3. -/
structure Primitives where
  Lines : List Line
  Rects : List Rect
  FilledPolys : List FilledPoly
  Labels : List Label
  deriving DecidableEq, Repr

/-- Modelled from the spec: `NewPrimitives`, the empty accumulator. -/
def NewPrimitives : Primitives :=
  { Lines := [], Rects := [], FilledPolys := [], Labels := [] }

/-- Modelled from the spec: `AddLabel` appends one label. -/
def Primitives.AddLabel (p : Primitives) (theString : String) (fontHeight x y : ℚ)
    (hJust vJust : Justification) : Primitives :=
  { p with Labels := p.Labels ++
      [{ TheString := theString, FontHeight := fontHeight, Anchor := ⟨x, y⟩,
         HJust := hJust, VJust := vJust }] }

/-- Modelled from the spec: `AddLine` appends one line. -/
def Primitives.AddLine (p : Primitives) (x1 y1 x2 y2 : ℚ) (dashed : Bool) : Primitives :=
  { p with Lines := p.Lines ++ [{ P1 := ⟨x1, y1⟩, P2 := ⟨x2, y2⟩, Dashed := dashed }] }

/-- Modelled from the spec: `AddRect` appends one rectangle. -/
def Primitives.AddRect (p : Primitives) (left top right bottom : ℚ) : Primitives :=
  { p with Rects := p.Rects ++ [{ Left := left, Top := top, Right := right, Bottom := bottom }] }

/-- Modelled from the spec: `AddFilledPoly` appends one filled polygon. -/
def Primitives.AddFilledPoly (p : Primitives) (vertices : List Point) : Primitives :=
  { p with FilledPolys := p.FilledPolys ++ [{ Vertices := vertices }] }

/-- Modelled from the spec: `RowOfStrings`, called by `make.go` and absent
from the sources, is the multi-row label helper: one top-justified label per
segment, row `i` at `firstRowY + i*fontHt` (as `rowOfLabels` of `creator.go`
does). The loop is started at row `i`. -/
def Primitives.RowOfStringsFrom (x firstRowY fontHt : ℚ) (hJust : Justification) :
    List String → Nat → Primitives → Primitives
  | [], _, p => p
  | labelSeg :: rest, i, p =>
    Primitives.RowOfStringsFrom x firstRowY fontHt hJust rest (i + 1)
      (p.AddLabel labelSeg fontHt x (firstRowY + (i : ℚ) * fontHt) hJust Justification.Top)

/-- Modelled from the spec: `RowOfStrings` (see `RowOfStringsFrom`). -/
def Primitives.RowOfStrings (p : Primitives) (x firstRowY fontHt : ℚ)
    (hJust : Justification) (labelSegments : List String) : Primitives :=
  Primitives.RowOfStringsFrom x firstRowY fontHt hJust labelSegments 0 p

/-- Modelled from the spec: the graphics model of §6,
`{width, height, fontHeight, dashLength, dashGap, primitives}`. -/
structure Model where
  Width : ℚ
  Height : ℚ
  FontHeight : ℚ
  DashLineDashLen : ℚ
  DashLineDashGap : ℚ
  Primitives : Primitives
  deriving DecidableEq, Repr

/-- Modelled from the spec: `NewModel` as `creator.go` calls it. -/
def NewModel (width height fontHeight dashLineDashLen dashLineDashGap : ℚ) : Model :=
  { Width := width, Height := height, FontHeight := fontHeight,
    DashLineDashLen := dashLineDashLen, DashLineDashGap := dashLineDashGap,
    Primitives := NewPrimitives }

end graphics

/-! ## `diag/interactions/make.go` -/

namespace interactions

/-- Struct `MakerDependencies` of `make.go`. -/
structure MakerDependencies where
  fontHt : ℚ
  spacer : lifeline.Spacing

/-- Constructor `NewMakerDependencies` of `make.go`. -/
def NewMakerDependencies (fontHt : ℚ) (spacer : lifeline.Spacing) : MakerDependencies :=
  { fontHt := fontHt, spacer := spacer }

/-- Struct `Maker` of `make.go`. Its `graphicsModel` pointer designates mutable
state, which the methods below take and return explicitly. -/
structure Maker where
  dependencies : MakerDependencies

/-- Constructor `NewMaker` of `make.go` (the graphics model is threaded separately). -/
def NewMaker (d : MakerDependencies) : Maker := { dependencies := d }

/-- What `NewLabelPosn(fromX, toX).Get()` computes; `NewLabelPosn` is absent
from the sources and is a parameter of the methods that call it. -/
abbrev LabelPosn := ℚ → ℚ → ℚ × graphics.Justification

/-- Method `(*Maker).LifelineCentres`. Indexing `ReferencedLifelines` out of range
panics. The source reads `.Centre` of the value `CentreLine` returns; here it
is that value. -/
def Maker.LifelineCentres (mkr : Maker) (interactionLine : dsl.Statement) :
    Option (ℚ × ℚ × GoError) :=
  match interactionLine.ReferencedLifelines[0]? with
  | none => none
  | some l0 =>
    match mkr.dependencies.spacer.CentreLine l0 with
    | none => none
    | some (_, some err) => some (-1, -1, some ("space.CentreLine: " ++ err))
    | some (fromCoords, none) =>
      match interactionLine.ReferencedLifelines[1]? with
      | none => none
      | some l1 =>
        match mkr.dependencies.spacer.CentreLine l1 with
        | none => none
        | some (_, some err) => some (-1, -1, some ("space.CentreLine: " ++ err))
        | some (toCoords, none) => some (fromCoords, toCoords, none)

/-- Method `(*Maker).interactionLabel`: the error of `LifelineCentres` is assigned and
never tested, the rows are added, and the function returns `-1, nil`. -/
def Maker.interactionLabel (NewLabelPosn : LabelPosn) (mkr : Maker) (tidemark : ℚ)
    (s : dsl.Statement) (gm : graphics.Model) : Option ((ℚ × GoError) × graphics.Model) :=
  match mkr.LifelineCentres s with
  | none => none
  | some (fromX, toX, _err) =>
    let x := (NewLabelPosn fromX toX).1
    let horizJustification := (NewLabelPosn fromX toX).2
    let fontHt := mkr.dependencies.fontHt
    let prims := gm.Primitives.RowOfStrings x tidemark fontHt horizJustification s.LabelSegments
    some ((-1, none), { gm with Primitives := prims })

/-- Method `(*Maker).startToBox`: returns `-1, nil`. -/
def Maker.startToBox (_mkr : Maker) (_tidemark : ℚ) (_s : dsl.Statement)
    (gm : graphics.Model) : Option ((ℚ × GoError) × graphics.Model) :=
  some ((-1, none), gm)

/-- Method `(*Maker).startFromBox`: returns `-1, nil`. -/
def Maker.startFromBox (_mkr : Maker) (_tidemark : ℚ) (_s : dsl.Statement)
    (gm : graphics.Model) : Option ((ℚ × GoError) × graphics.Model) :=
  some ((-1, none), gm)

/-- Method `(*Maker).interactionLine`: returns `-1, nil`. -/
def Maker.interactionLine (_mkr : Maker) (_tidemark : ℚ) (_s : dsl.Statement)
    (gm : graphics.Model) : Option ((ℚ × GoError) × graphics.Model) :=
  some ((-1, none), gm)

/-- Method `(*Maker).endBox`: returns `-1, nil`. -/
def Maker.endBox (_mkr : Maker) (_tidemark : ℚ) (_s : dsl.Statement)
    (gm : graphics.Model) : Option ((ℚ × GoError) × graphics.Model) :=
  some ((-1, none), gm)

/-- Type `actionFn` of `make.go`, a method value of the maker; the five methods
`Scan` binds are given by name. -/
inductive actionFn
  | interactionLabel | startToBox | startFromBox | interactionLine | endBox
  deriving DecidableEq, Repr

/-- Calling an `actionFn`. -/
def actionFn.call (NewLabelPosn : LabelPosn) (mkr : Maker) :
    actionFn → ℚ → dsl.Statement → graphics.Model →
      Option ((ℚ × GoError) × graphics.Model)
  | actionFn.interactionLabel => mkr.interactionLabel NewLabelPosn
  | actionFn.startToBox => mkr.startToBox
  | actionFn.startFromBox => mkr.startFromBox
  | actionFn.interactionLine => mkr.interactionLine
  | actionFn.endBox => mkr.endBox

/-- Struct `dispatch` of `make.go`. -/
structure dispatch where
  fn : actionFn
  statement : dsl.Statement
  deriving DecidableEq, Repr

/-- First loop of `Scan`: the actions a statement appends, by keyword. -/
def scheduled (s : dsl.Statement) : List dispatch :=
  match s.Keyword with
  | umli.Keyword.Dash =>
    [⟨actionFn.interactionLabel, s⟩, ⟨actionFn.startToBox, s⟩, ⟨actionFn.interactionLine, s⟩]
  | umli.Keyword.Full =>
    [⟨actionFn.interactionLabel, s⟩, ⟨actionFn.startFromBox, s⟩, ⟨actionFn.startToBox, s⟩,
     ⟨actionFn.interactionLine, s⟩]
  | umli.Keyword.Self =>
    [⟨actionFn.startFromBox, s⟩, ⟨actionFn.interactionLine, s⟩]
  | umli.Keyword.Stop => [⟨actionFn.endBox, s⟩]
  | _ => []

/-- First loop of `Scan`: the whole action list. -/
def buildActions (statements : List dsl.Statement) : List dispatch :=
  statements.foldl (fun actions s => actions ++ scheduled s) []

/-- Second loop of `Scan`. The state is `prevTidemark` and the graphics model;
the result is the error return (`some (-1, err)`) if an action fails, else the
state after the last action. The `updatedTidemark` the body assigns is declared
by `:=` inside the body. -/
def runActions (NewLabelPosn : LabelPosn) (mkr : Maker) :
    List dispatch → ℚ → graphics.Model →
      Option ((Option (ℚ × GoError)) × ℚ × graphics.Model)
  | [], prevTidemark, gm => some (none, prevTidemark, gm)
  | action :: rest, prevTidemark, gm =>
    match action.fn.call NewLabelPosn mkr prevTidemark action.statement gm with
    | none => none
    | some ((_, some err), gm1) => some (some (-1, some ("actionFn: " ++ err)), prevTidemark, gm1)
    | some ((updatedTidemark, none), gm1) => runActions NewLabelPosn mkr rest updatedTidemark gm1

/-- Method `(*Maker).Scan`. The function-level `var updatedTidemark float64` is never
assigned (the loop body declares its own with `:=`), so the value returned
after the loop is its zero value. -/
def Maker.Scan (NewLabelPosn : LabelPosn) (mkr : Maker) (tidemark : ℚ)
    (statements : List dsl.Statement) (gm : graphics.Model) :
    Option ((ℚ × GoError) × graphics.Model) :=
  let actions := buildActions statements
  let prevTidemark : ℚ := tidemark
  let updatedTidemark : ℚ := 0
  match runActions NewLabelPosn mkr actions prevTidemark gm with
  | none => none
  | some (some failure, _, gm1) => some (failure, gm1)
  | some (none, _, gm1) => some ((updatedTidemark, none), gm1)

/-- The maker of the test scenarios: font height 10 and the scenario
spacing. -/
def scenarioMaker : Maker := NewMaker (NewMakerDependencies 10 lifeline.scenarioSpacing)

/-- The graphics model of the test scenarios. -/
def scenarioModel : graphics.Model := graphics.NewModel 2000 0 10 5 1

/-- A label position rule for concrete runs: the midpoint, centred. -/
def midpointLabelPosn : LabelPosn := fun fromX toX => ((fromX + toX) / 2, graphics.Justification.Centre)

/-- A `full` statement between the lifelines at addresses 7 and 8, neither of
which is registered with the scenario spacing. -/
def strayFull : dsl.Statement :=
  { Keyword := umli.Keyword.Full, LifelineName := "", ReferencedLifelines := [7, 8],
    LabelSegments := ["fibble"], TextSize := 0, ShowLetters := false }

/-- A `stop` statement on lifeline `B`. -/
def stopB : dsl.Statement :=
  { Keyword := umli.Keyword.Stop, LifelineName := "", ReferencedLifelines := [2],
    LabelSegments := [], TextSize := 0, ShowLetters := false }

end interactions

/-! ## `diag/creator.go` -/

namespace sizers

/-- What `NewSizer` reads of the `Lifelines` struct (the delegated lifeline
sizing, whose declaration is absent from the sources). -/
structure Lifelines where
  SelfLoopWidth : ℚ
  deriving DecidableEq, Repr

/-- Struct `Sizer` of `sizer/sizer.go`; a Go value that was never assigned
holds zero. -/
structure Sizer where
  DiagramPadT : ℚ
  DiagramPadB : ℚ
  DiagPadL : ℚ
  FrameTitleTextPadT : ℚ
  FrameTitleTextPadB : ℚ
  FrameTitleTextPadL : ℚ
  FrameTitleBoxWidth : ℚ
  FrameTitleRectPadB : ℚ
  Lifelines : Option Lifelines
  InteractionLinePadB : ℚ
  InteractionLineTextPadB : ℚ
  InteractionLineLabelIndent : ℚ
  ArrowLen : ℚ
  ArrowHeight : ℚ
  DashLineDashLen : ℚ
  DashLineDashGap : ℚ
  SelfLoopHeight : ℚ
  ActivityBoxVerticalOverlap : ℚ
  FinalizedActivityBoxesPadB : ℚ
  MinLifelineSegLength : ℚ
  deriving DecidableEq, Repr

/-- The package constants that `NewSizer` reads; they are declared in
`settings.go`, which is absent from the sources, and are a parameter here. -/
structure Settings where
  diagramPadTK : ℚ
  diagramPadBK : ℚ
  diagPadLK : ℚ
  frameTitleTextPadTK : ℚ
  frameTitleTextPadBK : ℚ
  frameTitleBoxWidthK : ℚ
  frameTitleRectPadBK : ℚ
  frameTitleTextPadLK : ℚ
  arrowLenK : ℚ
  arrowAspectRatio : ℚ
  interactionLinePadBK : ℚ
  interactionLineTextPadBK : ℚ
  interactionLineLabelIndent : ℚ
  dashLineDashLenK : ℚ
  dashLineDashGapK : ℚ
  selfLoopAspectRatio : ℚ
  activityBoxVerticalOverlapK : ℚ
  finalizedActivityBoxesPadB : ℚ
  minLifelineSegLengthK : ℚ
  deriving DecidableEq, Repr

/-- The zero value `&Sizer{}`. -/
def zeroSizer : Sizer :=
  { DiagramPadT := 0, DiagramPadB := 0, DiagPadL := 0, FrameTitleTextPadT := 0,
    FrameTitleTextPadB := 0, FrameTitleTextPadL := 0, FrameTitleBoxWidth := 0,
    FrameTitleRectPadB := 0, Lifelines := none, InteractionLinePadB := 0,
    InteractionLineTextPadB := 0, InteractionLineLabelIndent := 0, ArrowLen := 0,
    ArrowHeight := 0, DashLineDashLen := 0, DashLineDashGap := 0, SelfLoopHeight := 0,
    ActivityBoxVerticalOverlap := 0, FinalizedActivityBoxesPadB := 0,
    MinLifelineSegLength := 0 }

/-- Assignment `sizer.DiagramPadT = v`. -/
def Sizer.setDiagramPadT (sizer : Sizer) (v : ℚ) : Sizer :=
  { sizer with DiagramPadT := v }

/-- Assignment `sizer.DiagramPadB = v`. -/
def Sizer.setDiagramPadB (sizer : Sizer) (v : ℚ) : Sizer :=
  { sizer with DiagramPadB := v }

/-- Assignment `sizer.DiagPadL = v`. -/
def Sizer.setDiagPadL (sizer : Sizer) (v : ℚ) : Sizer :=
  { sizer with DiagPadL := v }

/-- Assignment `sizer.FrameTitleTextPadT = v`. -/
def Sizer.setFrameTitleTextPadT (sizer : Sizer) (v : ℚ) : Sizer :=
  { sizer with FrameTitleTextPadT := v }

/-- Assignment `sizer.FrameTitleBoxWidth = v`. -/
def Sizer.setFrameTitleBoxWidth (sizer : Sizer) (v : ℚ) : Sizer :=
  { sizer with FrameTitleBoxWidth := v }

/-- Assignment `sizer.FrameTitleRectPadB = v`. -/
def Sizer.setFrameTitleRectPadB (sizer : Sizer) (v : ℚ) : Sizer :=
  { sizer with FrameTitleRectPadB := v }

/-- Assignment `sizer.FrameTitleTextPadL = v`. -/
def Sizer.setFrameTitleTextPadL (sizer : Sizer) (v : ℚ) : Sizer :=
  { sizer with FrameTitleTextPadL := v }

/-- Assignment `sizer.ArrowLen = v`. -/
def Sizer.setArrowLen (sizer : Sizer) (v : ℚ) : Sizer :=
  { sizer with ArrowLen := v }

/-- Assignment `sizer.ArrowHeight = v`. -/
def Sizer.setArrowHeight (sizer : Sizer) (v : ℚ) : Sizer :=
  { sizer with ArrowHeight := v }

/-- Assignment `sizer.InteractionLinePadB = v`. -/
def Sizer.setInteractionLinePadB (sizer : Sizer) (v : ℚ) : Sizer :=
  { sizer with InteractionLinePadB := v }

/-- Assignment `sizer.InteractionLineTextPadB = v`. -/
def Sizer.setInteractionLineTextPadB (sizer : Sizer) (v : ℚ) : Sizer :=
  { sizer with InteractionLineTextPadB := v }

/-- Assignment `sizer.InteractionLineLabelIndent = v`. -/
def Sizer.setInteractionLineLabelIndent (sizer : Sizer) (v : ℚ) : Sizer :=
  { sizer with InteractionLineLabelIndent := v }

/-- Assignment `sizer.DashLineDashLen = v`. -/
def Sizer.setDashLineDashLen (sizer : Sizer) (v : ℚ) : Sizer :=
  { sizer with DashLineDashLen := v }

/-- Assignment `sizer.DashLineDashGap = v`. -/
def Sizer.setDashLineDashGap (sizer : Sizer) (v : ℚ) : Sizer :=
  { sizer with DashLineDashGap := v }

/-- Assignment `sizer.SelfLoopHeight = v`. -/
def Sizer.setSelfLoopHeight (sizer : Sizer) (v : ℚ) : Sizer :=
  { sizer with SelfLoopHeight := v }

/-- Assignment `sizer.ActivityBoxVerticalOverlap = v`. -/
def Sizer.setActivityBoxVerticalOverlap (sizer : Sizer) (v : ℚ) : Sizer :=
  { sizer with ActivityBoxVerticalOverlap := v }

/-- Assignment `sizer.FinalizedActivityBoxesPadB = v`. -/
def Sizer.setFinalizedActivityBoxesPadB (sizer : Sizer) (v : ℚ) : Sizer :=
  { sizer with FinalizedActivityBoxesPadB := v }

/-- Assignment `sizer.MinLifelineSegLength = v`. -/
def Sizer.setMinLifelineSegLength (sizer : Sizer) (v : ℚ) : Sizer :=
  { sizer with MinLifelineSegLength := v }

/-- Assignment `sizer.Lifelines = v`. -/
def Sizer.setLifelines (sizer : Sizer) (v : sizers.Lifelines) : Sizer :=
  { sizer with Lifelines := some v }

/-- Function `NewSizer(diagramWidth, fontHeight, lifelineStatements)` of
`sizer/sizer.go`, one `let` per assignment and in the order of the source.
`NewLifelines` is absent from the sources and is a parameter. -/
def NewSizer (k : Settings) (NewLifelines : Int → ℚ → List StatementPtr → Lifelines)
    (diagramWidth : Int) (fontHeight : ℚ) (lifelineStatements : List StatementPtr) : Sizer :=
  let sizer := zeroSizer
  let fh := fontHeight
  let sizer := sizer.setDiagramPadT (k.diagramPadTK * fh)
  let sizer := sizer.setDiagramPadB (k.diagramPadBK * fh)
  let sizer := sizer.setDiagPadL (k.diagPadLK * fh)
  let sizer := sizer.setFrameTitleTextPadT (k.frameTitleTextPadTK * fh)
  let sizer := sizer.setFrameTitleTextPadT (k.frameTitleTextPadBK * fh)
  let sizer := sizer.setFrameTitleBoxWidth (k.frameTitleBoxWidthK * (diagramWidth : ℚ))
  let sizer := sizer.setFrameTitleRectPadB (k.frameTitleRectPadBK * fh)
  let sizer := sizer.setFrameTitleTextPadL (k.frameTitleTextPadLK * fh)
  let lifelines := NewLifelines diagramWidth fh lifelineStatements
  let sizer := sizer.setLifelines lifelines
  let sizer := sizer.setArrowLen (k.arrowLenK * fh)
  let sizer := sizer.setArrowHeight (k.arrowAspectRatio * sizer.ArrowLen)
  let sizer := sizer.setInteractionLinePadB (k.interactionLinePadBK * fh)
  let sizer := sizer.setInteractionLineTextPadB (k.interactionLineTextPadBK * fh)
  let sizer := sizer.setInteractionLineLabelIndent
    (sizer.ArrowLen + k.interactionLineLabelIndent * fh)
  let sizer := sizer.setDashLineDashLen (k.dashLineDashLenK * fh)
  let sizer := sizer.setDashLineDashGap (k.dashLineDashGapK * fh)
  let sizer := sizer.setSelfLoopHeight (lifelines.SelfLoopWidth * k.selfLoopAspectRatio)
  let sizer := sizer.setActivityBoxVerticalOverlap (k.activityBoxVerticalOverlapK * fh)
  let sizer := sizer.setFinalizedActivityBoxesPadB (k.finalizedActivityBoxesPadB * fh)
  let sizer := sizer.setMinLifelineSegLength (k.minLifelineSegLengthK * fh)
  sizer

/-- Coefficients for concrete runs: top coefficient 1/2, bottom coefficient
1/4, arrow length coefficient 3/2, arrow aspect ratio 2/5. -/
def scenarioSettings : Settings :=
  { diagramPadTK := 1, diagramPadBK := 1, diagPadLK := 1, frameTitleTextPadTK := 1 / 2,
    frameTitleTextPadBK := 1 / 4, frameTitleBoxWidthK := 1 / 10, frameTitleRectPadBK := 1,
    frameTitleTextPadLK := 1, arrowLenK := 3 / 2, arrowAspectRatio := 2 / 5,
    interactionLinePadBK := 1 / 2, interactionLineTextPadBK := 1 / 2,
    interactionLineLabelIndent := 1, dashLineDashLenK := 1, dashLineDashGapK := 1 / 2,
    selfLoopAspectRatio := 1 / 2, activityBoxVerticalOverlapK := 1 / 2,
    finalizedActivityBoxesPadB := 1, minLifelineSegLengthK := 1 }

/-- A lifelines sizing for concrete runs: self loops are 60 wide. -/
def scenarioNewLifelines : Int → ℚ → List StatementPtr → Lifelines :=
  fun _ _ _ => { SelfLoopWidth := 60 }

end sizers

namespace diag

/-- Modelled from the spec: a closed vertical interval (`segment` of the
sources, built as `segment{top, bot}`). -/
structure segment where
  start : ℚ
  stop : ℚ
  deriving DecidableEq, Repr

/-- Modelled from the spec: the activity box tracker of one lifeline (§4.3),
`lifelineBoxes` in `creator.go`, whose declaration is absent from the sources:
an ordered sequence of closed intervals plus at most one OPEN interval, of
which only the start is known. -/
structure lifelineBoxes where
  closed : List segment
  openStart : Option ℚ
  deriving DecidableEq, Repr

/-- Modelled from the spec: `newlifelineBoxes`, a tracker with no interval. -/
def newlifelineBoxes : lifelineBoxes := { closed := [], openStart := none }

/-- Modelled from the spec: `inProgress` (§4.3 `InProgress`), whether an
interval is OPEN. -/
def lifelineBoxes.inProgress (b : lifelineBoxes) : Bool := b.openStart.isSome

/-- Modelled from the spec: `startBoxAt` (§4.3 `StartAt`): a silent no-op if an
interval is already OPEN, otherwise opens a new interval at `y`. -/
def lifelineBoxes.startBoxAt (b : lifelineBoxes) (y : ℚ) : lifelineBoxes :=
  match b.openStart with
  | some _ => b
  | none => { b with openStart := some y }

/-- Modelled from the spec: `terminateInProgressBoxAt` (§4.3 `TerminateAt`):
fails (`none`) if no interval is OPEN, otherwise sets the OPEN interval's end
to `y`, closing it. -/
def lifelineBoxes.terminateInProgressBoxAt (b : lifelineBoxes) (y : ℚ) : Option lifelineBoxes :=
  match b.openStart with
  | none => none
  | some start => some { closed := b.closed ++ [⟨start, y⟩], openStart := none }

/-- Modelled from the spec: `mostRecent().extent.start` (§4.3
`MostRecentOpen`), read by `creator.go` only while a box is in progress: the
start of the OPEN interval. -/
def lifelineBoxes.mostRecentStart (b : lifelineBoxes) : Option ℚ := b.openStart

/-- Modelled from the spec: a no-go zone (§3), a vertical segment tagged with
the two lifelines of the interaction. -/
structure NoGoZone where
  segment : segment
  lifelineA : StatementPtr
  lifelineB : StatementPtr
  deriving DecidableEq, Repr

/-- Modelled from the spec: `InteractionLineZones` (§4.4), the registry of
zones in registration order. -/
abbrev InteractionLineZones := List NoGoZone

/-- Modelled from the spec: `RegisterSpaceClaim` appends one zone (§4.4). -/
def RegisterSpaceClaim (zones : InteractionLineZones) (lifelineA lifelineB : StatementPtr)
    (yStart yEnd : ℚ) : InteractionLineZones :=
  zones ++ [{ segment := ⟨yStart, yEnd⟩, lifelineA := lifelineA, lifelineB := lifelineB }]

/-- The methods of `lifelineGeomH` that `creator.go` calls. The type is absent
from the sources, so its methods are parameters of the embedding. -/
structure lifelineGeomH where
  TitleBoxWidth : ℚ
  CentreLine : StatementPtr → ℚ
  InteractionLabelPosition : StatementPtr → StatementPtr → ℚ × graphics.Justification
  InteractionLineEndPoints : StatementPtr → StatementPtr → ℚ × ℚ
  SelfInteractionLineXCoords : StatementPtr → ℚ × ℚ
  ActivityBoxXCoords : StatementPtr → ℚ × ℚ × ℚ

/-- What `makeArrow(x1, x2, y, arrowLen, arrowHeight)` computes; the function
is absent from the sources and is a parameter of the methods that call it. -/
abbrev ArrowMaker := ℚ → ℚ → ℚ → ℚ → ℚ → List graphics.Point

/-- The map `activityBoxes` of the creator, `map[*dsl.Statement]*lifelineBoxes`,
as an association list with distinct keys. -/
abbrev ActivityBoxes := List (StatementPtr × lifelineBoxes)

/-- Map lookup `activityBoxes[lifeline]`; `none` is the nil entry of a missing
key. -/
def ActivityBoxes.get : ActivityBoxes → StatementPtr → Option lifelineBoxes
  | [], _ => none
  | (k, b) :: rest, lifeline => if k = lifeline then some b else ActivityBoxes.get rest lifeline

/-- Mutation of the tracker that `activityBoxes[lifeline]` points to. -/
def ActivityBoxes.set : ActivityBoxes → StatementPtr → lifelineBoxes → ActivityBoxes
  | [], _, _ => []
  | (k, b) :: rest, lifeline, b' =>
    if k = lifeline then (k, b') :: rest else (k, b) :: ActivityBoxes.set rest lifeline b'

/-- Struct `Creator` of `creator.go`: the fields the pass down the page reads or
writes. -/
structure Creator where
  width : ℚ
  fontHeight : ℚ
  lifelineGeomH : lifelineGeomH
  activityBoxes : ActivityBoxes
  ilZones : InteractionLineZones
  graphicsModel : graphics.Model
  sizer : sizers.Sizer
  tideMark : ℚ

/-- The loop of `rowOfLabels`, started at row `i`. -/
def rowOfLabelsFrom (fontHeight x firstRowY : ℚ) (horizJustification : graphics.Justification) :
    List String → Nat → graphics.Primitives → graphics.Primitives
  | [], _, p => p
  | labelSeg :: rest, i, p =>
    let y := firstRowY + (i : ℚ) * fontHeight
    rowOfLabelsFrom fontHeight x firstRowY horizJustification rest (i + 1)
      (p.AddLabel labelSeg fontHeight x y horizJustification graphics.Justification.Top)

/-- Method `(*Creator).rowOfLabels`. -/
def Creator.rowOfLabels (c : Creator) (x firstRowY : ℚ)
    (horizJustification : graphics.Justification) (labelSegments : List String) : Creator :=
  let prims := rowOfLabelsFrom c.fontHeight x firstRowY horizJustification labelSegments 0
    c.graphicsModel.Primitives
  { c with graphicsModel := { c.graphicsModel with Primitives := prims } }

/-- Method `(*Creator).interactionLabel`. Indexing `ReferencedLifelines` out of range
panics. -/
def Creator.interactionLabel (c : Creator) (statement : dsl.Statement) : Option Creator :=
  match statement.ReferencedLifelines[0]? with
  | none => none
  | some sourceLifeline =>
    match statement.ReferencedLifelines[1]? with
    | none => none
    | some destLifeline =>
      let posn := c.lifelineGeomH.InteractionLabelPosition sourceLifeline destLifeline
      let x := posn.1
      let horizJustification := posn.2
      let firstRowY := c.tideMark
      let c1 := c.rowOfLabels x firstRowY horizJustification statement.LabelSegments
      let tideMark := c1.tideMark +
        ((statement.LabelSegments.length : ℚ) * c1.fontHeight + c1.sizer.InteractionLineTextPadB)
      let zones := RegisterSpaceClaim c1.ilZones sourceLifeline destLifeline firstRowY tideMark
      some { c1 with tideMark := tideMark, ilZones := zones }

/-- Method `(*Creator).interactionLine`. -/
def Creator.interactionLine (makeArrow : ArrowMaker) (c : Creator) (statement : dsl.Statement) :
    Option Creator :=
  match statement.ReferencedLifelines[0]? with
  | none => none
  | some sourceLifeline =>
    match statement.ReferencedLifelines[1]? with
    | none => none
    | some destLifeline =>
      let ends := c.lifelineGeomH.InteractionLineEndPoints sourceLifeline destLifeline
      let x1 := ends.1
      let x2 := ends.2
      let y := c.tideMark
      let dashed : Bool := decide (statement.Keyword = umli.Keyword.Dash)
      let prims1 := c.graphicsModel.Primitives.AddLine x1 y x2 y dashed
      let arrowVertices := makeArrow x1 x2 y c.sizer.ArrowLen c.sizer.ArrowHeight
      let prims2 := prims1.AddFilledPoly arrowVertices
      let tideMark := c.tideMark + ((1 / 2 : ℚ) * c.sizer.ArrowHeight + c.sizer.InteractionLinePadB)
      let zones := RegisterSpaceClaim c.ilZones sourceLifeline destLifeline y tideMark
      some { c with graphicsModel := { c.graphicsModel with Primitives := prims2 },
                    tideMark := tideMark, ilZones := zones }

/-- Method `(*Creator).selfInteractionLines`. -/
def Creator.selfInteractionLines (makeArrow : ArrowMaker) (c : Creator)
    (statement : dsl.Statement) : Option Creator :=
  match statement.ReferencedLifelines[0]? with
  | none => none
  | some theLifeline =>
    let centre := c.lifelineGeomH.CentreLine theLifeline
    let labelX := centre + c.sizer.InteractionLineLabelIndent
    let firstRowY := c.tideMark
    let c1 := c.rowOfLabels labelX firstRowY graphics.Justification.Left statement.LabelSegments
    let n := statement.LabelSegments.length
    let tideMark1 := c1.tideMark + (n : ℚ) * c1.fontHeight
    let tideMark2 := tideMark1 + c1.sizer.InteractionLineTextPadB
    let coords := c1.lifelineGeomH.SelfInteractionLineXCoords theLifeline
    let left := coords.1
    let right := coords.2
    let top := tideMark2
    let bot := tideMark2 + c1.sizer.SelfLoopHeight
    let prims1 := c1.graphicsModel.Primitives.AddLine left top right top false
    let prims2 := prims1.AddLine right top right bot false
    let prims3 := prims2.AddLine right bot left bot false
    let arrowVertices := makeArrow right left bot c1.sizer.ArrowLen c1.sizer.ArrowHeight
    let prims4 := prims3.AddFilledPoly arrowVertices
    some { c1 with graphicsModel := { c1.graphicsModel with Primitives := prims4 },
                   tideMark := bot + c1.sizer.InteractionLinePadB }

/-- Method `(*Creator).potentiallyStartActivityBox`. A lifeline with no entry in
`activityBoxes` gives a nil tracker, whose use panics. -/
def Creator.potentiallyStartActivityBox (c : Creator) (lifeline : StatementPtr)
    (behindTidemarkDelta : ℚ) : Option Creator :=
  match c.activityBoxes.get lifeline with
  | none => none
  | some boxes =>
    if boxes.inProgress then some c
    else
      let y := c.tideMark - behindTidemarkDelta
      some { c with activityBoxes := c.activityBoxes.set lifeline (boxes.startBoxAt y) }

/-- Method `(*Creator).potentiallyStartToBox`. -/
def Creator.potentiallyStartToBox (c : Creator) (statement : dsl.Statement) : Option Creator :=
  let behindTidemarkDelta : ℚ := 0
  match statement.ReferencedLifelines[1]? with
  | none => none
  | some lifeline => c.potentiallyStartActivityBox lifeline behindTidemarkDelta

/-- Method `(*Creator).potentiallyStartFromBox`. -/
def Creator.potentiallyStartFromBox (c : Creator) (statement : dsl.Statement) : Option Creator :=
  let behindTidemarkDelta := c.sizer.ActivityBoxVerticalOverlap
  match statement.ReferencedLifelines[0]? with
  | none => none
  | some lifeline => c.potentiallyStartActivityBox lifeline behindTidemarkDelta

/-- Method `(*Creator).finalizeActivityBox`. -/
def Creator.finalizeActivityBox (c : Creator) (lifeline : StatementPtr) (bottom : ℚ) :
    Option Creator :=
  match c.activityBoxes.get lifeline with
  | none => none
  | some boxes =>
    if !boxes.inProgress then some c
    else
      match boxes.mostRecentStart with
      | none => none
      | some top =>
        let coords := c.lifelineGeomH.ActivityBoxXCoords lifeline
        let left := coords.1
        let right := coords.2.2
        let prims := c.graphicsModel.Primitives.AddRect left top right bottom
        match boxes.terminateInProgressBoxAt bottom with
        | none => none
        | some boxes1 =>
          some { c with graphicsModel := { c.graphicsModel with Primitives := prims },
                        tideMark := bottom,
                        activityBoxes := c.activityBoxes.set lifeline boxes1 }

/-- Method `(*Creator).endBox`. -/
def Creator.endBox (c : Creator) (endBoxStatement : dsl.Statement) : Option Creator :=
  match endBoxStatement.ReferencedLifelines[0]? with
  | none => none
  | some lifeline =>
    let bottom := c.tideMark
    c.finalizeActivityBox lifeline bottom

/-- The `eventType` constants that `graphicsForDrawingEvent` switches on. -/
inductive eventType
  | EndBox | InteractionLine | InteractionLabel | SelfInteractionLines
  | PotentiallyStartFromBox | PotentiallyStartToBox
  deriving DecidableEq, Repr

/-- Method `(*Creator).graphicsForDrawingEvent`. -/
def Creator.graphicsForDrawingEvent (makeArrow : ArrowMaker) (c : Creator) (evt : eventType)
    (statement : dsl.Statement) : Option Creator :=
  match evt with
  | eventType.EndBox => c.endBox statement
  | eventType.InteractionLine => c.interactionLine makeArrow statement
  | eventType.InteractionLabel => c.interactionLabel statement
  | eventType.SelfInteractionLines => c.selfInteractionLines makeArrow statement
  | eventType.PotentiallyStartFromBox => c.potentiallyStartFromBox statement
  | eventType.PotentiallyStartToBox => c.potentiallyStartToBox statement

/-- Inner loop of `processDSLWorkingDownThePage`: the graphical events of one
statement, in order. -/
def Creator.statementEvents (makeArrow : ArrowMaker) :
    List eventType → dsl.Statement → Creator → Option Creator
  | [], _, c => some c
  | evt :: rest, statement, c =>
    match c.graphicsForDrawingEvent makeArrow evt statement with
    | none => none
    | some c1 => Creator.statementEvents makeArrow rest statement c1

/-- Method `(*Creator).processDSLWorkingDownThePage`. The scanner that maps each
statement to its graphical events is absent from the sources and is the
parameter `graphicalEvents`. -/
def Creator.processDSLWorkingDownThePage (makeArrow : ArrowMaker)
    (graphicalEvents : dsl.Statement → List eventType) :
    List dsl.Statement → Creator → Option Creator
  | [], c => some c
  | statement :: rest, c =>
    match Creator.statementEvents makeArrow (graphicalEvents statement) statement c with
    | none => none
    | some c1 => Creator.processDSLWorkingDownThePage makeArrow graphicalEvents rest c1

/-- Modelled from the spec: the ordered sub-steps of a `Full` statement
(§4.5): label, start-from-box, start-to-box, line. -/
def fullEvents : List eventType :=
  [eventType.InteractionLabel, eventType.PotentiallyStartFromBox,
   eventType.PotentiallyStartToBox, eventType.InteractionLine]

/-- Modelled from the spec: the ordered sub-steps of a `Dash` statement
(§4.5): those of `Full` without start-from-box. -/
def dashEvents : List eventType :=
  [eventType.InteractionLabel, eventType.PotentiallyStartToBox, eventType.InteractionLine]

/-- Sizes of the test scenarios of `make_test.go` (arrow 10 long and 4 high,
overlap 5, line padding 4, text padding 5). -/
def scenarioSizes : sizers.Sizer :=
  { sizers.zeroSizer with
    DiagramPadT := 0, DiagramPadB := 0, InteractionLinePadB := 4, InteractionLineTextPadB := 5,
    InteractionLineLabelIndent := 0, ArrowLen := 10, ArrowHeight := 4, DashLineDashLen := 5,
    DashLineDashGap := 1, SelfLoopHeight := 30, ActivityBoxVerticalOverlap := 5,
    FinalizedActivityBoxesPadB := 0, MinLifelineSegLength := 1 }

/-- A horizontal geometry for concrete runs: lifeline `k` is centred at
`500 * k`, labels are centred on the midpoint, lines run centre to centre. -/
def scenarioGeom : lifelineGeomH :=
  { TitleBoxWidth := 300,
    CentreLine := fun l => 500 * (l : ℚ),
    InteractionLabelPosition := fun a b =>
      ((500 * (a : ℚ) + 500 * (b : ℚ)) / 2, graphics.Justification.Centre),
    InteractionLineEndPoints := fun a b => (500 * (a : ℚ), 500 * (b : ℚ)),
    SelfInteractionLineXCoords := fun l => (500 * (l : ℚ) + 20, 500 * (l : ℚ) + 120),
    ActivityBoxXCoords := fun l => (500 * (l : ℚ) - 20, 500 * (l : ℚ), 500 * (l : ℚ) + 20) }

/-- An arrow head for concrete runs: tip at `(x2, y)`, tails `arrowLen` back
towards `x1`, half the arrow height above and below. -/
def scenarioArrow : ArrowMaker := fun x1 x2 y arrowLen arrowHeight =>
  let back := if x1 ≤ x2 then x2 - arrowLen else x2 + arrowLen
  [⟨x2, y⟩, ⟨back, y - arrowHeight / 2⟩, ⟨back, y + arrowHeight / 2⟩]

/-- The creator of Scenario 1 just before the pass: lifelines `A` (address 1)
and `B` (address 2) with empty trackers, font height 10, tide mark 30. -/
def scenarioCreator : Creator :=
  { width := 2000, fontHeight := 10, lifelineGeomH := scenarioGeom,
    activityBoxes := [(1, newlifelineBoxes), (2, newlifelineBoxes)], ilZones := [],
    graphicsModel := graphics.NewModel 2000 0 10 5 1, sizer := scenarioSizes, tideMark := 30 }

/-- The statement `full AB fibble` of Scenario 1. -/
def fullAB : dsl.Statement :=
  { Keyword := umli.Keyword.Full, LifelineName := "", ReferencedLifelines := [1, 2],
    LabelSegments := ["fibble"], TextSize := 0, ShowLetters := false }

/-- A `full AB` statement with a two-row label. -/
def fullABTwoRows : dsl.Statement :=
  { Keyword := umli.Keyword.Full, LifelineName := "", ReferencedLifelines := [1, 2],
    LabelSegments := ["edit_facilities(", "payload, user_token)"], TextSize := 0,
    ShowLetters := false }

/-- The statement `dash AB fibble` of Scenario 2. -/
def dashAB : dsl.Statement :=
  { Keyword := umli.Keyword.Dash, LifelineName := "", ReferencedLifelines := [1, 2],
    LabelSegments := ["fibble"], TextSize := 0, ShowLetters := false }

/-- The statement `self A fibble` of Scenario 3. -/
def selfA : dsl.Statement :=
  { Keyword := umli.Keyword.Self, LifelineName := "", ReferencedLifelines := [1],
    LabelSegments := ["fibble"], TextSize := 0, ShowLetters := false }

/-- The creator of Scenario 3 just before the pass: the single lifeline `A`
(address 1) with an empty tracker, font height 10, tide mark 30. -/
def selfScenarioCreator : Creator :=
  { width := 2000, fontHeight := 10, lifelineGeomH := scenarioGeom,
    activityBoxes := [(1, newlifelineBoxes)], ilZones := [],
    graphicsModel := graphics.NewModel 2000 0 10 5 1, sizer := scenarioSizes, tideMark := 30 }

/-- The keys of the `activityBoxes` map. -/
def ActivityBoxes.keys (m : ActivityBoxes) : List StatementPtr := m.map Prod.fst

/-- The loop of `finalizeActivityBoxes` over the lifelines of the map, in the
order `order` in which `range` happens to visit them, with `bottom` computed
before the loop. -/
def Creator.finalizeActivityBoxesLoop : List StatementPtr → ℚ → Creator → Option Creator
  | [], _, c => some c
  | lifeline :: rest, bottom, c =>
    match c.finalizeActivityBox lifeline bottom with
    | none => none
    | some c1 => Creator.finalizeActivityBoxesLoop rest bottom c1

/-- Method `(*Creator).finalizeActivityBoxes`. Go visits the keys of a map in
an unspecified order; `order` is that order, a permutation of the keys. -/
def Creator.finalizeActivityBoxes (order : List StatementPtr) (c : Creator) : Option Creator :=
  let bottom := c.tideMark + c.sizer.ActivityBoxVerticalOverlap
  match Creator.finalizeActivityBoxesLoop order bottom c with
  | none => none
  | some c1 => some { c1 with tideMark := bottom + c1.sizer.FinalizedActivityBoxesPadB }

/-- Modelled from the spec: the single sub-step of a `Stop` statement (§4.5),
which closes the OPEN interval of the referenced lifeline. -/
def stopEvents : List eventType := [eventType.EndBox]

/-- The creator of Scenario 4 when `stop B` is reached, that is after
`full AB fibble` in Scenario 1: tide mark 51, the line at Y = 45, lifeline `A`
open since 40 and lifeline `B` open since 45. -/
def stopScenarioCreator : Creator :=
  { width := 2000, fontHeight := 10, lifelineGeomH := scenarioGeom,
    activityBoxes := [(1, { closed := [], openStart := some 40 }),
                      (2, { closed := [], openStart := some 45 })],
    ilZones := [{ segment := ⟨30, 45⟩, lifelineA := 1, lifelineB := 2 },
                { segment := ⟨45, 51⟩, lifelineA := 1, lifelineB := 2 }],
    graphicsModel :=
      { Width := 2000, Height := 0, FontHeight := 10, DashLineDashLen := 5,
        DashLineDashGap := 1,
        Primitives :=
          { Lines := [{ P1 := ⟨500, 45⟩, P2 := ⟨1000, 45⟩, Dashed := false }],
            Rects := [],
            FilledPolys := [{ Vertices := [⟨1000, 45⟩, ⟨990, 43⟩, ⟨990, 47⟩] }],
            Labels := [{ TheString := "fibble", FontHeight := 10, Anchor := ⟨750, 30⟩,
                         HJust := graphics.Justification.Centre,
                         VJust := graphics.Justification.Top }] } },
    sizer := scenarioSizes, tideMark := 51 }

/-- A `full AB` statement with no label segment. -/
def fullABNoLabel : dsl.Statement :=
  { Keyword := umli.Keyword.Full, LifelineName := "", ReferencedLifelines := [1, 2],
    LabelSegments := [], TextSize := 0, ShowLetters := false }

/-- The Scenario 1 creator (font height 10, tide mark 30) with a sizer whose
text padding, arrow height and line padding are zero; every sizer value is
non-negative. -/
def zeroPaddingCreator : Creator :=
  { scenarioCreator with
    sizer := { scenarioSizes with
               InteractionLineTextPadB := 0, ArrowHeight := 0, InteractionLinePadB := 0 } }

end diag

/-! ## The model and the initialisation of the creator -/

namespace dsl

/-- Modelled from the spec: `dsl.Model` (§3), whose declaration is absent from
the sources: the statements in script order. The model holds its statements by
pointer; here the position in the list is the identity of a statement, and a
write through a pointer replaces the statement at that position. -/
structure Model where
  statements : List Statement
  deriving DecidableEq, Repr

/-- Modelled from the spec: `FirstStatementOfType(keyword)`, the first
statement with the keyword; the pair `(s, ok)` is an `Option`. -/
def Model.FirstStatementOfType (m : Model) (keyword : umli.Keyword) : Option Statement :=
  m.statements.find? (fun s => decide (s.Keyword = keyword))

/-- Modelled from the spec: `LifelineStatements()`, the pointers to the `Life`
statements in script order. -/
def Model.LifelineStatements (m : Model) : List StatementPtr :=
  (List.range m.statements.length).filter (fun i =>
    match m.statements[i]? with
    | some s => decide (s.Keyword = umli.Keyword.Life)
    | none => false)

/-- A write through the pointer `p`: the statement at `p` becomes `f` of it. -/
def Model.write (m : Model) (p : StatementPtr) (f : Statement → Statement) : Model :=
  { statements := m.statements.modify f p }

end dsl

namespace diag

/-- Method `(*Creator).setWidthAndFontHeight`, with the model it reads as an
argument. The panic on a zero `TextSize` is `none`. -/
def Creator.setWidthAndFontHeight (c : Creator) (model : dsl.Model) : Option Creator :=
  let c := { c with width := 2000 }
  let defaultTextHeightRatio : ℚ := 1 / 100
  let textHeightRatio := defaultTextHeightRatio
  match model.FirstStatementOfType umli.Keyword.TextSize with
  | some s =>
    if s.TextSize = 0 then none
    else
      let textHeightRatio := s.TextSize / 1000
      some { c with fontHeight := c.width * textHeightRatio }
  | none => some { c with fontHeight := c.width * textHeightRatio }

/-- The loop of `addLettersToLifelineTitles` over the lifeline statements: each
assignment `s.LabelSegments = append(s.LabelSegments, addition...)` is a write
through the pointer `s`. -/
def addLettersLoop : List StatementPtr → dsl.Model → dsl.Model
  | [], model => model
  | s :: rest, model =>
    addLettersLoop rest (model.write s (fun st =>
      let letter := st.LifelineName
      let addition := ["", letter]
      { st with LabelSegments := st.LabelSegments ++ addition }))

/-- Method `(*Creator).addLettersToLifelineTitles`: it reads and writes only
the model, which is the argument and the result here. -/
def addLettersToLifelineTitles (model : dsl.Model) : dsl.Model :=
  let showLetters := true
  let showLetters :=
    match model.FirstStatementOfType umli.Keyword.ShowLetters with
    | some s => if s.ShowLetters = false then false else showLetters
    | none => showLetters
  if showLetters then addLettersLoop model.LifelineStatements model else model

/-- The loop of `lifelineTitleBoxes` over the lifeline statements. Reading
through a pointer that is not in the model panics. `TitleBoxLabelPadB` is not a
field of the `Sizer` of `sizer/sizer.go` and is an argument. -/
def lifelineTitleBoxesLoop (titleBoxLabelPadB top bot : ℚ) (model : dsl.Model) :
    List StatementPtr → Creator → Option Creator
  | [], c => some c
  | lifeline :: rest, c =>
    match model.statements[lifeline]? with
    | none => none
    | some st =>
      let centre := c.lifelineGeomH.CentreLine lifeline
      let left := centre - (1 / 2 : ℚ) * c.lifelineGeomH.TitleBoxWidth
      let right := centre + (1 / 2 : ℚ) * c.lifelineGeomH.TitleBoxWidth
      let prims := c.graphicsModel.Primitives.AddRect left top right bot
      let c1 := { c with graphicsModel := { c.graphicsModel with Primitives := prims } }
      let n := st.LabelSegments.length
      let firstRowY := bot - (n : ℚ) * c1.fontHeight - titleBoxLabelPadB
      lifelineTitleBoxesLoop titleBoxLabelPadB top bot model rest
        (c1.rowOfLabels centre firstRowY graphics.Justification.Centre st.LabelSegments)

/-- Method `(*Creator).lifelineTitleBoxes`, with the model it reads as an
argument. The title box height of the lifeline maker and the sizes
`TitleBoxLabelPadB` and `TitleBoxPadB` are absent from the sources and are
arguments; the length of the segment `{top, bot}` is `bot - top`. -/
def Creator.lifelineTitleBoxes (titleBoxHeight titleBoxLabelPadB titleBoxPadB : ℚ)
    (model : dsl.Model) (c : Creator) : Option Creator :=
  let top := c.tideMark
  let bot := top + titleBoxHeight
  match lifelineTitleBoxesLoop titleBoxLabelPadB top bot model model.LifelineStatements c with
  | none => none
  | some c1 =>
    let c2 := { c1 with tideMark := c1.tideMark + (bot - top) }
    some { c2 with tideMark := c2.tideMark + titleBoxPadB }

/-- The model of `TestAddLifelineLetters`: one lifeline `A` labelled `foo`. -/
def oneLifelineModel : dsl.Model :=
  { statements := [{ Keyword := umli.Keyword.Life, LifelineName := "A",
                     ReferencedLifelines := [], LabelSegments := ["foo"], TextSize := 0,
                     ShowLetters := false }] }

/-- A statement that only carries a keyword, a text size and a letters flag. -/
def directive (keyword : umli.Keyword) (textSize : ℚ) (showLetters : Bool) : dsl.Statement :=
  { Keyword := keyword, LifelineName := "", ReferencedLifelines := [], LabelSegments := [],
    TextSize := textSize, ShowLetters := showLetters }

/-- A title, the lifeline `A` labelled `foo` and a `ShowLetters` statement with
the given value. -/
def lettersModel (showLetters : Bool) : dsl.Model :=
  { statements := [{ Keyword := umli.Keyword.Title, LifelineName := "",
                     ReferencedLifelines := [], LabelSegments := ["aTitle"], TextSize := 0,
                     ShowLetters := false },
                   { Keyword := umli.Keyword.Life, LifelineName := "A",
                     ReferencedLifelines := [], LabelSegments := ["foo"], TextSize := 0,
                     ShowLetters := false },
                   directive umli.Keyword.ShowLetters 0 showLetters] }

/-- A model whose only statement is `TextSize` with the given value. -/
def textSizeModel (textSize : ℚ) : dsl.Model :=
  { statements := [directive umli.Keyword.TextSize textSize false] }

end diag

/-! ## Gaps and the lifeline finalizer -/

namespace lifeline

/-- Modelled from the spec: whether a no-go zone affects a lifeline (§4.4).
With `lo`, `hi` the least and greatest index of the zone's two tagged
lifelines, the zone affects the lifeline iff `lo < index < hi`. The index is
the one `lifelineNumber` of `spacing.go` computes, the position among all
lifelines. -/
def affects (allLifelines : List StatementPtr) (zone : diag.NoGoZone)
    (lifeline : StatementPtr) : Bool :=
  let idxA := (lifelineNumberFrom allLifelines zone.lifelineA 0).1
  let idxB := (lifelineNumberFrom allLifelines zone.lifelineB 0).1
  let idx := (lifelineNumberFrom allLifelines lifeline 0).1
  let lo := min idxA idxB
  let hi := max idxA idxB
  decide (lo < idx ∧ idx < hi)

/-- Modelled from the spec: `Gaps` of `gaps_test.go`, the gaps a lifeline must
leave. -/
structure Gaps where
  Items : List diag.segment
  deriving DecidableEq, Repr

/-- Modelled from the spec: `PopulateFromNoGoZones(noGoZones, lifeline,
allLifelines)` started from `Gaps{}`: one gap, the zone's segment, for each
zone that affects the lifeline, in the order of the zones. -/
def PopulateFromNoGoZones (noGoZones : List diag.NoGoZone) (lifeline : StatementPtr)
    (allLifelines : List StatementPtr) : Gaps :=
  { Items := (noGoZones.filter (fun zone => affects allLifelines zone lifeline)).map
      (fun zone => zone.segment) }

/-- Modelled from the spec: what `NewFinalizer(lifelines, spacer, noGoZones,
boxes, sizer)` holds and `Finalize` reads: the lifelines in order, the centre
line X of each lifeline (from the spacer), the no-go zones and the activity-box
intervals recorded for each lifeline. -/
structure Finalizer where
  lifelines : List StatementPtr
  centreLine : StatementPtr → ℚ
  noGoZones : List diag.NoGoZone
  boxes : StatementPtr → List diag.segment

/-- Modelled from the spec: the forbidden intervals gathered for a lifeline
(§4.6): the gaps of the no-go zones that apply to it, then its activity-box
intervals. -/
def Finalizer.forbidden (f : Finalizer) (lifeline : StatementPtr) : List diag.segment :=
  (PopulateFromNoGoZones f.noGoZones lifeline f.lifelines).Items ++ f.boxes lifeline

/-- The order used to sort intervals: by start. -/
def startsNoLater (a b : diag.segment) : Prop := a.start ≤ b.start

instance : DecidableRel startsNoLater :=
  fun a b => inferInstanceAs (Decidable (a.start ≤ b.start))

/-- Modelled from the spec: sort by start (§4.6). -/
def sortByStart (segs : List diag.segment) : List diag.segment :=
  segs.insertionSort startsNoLater

/-- Modelled from the spec: merge overlaps (§4.6), with `cur` the interval
being grown: the next interval is absorbed when it starts no later than `cur`
stops. -/
def mergeInto (cur : diag.segment) : List diag.segment → List diag.segment
  | [] => [cur]
  | g :: rest =>
    if g.start ≤ cur.stop then mergeInto ⟨cur.start, max cur.stop g.stop⟩ rest
    else cur :: mergeInto g rest

/-- Modelled from the spec: merge the overlaps of intervals sorted by start. -/
def mergeOverlaps : List diag.segment → List diag.segment
  | [] => []
  | g :: rest => mergeInto g rest

/-- Modelled from the spec: the complementary sub-segments of `[cursor,
bottom]` (§4.6) for merged intervals in order: the stretch from the cursor to
the next interval when it is not empty, then on from the end of that
interval. -/
def complement (bottom : ℚ) : ℚ → List diag.segment → List diag.segment
  | cursor, [] => if cursor < bottom then [⟨cursor, bottom⟩] else []
  | cursor, m :: rest =>
    let upto := min m.start bottom
    let here : List diag.segment := if cursor < upto then [⟨cursor, upto⟩] else []
    here ++ complement bottom (max cursor m.stop) rest

/-- Modelled from the spec: the visible segments of a lifeline (§4.6): gather,
sort by start, merge overlaps, take the complement in `[top, bottom]`, drop the
segments shorter than `minSegLen`. -/
def Finalizer.visibleSegments (f : Finalizer) (top bottom minSegLen : ℚ)
    (lifeline : StatementPtr) : List diag.segment :=
  (complement bottom top (mergeOverlaps (sortByStart (f.forbidden lifeline)))).filter
    (fun g => decide (minSegLen ≤ g.stop - g.start))

/-- One dashed line at `x` per segment. -/
def addDashedSegments (x : ℚ) : List diag.segment → graphics.Primitives → graphics.Primitives
  | [], p => p
  | g :: rest, p => addDashedSegments x rest (p.AddLine x g.start x g.stop true)

/-- The loop of `Finalize` over the lifelines. -/
def finalizeLoop (f : Finalizer) (top bottom minSegLen : ℚ) :
    List StatementPtr → graphics.Primitives → graphics.Primitives
  | [], p => p
  | lifeline :: rest, p =>
    finalizeLoop f top bottom minSegLen rest
      (addDashedSegments (f.centreLine lifeline)
        (f.visibleSegments top bottom minSegLen lifeline) p)

/-- Modelled from the spec: `Finalize(top, bottom, minSegLen, primitives)`
(§4.6): every lifeline's visible segments become dashed lines at its centre
line X. -/
def Finalizer.Finalize (f : Finalizer) (top bottom minSegLen : ℚ)
    (primitives : graphics.Primitives) : graphics.Primitives :=
  finalizeLoop f top bottom minSegLen f.lifelines primitives

/-- The point `y` lies in one of the closed intervals `fs`. -/
def covered (fs : List diag.segment) (y : ℚ) : Prop :=
  ∃ f ∈ fs, f.start ≤ y ∧ y ≤ f.stop

/-- The segment `g` is a maximal sub-interval of `[top, bottom]` not covered by
the closed intervals `fs`: it lies in the band and is not degenerate, no point
strictly inside it is covered, and it cannot be extended at either end, because
the end is an end of the band or a covered point. -/
def IsMaximalUncovered (fs : List diag.segment) (top bottom : ℚ) (g : diag.segment) : Prop :=
  top ≤ g.start ∧ g.start < g.stop ∧ g.stop ≤ bottom ∧
  (∀ y, g.start < y → y < g.stop → ¬ covered fs y) ∧
  (g.start = top ∨ covered fs g.start) ∧
  (g.stop = bottom ∨ covered fs g.stop)

/-- The zones of `gaps_test.go`: segments `[1, 2]` and `[5, 6]`, both between
the lifelines `a` (address 1) and `c` (address 3). -/
def gapsTestZones : List diag.NoGoZone :=
  [⟨⟨1, 2⟩, 1, 3⟩, ⟨⟨5, 6⟩, 1, 3⟩]

/-- Scenario 5, the finalizer of `finalizer_test.go`: lifelines `A`, `B`, `C`
(addresses 1, 2, 3) centred at 500, 1000, 1500, one no-go zone `[50, 60]`
between `A` and `C`, one activity box `[80, 90]` on `B`. -/
def scenarioFinalizer : Finalizer :=
  { lifelines := [1, 2, 3],
    centreLine := fun l => 500 * (l : ℚ),
    noGoZones := [⟨⟨50, 60⟩, 1, 3⟩],
    boxes := fun l => if l = 2 then [⟨80, 90⟩] else [] }

end lifeline

/-! ## Lemmas on lifeline spacing -/

namespace lifeline

theorem lifelineNumberFrom_snd_eq_none_iff (ls : List StatementPtr)
    (lifeline : StatementPtr) (num : Nat) :
    (lifelineNumberFrom ls lifeline num).2 = none ↔ lifeline ∈ ls := by
  induction ls generalizing num with
  | nil => simp [lifelineNumberFrom]
  | cons registered rest ih =>
    unfold lifelineNumberFrom
    by_cases h : registered = lifeline
    · simp [h]
    · have h' : ¬ lifeline = registered := fun e => h e.symm
      simp [h, h', ih]

theorem calcDrivingValues_isSome (s : Spacing)
    (hw : (s.sizer.Get "IdealLifelineTitleBoxWidth").isSome)
    (hd : (s.sizer.Get "DiagWidth").isSome)
    (hf : (s.sizer.Get "FontHt").isSome) :
    s.calcDrivingValues.isSome := by
  obtain ⟨a, ha⟩ := Option.isSome_iff_exists.mp hw
  obtain ⟨b, hb⟩ := Option.isSome_iff_exists.mp hd
  obtain ⟨c, hc⟩ := Option.isSome_iff_exists.mp hf
  unfold Spacing.calcDrivingValues
  simp only [ha, hb, hc]
  split <;> rfl

theorem calcDrivingValues_eq (s : Spacing) (idealWidth diagWidth fontHt : ℚ)
    (hw : s.sizer.Get "IdealLifelineTitleBoxWidth" = some idealWidth)
    (hd : s.sizer.Get "DiagWidth" = some diagWidth)
    (hf : s.sizer.Get "FontHt" = some fontHt) :
    s.calcDrivingValues =
      if (diagWidth - idealWidth * (s.lifelines.length : ℚ)) /
          ((s.lifelines.length + 1 : Nat) : ℚ) < fontHt then
        some { titleBoxGutter := fontHt,
               titleBoxWidth := diagWidth -
                 ((s.lifelines.length + 1 : Nat) : ℚ) * fontHt / (s.lifelines.length : ℚ) }
      else
        some { titleBoxWidth := idealWidth,
               titleBoxGutter := (diagWidth - idealWidth * (s.lifelines.length : ℚ)) /
                 ((s.lifelines.length + 1 : Nat) : ℚ) } := by
  unfold Spacing.calcDrivingValues
  simp only [hw, hd, hf]

theorem CentreLine_eq (s : Spacing) (lifeline : StatementPtr) (dv : drivingValues)
    (hdv : s.calcDrivingValues = some dv) :
    s.CentreLine lifeline =
      if lifeline ∈ s.lifelines then some (0, none)
      else some (0, some "lifelineNumber: lifeline is not registered") := by
  have hnone := lifelineNumberFrom_snd_eq_none_iff s.lifelines lifeline 0
  have hmsg : ∀ (ls : List StatementPtr) (num : Nat) (msg : String),
      (lifelineNumberFrom ls lifeline num).2 = some msg → msg = "lifeline is not registered" := by
    intro ls
    induction ls with
    | nil =>
      intro num msg h
      simpa [lifelineNumberFrom] using h.symm
    | cons registered rest ih =>
      intro num msg h
      unfold lifelineNumberFrom at h
      by_cases hr : registered = lifeline
      · simp [hr] at h
      · simp only [hr, if_false] at h
        exact ih (num + 1) msg h
  unfold Spacing.CentreLine Spacing.lifelineNumber
  rw [hdv]
  rcases hres : lifelineNumberFrom s.lifelines lifeline 0 with ⟨num, err⟩
  rw [hres] at hnone
  cases err with
  | none =>
    have hin : lifeline ∈ s.lifelines := hnone.mp rfl
    simp [hin]
  | some msg =>
    have hnotin : lifeline ∉ s.lifelines := fun hin => by
      have := hnone.mpr hin
      simp at this
    have hm := hmsg s.lifelines 0 msg (by rw [hres])
    simp [hnotin, hm]

theorem scenarioSpacing_drivingValues :
    scenarioSpacing.calcDrivingValues = some ⟨300, 1400 / 3⟩ := by
  rw [calcDrivingValues_eq scenarioSpacing 300 2000 10 rfl rfl rfl]
  norm_num [scenarioSpacing, NewSpacing]

theorem narrowSpacing_drivingValues :
    narrowSpacing.calcDrivingValues = some ⟨85, 10⟩ := by
  rw [calcDrivingValues_eq narrowSpacing 40 100 10 rfl rfl rfl]
  norm_num [narrowSpacing, NewSpacing]

/-- C1 (defect in the code): for the registered lifeline at index 0 of the
two-lifeline scenario (width 2000, ideal box width 300, font height 10) the
driving values are box width 300 and gutter 1400/3, the formula kept in the
comment gives 1850/3, and `CentreLine` returns 0 with a nil error. -/
theorem CentreLine_returns_zero_not_formula :
    scenarioSpacing.calcDrivingValues = some ⟨300, 1400 / 3⟩ ∧
    commentedCentreLineFormula ⟨300, 1400 / 3⟩ 0 = 1850 / 3 ∧
    scenarioSpacing.CentreLine 1 = some (0, none) ∧
    (0 : ℚ) ≠ 1850 / 3 := by
  refine ⟨scenarioSpacing_drivingValues, ?_, ?_, ?_⟩
  · norm_num [commentedCentreLineFormula]
  · rw [CentreLine_eq scenarioSpacing 1 _ scenarioSpacing_drivingValues]
    simp [scenarioSpacing, NewSpacing]
  · norm_num

/-- C2 (defect in the code): with two lifelines, width 100, ideal box width 40
and font height 10 the ideal gutter 20/3 is below the font height, and
`calcDrivingValues` returns gutter 10 with box width `100 - 3*10/2 = 85`, not
`(100 - 3*10)/2 = 35`: the boxes get wider than the ideal 40 and two boxes
plus three gutters add up to 200, not to the width 100. -/
theorem calcDrivingValues_clamped_width_wrong :
    ((100 : ℚ) - 40 * 2) / 3 < 10 ∧
    narrowSpacing.calcDrivingValues = some ⟨85, 10⟩ ∧
    (85 : ℚ) ≠ (100 - (2 + 1) * 10) / 2 ∧
    (2 : ℚ) * 85 + (2 + 1) * 10 ≠ 100 := by
  refine ⟨by norm_num, narrowSpacing_drivingValues, by norm_num, by norm_num⟩

/-- C3: when the gutter `(width - n*idealBoxWidth)/(n+1)` is at least the font
height, `calcDrivingValues` returns the ideal box width unchanged and that
gutter, and `n` boxes plus `n+1` gutters add up to the diagram width (for every
number `n >= 0` of lifelines, in exact arithmetic). -/
theorem calcDrivingValues_ideal_fills_width (s : Spacing) (idealWidth diagWidth fontHt : ℚ)
    (hw : s.sizer.Get "IdealLifelineTitleBoxWidth" = some idealWidth)
    (hd : s.sizer.Get "DiagWidth" = some diagWidth)
    (hf : s.sizer.Get "FontHt" = some fontHt)
    (hgutter : fontHt ≤ (diagWidth - (s.lifelines.length : ℚ) * idealWidth) /
      ((s.lifelines.length : ℚ) + 1)) :
    ∃ dv, s.calcDrivingValues = some dv ∧
      dv.titleBoxWidth = idealWidth ∧
      dv.titleBoxGutter = (diagWidth - (s.lifelines.length : ℚ) * dv.titleBoxWidth) /
        ((s.lifelines.length : ℚ) + 1) ∧
      (s.lifelines.length : ℚ) * dv.titleBoxWidth +
        ((s.lifelines.length : ℚ) + 1) * dv.titleBoxGutter = diagWidth := by
  have hpos : ((s.lifelines.length : ℚ) + 1) ≠ 0 := by positivity
  have hnot : ¬ (diagWidth - idealWidth * (s.lifelines.length : ℚ)) /
      ((s.lifelines.length + 1 : Nat) : ℚ) < fontHt := by
    push_cast
    rw [mul_comm idealWidth]
    exact not_lt.mpr hgutter
  refine ⟨⟨idealWidth, (diagWidth - (s.lifelines.length : ℚ) * idealWidth) /
      ((s.lifelines.length : ℚ) + 1)⟩, ?_, rfl, rfl, ?_⟩
  · rw [calcDrivingValues_eq s idealWidth diagWidth fontHt hw hd hf, if_neg hnot]
    push_cast
    rw [mul_comm idealWidth]
  · field_simp

/-- Witness for C3: the two-lifeline scenario (width 2000, ideal box width 300,
font height 10), whose gutter is 1400/3. -/
theorem calcDrivingValues_ideal_fills_width_witness :
    ∃ dv, scenarioSpacing.calcDrivingValues = some dv ∧
      dv.titleBoxWidth = 300 ∧
      dv.titleBoxGutter = (2000 - (scenarioSpacing.lifelines.length : ℚ) * dv.titleBoxWidth) /
        ((scenarioSpacing.lifelines.length : ℚ) + 1) ∧
      (scenarioSpacing.lifelines.length : ℚ) * dv.titleBoxWidth +
        ((scenarioSpacing.lifelines.length : ℚ) + 1) * dv.titleBoxGutter = 2000 :=
  calcDrivingValues_ideal_fills_width scenarioSpacing 300 2000 10 rfl rfl rfl
    (by norm_num [scenarioSpacing, NewSpacing])

/-- C4 (defect in the code): in the two-lifeline scenario the centre lines of
the lifelines at indices 0 and 1 are both 0, so they are not strictly
increasing by index. -/
theorem CentreLine_not_increasing :
    ∃ x0 x1 : ℚ, scenarioSpacing.CentreLine 1 = some (x0, none) ∧
      scenarioSpacing.CentreLine 2 = some (x1, none) ∧ ¬ x0 < x1 := by
  refine ⟨0, 0, ?_, ?_, lt_irrefl 0⟩
  · rw [CentreLine_eq scenarioSpacing 1 _ scenarioSpacing_drivingValues]
    simp [scenarioSpacing, NewSpacing]
  · rw [CentreLine_eq scenarioSpacing 2 _ scenarioSpacing_drivingValues]
    simp [scenarioSpacing, NewSpacing]

/-- C5 (defect in the code): in the two-lifeline scenario of width 2000 the
centre lines of lifelines 0 and 1 add up to 0, not to the width, and their
midpoint is 0, not 1000. -/
theorem CentreLine_not_symmetric :
    ∃ x0 x1 : ℚ, scenarioSpacing.sizer.Get "DiagWidth" = some 2000 ∧
      scenarioSpacing.CentreLine 1 = some (x0, none) ∧
      scenarioSpacing.CentreLine 2 = some (x1, none) ∧
      x0 + x1 ≠ 2000 ∧ (x0 + x1) / 2 ≠ 1000 := by
  refine ⟨0, 0, rfl, ?_, ?_, by norm_num, by norm_num⟩
  · rw [CentreLine_eq scenarioSpacing 1 _ scenarioSpacing_drivingValues]
    simp [scenarioSpacing, NewSpacing]
  · rw [CentreLine_eq scenarioSpacing 2 _ scenarioSpacing_drivingValues]
    simp [scenarioSpacing, NewSpacing]

/-- C6: when the sizer knows the three properties `CentreLine` reads (so that
it returns rather than panics), `CentreLine` returns a non-nil error if and
only if the lifeline is not one of the lifelines the `Spacing` was built with;
for a registered lifeline the error is nil. -/
theorem CentreLine_error_iff_not_registered (s : Spacing) (lifeline : StatementPtr)
    (hw : (s.sizer.Get "IdealLifelineTitleBoxWidth").isSome)
    (hd : (s.sizer.Get "DiagWidth").isSome)
    (hf : (s.sizer.Get "FontHt").isSome) :
    ∃ x err, s.CentreLine lifeline = some (x, err) ∧
      (err ≠ none ↔ lifeline ∉ s.lifelines) := by
  obtain ⟨dv, hdv⟩ := Option.isSome_iff_exists.mp (calcDrivingValues_isSome s hw hd hf)
  by_cases hin : lifeline ∈ s.lifelines
  · exact ⟨0, none, by rw [CentreLine_eq s lifeline dv hdv, if_pos hin], by simp [hin]⟩
  · exact ⟨0, some "lifelineNumber: lifeline is not registered",
      by rw [CentreLine_eq s lifeline dv hdv, if_neg hin], by simp [hin]⟩

/-- Witness for C6: in the two-lifeline scenario the lifeline at address 3 is
not registered. -/
theorem CentreLine_error_iff_not_registered_witness :
    ∃ x err, scenarioSpacing.CentreLine 3 = some (x, err) ∧
      (err ≠ none ↔ 3 ∉ scenarioSpacing.lifelines) :=
  CentreLine_error_iff_not_registered scenarioSpacing 3 rfl rfl rfl

end lifeline

/-! ## Lemmas on the interactions maker -/

namespace interactions

theorem scenarioMaker_CentreLine_stray :
    scenarioMaker.dependencies.spacer.CentreLine 7 =
      some (0, some "lifelineNumber: lifeline is not registered") := by
  have h := lifeline.CentreLine_eq lifeline.scenarioSpacing 7 _
    lifeline.scenarioSpacing_drivingValues
  simpa [scenarioMaker, NewMaker, NewMakerDependencies, lifeline.scenarioSpacing,
    lifeline.NewSpacing] using h

/-- C7 (defect in the code): `Scan` called with tide mark 30 on the empty
statement list, which schedules no action, returns 0 and not 30; called on a
single `stop` statement, whose only action `endBox` returns -1, it returns 0
and not -1. In both runs the error is nil. -/
theorem Scan_returns_zero_not_tidemark :
    Maker.Scan midpointLabelPosn scenarioMaker 30 [] scenarioModel =
      some ((0, none), scenarioModel) ∧
    Maker.endBox scenarioMaker 30 stopB scenarioModel = some ((-1, none), scenarioModel) ∧
    Maker.Scan midpointLabelPosn scenarioMaker 30 [stopB] scenarioModel =
      some ((0, none), scenarioModel) ∧
    (0 : ℚ) ≠ 30 ∧ (0 : ℚ) ≠ -1 := by
  refine ⟨?_, rfl, ?_, by norm_num, by norm_num⟩
  · simp [Maker.Scan, buildActions, runActions]
  · simp [Maker.Scan, buildActions, runActions, scheduled, stopB, actionFn.call, Maker.endBox]

/-- C8 (defect in the code): a `full` statement whose two lifelines (addresses
7 and 8) are not registered with the spacer (lifelines 1 and 2).
`LifelineCentres` reports the error, yet `Scan` returns a nil error and the
graphics model has gained the label `fibble`, anchored at the position computed
from the error values `-1, -1`. -/
theorem Scan_unknown_lifeline_no_error :
    7 ∉ scenarioMaker.dependencies.spacer.lifelines ∧
    8 ∉ scenarioMaker.dependencies.spacer.lifelines ∧
    scenarioMaker.LifelineCentres strayFull =
      some (-1, -1, some "space.CentreLine: lifelineNumber: lifeline is not registered") ∧
    Maker.Scan midpointLabelPosn scenarioMaker 30 [strayFull] scenarioModel =
      some ((0, none),
        { scenarioModel with Primitives :=
            { scenarioModel.Primitives with Labels :=
                [{ TheString := "fibble", FontHeight := 10, Anchor := ⟨-1, 30⟩,
                   HJust := graphics.Justification.Centre,
                   VJust := graphics.Justification.Top }] } }) := by
  have hcentres : scenarioMaker.LifelineCentres strayFull =
      some (-1, -1, some "space.CentreLine: lifelineNumber: lifeline is not registered") := by
    unfold Maker.LifelineCentres
    simp [strayFull, scenarioMaker_CentreLine_stray]
  refine ⟨?_, ?_, hcentres, ?_⟩
  · simp [scenarioMaker, NewMaker, NewMakerDependencies, lifeline.scenarioSpacing,
      lifeline.NewSpacing]
  · simp [scenarioMaker, NewMaker, NewMakerDependencies, lifeline.scenarioSpacing,
      lifeline.NewSpacing]
  · have hlabel : Maker.interactionLabel midpointLabelPosn scenarioMaker 30 strayFull
        scenarioModel =
        some ((-1, none),
          { scenarioModel with Primitives :=
              { scenarioModel.Primitives with Labels :=
                  [{ TheString := "fibble", FontHeight := 10, Anchor := ⟨-1, 30⟩,
                     HJust := graphics.Justification.Centre,
                     VJust := graphics.Justification.Top }] } }) := by
      unfold Maker.interactionLabel
      rw [hcentres]
      simp [midpointLabelPosn, strayFull, scenarioModel, graphics.NewModel,
        graphics.NewPrimitives, graphics.Primitives.RowOfStrings,
        graphics.Primitives.RowOfStringsFrom, graphics.Primitives.AddLabel, scenarioMaker,
        NewMaker, NewMakerDependencies]
    have hsched : buildActions [strayFull] =
        [⟨actionFn.interactionLabel, strayFull⟩, ⟨actionFn.startFromBox, strayFull⟩,
         ⟨actionFn.startToBox, strayFull⟩, ⟨actionFn.interactionLine, strayFull⟩] := by
      simp [buildActions, scheduled, strayFull]
    unfold Maker.Scan
    simp only [hsched, runActions, actionFn.call, hlabel, Maker.startFromBox,
      Maker.startToBox, Maker.interactionLine]

theorem buildActions_eq_flatMap (statements : List dsl.Statement) :
    buildActions statements = statements.flatMap scheduled := by
  have hgen : ∀ (xs : List dsl.Statement) (acc : List dispatch),
      xs.foldl (fun actions s => actions ++ scheduled s) acc = acc ++ xs.flatMap scheduled := by
    intro xs
    induction xs with
    | nil => intro acc; simp
    | cons x rest ih =>
      intro acc
      simp [List.foldl_cons, ih, List.flatMap_cons, List.append_assoc]
  simpa [buildActions] using hgen statements []

/-- C19: the action list built by `Scan` is the concatenation, in statement
order, of the actions each statement schedules; a `Full` statement schedules
exactly four actions, in the order interaction label, start-from-box,
start-to-box, interaction line; a `Stop` statement schedules exactly one
end-box action; `Life`, `Title`, `TextSize` and `ShowLetters` statements
schedule none. -/
theorem buildActions_keeps_statement_order (statements : List dsl.Statement)
    (s : dsl.Statement) :
    buildActions statements = statements.flatMap scheduled ∧
    scheduled { s with Keyword := umli.Keyword.Full } =
      [⟨actionFn.interactionLabel, { s with Keyword := umli.Keyword.Full }⟩,
       ⟨actionFn.startFromBox, { s with Keyword := umli.Keyword.Full }⟩,
       ⟨actionFn.startToBox, { s with Keyword := umli.Keyword.Full }⟩,
       ⟨actionFn.interactionLine, { s with Keyword := umli.Keyword.Full }⟩] ∧
    scheduled { s with Keyword := umli.Keyword.Stop } =
      [⟨actionFn.endBox, { s with Keyword := umli.Keyword.Stop }⟩] ∧
    scheduled { s with Keyword := umli.Keyword.Life } = [] ∧
    scheduled { s with Keyword := umli.Keyword.Title } = [] ∧
    scheduled { s with Keyword := umli.Keyword.TextSize } = [] ∧
    scheduled { s with Keyword := umli.Keyword.ShowLetters } = [] :=
  ⟨buildActions_eq_flatMap statements, rfl, rfl, rfl, rfl, rfl, rfl⟩

end interactions

/-! ## Lemmas on the creator -/

namespace diag

theorem ActivityBoxes.get_set (m : ActivityBoxes) (k k' : StatementPtr) (b : lifelineBoxes) :
    ActivityBoxes.get (ActivityBoxes.set m k b) k' =
      if k' = k then (ActivityBoxes.get m k).map (fun _ => b) else ActivityBoxes.get m k' := by
  induction m with
  | nil => simp [ActivityBoxes.get, ActivityBoxes.set]
  | cons entry rest ih =>
    obtain ⟨key, boxes⟩ := entry
    by_cases hk : key = k
    · subst hk
      by_cases hk' : k' = key
      · subst hk'
        simp [ActivityBoxes.get, ActivityBoxes.set]
      · have hk'' : ¬ key = k' := fun e => hk' e.symm
        simp [ActivityBoxes.get, ActivityBoxes.set, hk', hk'']
    · by_cases hk' : key = k'
      · subst hk'
        simp [ActivityBoxes.get, ActivityBoxes.set, hk]
      · simp [ActivityBoxes.get, ActivityBoxes.set, hk, hk', ih]

theorem ActivityBoxes.get_set_isSome (m : ActivityBoxes) (k k' : StatementPtr)
    (b : lifelineBoxes) (h : (ActivityBoxes.get m k').isSome) :
    (ActivityBoxes.get (ActivityBoxes.set m k b) k').isSome := by
  rw [ActivityBoxes.get_set]
  by_cases hk : k' = k
  · subst hk
    simpa using h
  · simpa [hk] using h

theorem rowOfLabelsFrom_Labels (fontHeight x firstRowY : ℚ) (hj : graphics.Justification)
    (segs : List String) (i : Nat) (p : graphics.Primitives) :
    (rowOfLabelsFrom fontHeight x firstRowY hj segs i p).Labels =
      p.Labels ++ (segs.enumFrom i).map (fun q =>
        ({ TheString := q.2, FontHeight := fontHeight,
           Anchor := ⟨x, firstRowY + (q.1 : ℚ) * fontHeight⟩,
           HJust := hj, VJust := graphics.Justification.Top } : graphics.Label)) := by
  induction segs generalizing i p with
  | nil => simp [rowOfLabelsFrom]
  | cons seg rest ih =>
    simp [rowOfLabelsFrom, ih, graphics.Primitives.AddLabel, List.enumFrom]

theorem rowOfLabelsFrom_others (fontHeight x firstRowY : ℚ) (hj : graphics.Justification)
    (segs : List String) (i : Nat) (p : graphics.Primitives) :
    (rowOfLabelsFrom fontHeight x firstRowY hj segs i p).Lines = p.Lines ∧
    (rowOfLabelsFrom fontHeight x firstRowY hj segs i p).Rects = p.Rects ∧
    (rowOfLabelsFrom fontHeight x firstRowY hj segs i p).FilledPolys = p.FilledPolys := by
  induction segs generalizing i p with
  | nil => simp [rowOfLabelsFrom]
  | cons seg rest ih =>
    simp [rowOfLabelsFrom, ih, graphics.Primitives.AddLabel]

theorem interactionLabel_eq (c : Creator) (statement : dsl.Statement) (src dst : StatementPtr)
    (hrefs : statement.ReferencedLifelines = [src, dst]) :
    ∃ c1, c.interactionLabel statement = some c1 ∧
      c1.tideMark = c.tideMark + ((statement.LabelSegments.length : ℚ) * c.fontHeight +
        c.sizer.InteractionLineTextPadB) ∧
      c1.graphicsModel.Primitives = rowOfLabelsFrom c.fontHeight
        (c.lifelineGeomH.InteractionLabelPosition src dst).1 c.tideMark
        (c.lifelineGeomH.InteractionLabelPosition src dst).2 statement.LabelSegments 0
        c.graphicsModel.Primitives ∧
      c1.activityBoxes = c.activityBoxes ∧ c1.sizer = c.sizer ∧
      c1.fontHeight = c.fontHeight ∧ c1.lifelineGeomH = c.lifelineGeomH := by
  unfold Creator.interactionLabel
  simp [hrefs, Creator.rowOfLabels]

theorem interactionLine_eq (makeArrow : ArrowMaker) (c : Creator) (statement : dsl.Statement)
    (src dst : StatementPtr) (hrefs : statement.ReferencedLifelines = [src, dst]) :
    ∃ c1, c.interactionLine makeArrow statement = some c1 ∧
      c1.graphicsModel.Primitives.Lines = c.graphicsModel.Primitives.Lines ++
        [{ P1 := ⟨(c.lifelineGeomH.InteractionLineEndPoints src dst).1, c.tideMark⟩,
           P2 := ⟨(c.lifelineGeomH.InteractionLineEndPoints src dst).2, c.tideMark⟩,
           Dashed := decide (statement.Keyword = umli.Keyword.Dash) }] := by
  unfold Creator.interactionLine
  simp [hrefs, graphics.Primitives.AddLine, graphics.Primitives.AddFilledPoly]

theorem potentiallyStartActivityBox_frame (c : Creator) (lifeline : StatementPtr) (delta : ℚ)
    (h : (c.activityBoxes.get lifeline).isSome) :
    ∃ c1, c.potentiallyStartActivityBox lifeline delta = some c1 ∧
      c1.tideMark = c.tideMark ∧ c1.graphicsModel = c.graphicsModel ∧
      c1.sizer = c.sizer ∧ c1.fontHeight = c.fontHeight ∧
      c1.lifelineGeomH = c.lifelineGeomH ∧ c1.ilZones = c.ilZones ∧
      ∀ k, (c.activityBoxes.get k).isSome → (c1.activityBoxes.get k).isSome := by
  obtain ⟨boxes, hboxes⟩ := Option.isSome_iff_exists.mp h
  unfold Creator.potentiallyStartActivityBox
  rw [hboxes]
  by_cases hp : boxes.inProgress = true
  · simp [hp]
  · simp only [hp]
    refine ⟨_, rfl, rfl, rfl, rfl, rfl, rfl, rfl, ?_⟩
    intro k hk
    exact ActivityBoxes.get_set_isSome c.activityBoxes lifeline k _ hk

/-- C9: for a statement with two referenced lifelines (a `Full` or `Dash`
statement) and label segments `s_0..s_(k-1)`, processed at tide mark `T`,
`interactionLabel` returns and appends to the labels exactly `k` labels in
order, the `i`-th with text `s_i`, the creator's font height, anchor
`(x, T + i*fontHeight)` and justification `(h, Top)`, where `(x, h)` is the one
interaction label position of the two lifelines; lines, rectangles and
polygons are unchanged. -/
theorem interactionLabel_emits_rows (c : Creator) (statement : dsl.Statement)
    (src dst : StatementPtr) (hrefs : statement.ReferencedLifelines = [src, dst]) :
    ∃ c1 emitted, c.interactionLabel statement = some c1 ∧
      c1.graphicsModel.Primitives.Labels = c.graphicsModel.Primitives.Labels ++ emitted ∧
      emitted.length = statement.LabelSegments.length ∧
      (∀ (i : Nat) (hi : i < statement.LabelSegments.length),
        emitted[i]? = some
          { TheString := statement.LabelSegments[i],
            FontHeight := c.fontHeight,
            Anchor := ⟨(c.lifelineGeomH.InteractionLabelPosition src dst).1,
                       c.tideMark + (i : ℚ) * c.fontHeight⟩,
            HJust := (c.lifelineGeomH.InteractionLabelPosition src dst).2,
            VJust := graphics.Justification.Top }) ∧
      c1.graphicsModel.Primitives.Lines = c.graphicsModel.Primitives.Lines ∧
      c1.graphicsModel.Primitives.Rects = c.graphicsModel.Primitives.Rects ∧
      c1.graphicsModel.Primitives.FilledPolys = c.graphicsModel.Primitives.FilledPolys := by
  obtain ⟨c1, hc1, -, hprims, -⟩ := interactionLabel_eq c statement src dst hrefs
  have hothers := rowOfLabelsFrom_others c.fontHeight
    (c.lifelineGeomH.InteractionLabelPosition src dst).1 c.tideMark
    (c.lifelineGeomH.InteractionLabelPosition src dst).2 statement.LabelSegments 0
    c.graphicsModel.Primitives
  refine ⟨c1, (statement.LabelSegments.enumFrom 0).map (fun q =>
      ({ TheString := q.2, FontHeight := c.fontHeight,
         Anchor := ⟨(c.lifelineGeomH.InteractionLabelPosition src dst).1,
                    c.tideMark + (q.1 : ℚ) * c.fontHeight⟩,
         HJust := (c.lifelineGeomH.InteractionLabelPosition src dst).2,
         VJust := graphics.Justification.Top } : graphics.Label)),
    hc1, ?_, ?_, ?_, ?_, ?_, ?_⟩
  · rw [hprims, rowOfLabelsFrom_Labels]
  · simp
  · intro i hi
    simp [List.getElem?_enumFrom, List.getElem?_eq_getElem hi]
  · rw [hprims]; exact hothers.1
  · rw [hprims]; exact hothers.2.1
  · rw [hprims]; exact hothers.2.2

/-- Witness for C9: the statement `full AB` with a two-row label in the
Scenario 1 creator (font height 10, tide mark 30). -/
theorem interactionLabel_emits_rows_witness :
    ∃ c1 emitted, scenarioCreator.interactionLabel fullABTwoRows = some c1 ∧
      c1.graphicsModel.Primitives.Labels =
        scenarioCreator.graphicsModel.Primitives.Labels ++ emitted ∧
      emitted.length = fullABTwoRows.LabelSegments.length ∧
      (∀ (i : Nat) (hi : i < fullABTwoRows.LabelSegments.length),
        emitted[i]? = some
          { TheString := fullABTwoRows.LabelSegments[i],
            FontHeight := scenarioCreator.fontHeight,
            Anchor := ⟨(scenarioCreator.lifelineGeomH.InteractionLabelPosition 1 2).1,
                       scenarioCreator.tideMark + (i : ℚ) * scenarioCreator.fontHeight⟩,
            HJust := (scenarioCreator.lifelineGeomH.InteractionLabelPosition 1 2).2,
            VJust := graphics.Justification.Top }) ∧
      c1.graphicsModel.Primitives.Lines = scenarioCreator.graphicsModel.Primitives.Lines ∧
      c1.graphicsModel.Primitives.Rects = scenarioCreator.graphicsModel.Primitives.Rects ∧
      c1.graphicsModel.Primitives.FilledPolys =
        scenarioCreator.graphicsModel.Primitives.FilledPolys :=
  interactionLabel_emits_rows scenarioCreator fullABTwoRows 1 2 rfl

/-- C10: for a statement with two referenced lifelines and `rows` label
segments, `interactionLabel` advances the tide mark by exactly
`rows*fontHeight + InteractionLineTextPadB`; and when both lifelines have a
tracker, running the sub-steps of a `Full` statement (label, start-from-box,
start-to-box, line) or of a `Dash` statement (label, start-to-box, line) from
tide mark `T` appends exactly one line, drawn at
`Y = T + rows*fontHeight + InteractionLineTextPadB`. -/
theorem interactionLabel_advances_tideMark (makeArrow : ArrowMaker) (c : Creator)
    (statement : dsl.Statement) (src dst : StatementPtr)
    (hrefs : statement.ReferencedLifelines = [src, dst]) :
    (∃ c1, c.interactionLabel statement = some c1 ∧
      c1.tideMark = c.tideMark +
        ((statement.LabelSegments.length : ℚ) * c.fontHeight +
          c.sizer.InteractionLineTextPadB)) ∧
    ((c.activityBoxes.get src).isSome → (c.activityBoxes.get dst).isSome →
      ∀ evts, evts = fullEvents ∨ evts = dashEvents →
        ∃ c2, Creator.statementEvents makeArrow evts statement c = some c2 ∧
          c2.graphicsModel.Primitives.Lines = c.graphicsModel.Primitives.Lines ++
            [{ P1 := ⟨(c.lifelineGeomH.InteractionLineEndPoints src dst).1,
                      c.tideMark + (statement.LabelSegments.length : ℚ) * c.fontHeight +
                        c.sizer.InteractionLineTextPadB⟩,
               P2 := ⟨(c.lifelineGeomH.InteractionLineEndPoints src dst).2,
                      c.tideMark + (statement.LabelSegments.length : ℚ) * c.fontHeight +
                        c.sizer.InteractionLineTextPadB⟩,
               Dashed := decide (statement.Keyword = umli.Keyword.Dash) }]) := by
  obtain ⟨c1, hc1, htide1, hprims1, hboxes1, hsizer1, hfont1, hgeom1⟩ :=
    interactionLabel_eq c statement src dst hrefs
  refine ⟨⟨c1, hc1, htide1⟩, ?_⟩
  intro hsrc hdst evts hevts
  have hlines1 : c1.graphicsModel.Primitives.Lines = c.graphicsModel.Primitives.Lines := by
    rw [hprims1]
    exact (rowOfLabelsFrom_others _ _ _ _ _ _ _).1
  have hr0 : statement.ReferencedLifelines[0]? = some src := by simp [hrefs]
  have hr1 : statement.ReferencedLifelines[1]? = some dst := by simp [hrefs]
  have hY : c.tideMark + (statement.LabelSegments.length : ℚ) * c.fontHeight +
      c.sizer.InteractionLineTextPadB = c1.tideMark := by
    rw [htide1]; ring
  rw [hY]
  -- start-to-box from any state that kept the label's tide mark, lines and geometry
  have hfinish : ∀ cA : Creator, (cA.activityBoxes.get dst).isSome →
      cA.tideMark = c1.tideMark → cA.graphicsModel = c1.graphicsModel →
      cA.lifelineGeomH = c1.lifelineGeomH →
      ∃ c2, Creator.statementEvents makeArrow
          [eventType.PotentiallyStartToBox, eventType.InteractionLine] statement cA = some c2 ∧
        c2.graphicsModel.Primitives.Lines = c.graphicsModel.Primitives.Lines ++
          [{ P1 := ⟨(c.lifelineGeomH.InteractionLineEndPoints src dst).1, c1.tideMark⟩,
             P2 := ⟨(c.lifelineGeomH.InteractionLineEndPoints src dst).2, c1.tideMark⟩,
             Dashed := decide (statement.Keyword = umli.Keyword.Dash) }] := by
    intro cA hA htA hgA hgeoA
    obtain ⟨cB, hcB, htB, hgB, -, -, hgeoB, -, -⟩ :=
      potentiallyStartActivityBox_frame cA dst 0 hA
    obtain ⟨cC, hcC, hlinesC⟩ := interactionLine_eq makeArrow cB statement src dst hrefs
    refine ⟨cC, ?_, ?_⟩
    · simp only [Creator.statementEvents, Creator.graphicsForDrawingEvent,
        Creator.potentiallyStartToBox, hr1, hcB, hcC]
    · rw [hlinesC, hgB, hgA, hlines1, htB, htA, hgeoB, hgeoA, hgeom1]
  rcases hevts with hfull | hdash
  · subst hfull
    obtain ⟨cA, hcA, htA, hgA, -, -, hgeoA, -, hkeep⟩ :=
      potentiallyStartActivityBox_frame c1 src c1.sizer.ActivityBoxVerticalOverlap
        (by rw [hboxes1]; exact hsrc)
    obtain ⟨c2, hc2, hlines2⟩ := hfinish cA (hkeep dst (by rw [hboxes1]; exact hdst))
      htA hgA hgeoA
    refine ⟨c2, ?_, hlines2⟩
    simp only [fullEvents, Creator.statementEvents, Creator.graphicsForDrawingEvent, hc1,
      Creator.potentiallyStartFromBox, hr0, hcA]
    simpa only [Creator.statementEvents, Creator.graphicsForDrawingEvent] using hc2
  · subst hdash
    obtain ⟨c2, hc2, hlines2⟩ := hfinish c1 (by rw [hboxes1]; exact hdst) rfl rfl rfl
    refine ⟨c2, ?_, hlines2⟩
    simp only [dashEvents, Creator.statementEvents, Creator.graphicsForDrawingEvent, hc1]
    simpa only [Creator.statementEvents, Creator.graphicsForDrawingEvent] using hc2

/-- Witness for C10: `full AB fibble` in the Scenario 1 creator (font height
10, text padding 5, tide mark 30), where both lifelines have a tracker. -/
theorem interactionLabel_advances_tideMark_witness :
    (∃ c1, scenarioCreator.interactionLabel fullAB = some c1 ∧
      c1.tideMark = scenarioCreator.tideMark +
        ((fullAB.LabelSegments.length : ℚ) * scenarioCreator.fontHeight +
          scenarioCreator.sizer.InteractionLineTextPadB)) ∧
    ∀ evts, evts = fullEvents ∨ evts = dashEvents →
      ∃ c2, Creator.statementEvents scenarioArrow evts fullAB scenarioCreator = some c2 ∧
        c2.graphicsModel.Primitives.Lines = scenarioCreator.graphicsModel.Primitives.Lines ++
          [{ P1 := ⟨(scenarioCreator.lifelineGeomH.InteractionLineEndPoints 1 2).1,
                    scenarioCreator.tideMark +
                      (fullAB.LabelSegments.length : ℚ) * scenarioCreator.fontHeight +
                      scenarioCreator.sizer.InteractionLineTextPadB⟩,
             P2 := ⟨(scenarioCreator.lifelineGeomH.InteractionLineEndPoints 1 2).2,
                    scenarioCreator.tideMark +
                      (fullAB.LabelSegments.length : ℚ) * scenarioCreator.fontHeight +
                      scenarioCreator.sizer.InteractionLineTextPadB⟩,
             Dashed := decide (fullAB.Keyword = umli.Keyword.Dash) }] :=
  ⟨(interactionLabel_advances_tideMark scenarioArrow scenarioCreator fullAB 1 2 rfl).1,
   (interactionLabel_advances_tideMark scenarioArrow scenarioCreator fullAB 1 2 rfl).2
     rfl rfl⟩

theorem interactionLabel_state (c : Creator) (statement : dsl.Statement) (src dst : StatementPtr)
    (hrefs : statement.ReferencedLifelines = [src, dst]) :
    ∃ c1, c.interactionLabel statement = some c1 ∧
      c1.tideMark = c.tideMark + ((statement.LabelSegments.length : ℚ) * c.fontHeight +
        c.sizer.InteractionLineTextPadB) ∧
      c1.ilZones = c.ilZones ++
        [{ segment := ⟨c.tideMark, c.tideMark +
              ((statement.LabelSegments.length : ℚ) * c.fontHeight +
                c.sizer.InteractionLineTextPadB)⟩,
           lifelineA := src, lifelineB := dst }] ∧
      c1.graphicsModel.Primitives.Lines = c.graphicsModel.Primitives.Lines ∧
      c1.activityBoxes = c.activityBoxes ∧ c1.sizer = c.sizer ∧
      c1.fontHeight = c.fontHeight ∧ c1.lifelineGeomH = c.lifelineGeomH := by
  have hlines := (rowOfLabelsFrom_others c.fontHeight
    (c.lifelineGeomH.InteractionLabelPosition src dst).1 c.tideMark
    (c.lifelineGeomH.InteractionLabelPosition src dst).2 statement.LabelSegments 0
    c.graphicsModel.Primitives).1
  unfold Creator.interactionLabel
  simp [hrefs, Creator.rowOfLabels, RegisterSpaceClaim, hlines]

theorem interactionLine_state (makeArrow : ArrowMaker) (c : Creator) (statement : dsl.Statement)
    (src dst : StatementPtr) (hrefs : statement.ReferencedLifelines = [src, dst]) :
    ∃ c1, c.interactionLine makeArrow statement = some c1 ∧
      c1.tideMark = c.tideMark +
        ((1 / 2 : ℚ) * c.sizer.ArrowHeight + c.sizer.InteractionLinePadB) ∧
      c1.ilZones = c.ilZones ++
        [{ segment := ⟨c.tideMark, c.tideMark +
              ((1 / 2 : ℚ) * c.sizer.ArrowHeight + c.sizer.InteractionLinePadB)⟩,
           lifelineA := src, lifelineB := dst }] ∧
      c1.graphicsModel.Primitives.Lines = c.graphicsModel.Primitives.Lines ++
        [{ P1 := ⟨(c.lifelineGeomH.InteractionLineEndPoints src dst).1, c.tideMark⟩,
           P2 := ⟨(c.lifelineGeomH.InteractionLineEndPoints src dst).2, c.tideMark⟩,
           Dashed := decide (statement.Keyword = umli.Keyword.Dash) }] ∧
      c1.graphicsModel.Primitives.FilledPolys = c.graphicsModel.Primitives.FilledPolys ++
        [{ Vertices := makeArrow (c.lifelineGeomH.InteractionLineEndPoints src dst).1
            (c.lifelineGeomH.InteractionLineEndPoints src dst).2 c.tideMark
            c.sizer.ArrowLen c.sizer.ArrowHeight }] ∧
      c1.graphicsModel.Primitives.Rects = c.graphicsModel.Primitives.Rects ∧
      c1.graphicsModel.Primitives.Labels = c.graphicsModel.Primitives.Labels ∧
      c1.activityBoxes = c.activityBoxes := by
  unfold Creator.interactionLine
  simp [hrefs, graphics.Primitives.AddLine, graphics.Primitives.AddFilledPoly,
    RegisterSpaceClaim]

theorem potentiallyStartActivityBox_eq (c : Creator) (lifeline : StatementPtr) (delta : ℚ)
    (boxes : lifelineBoxes) (hget : c.activityBoxes.get lifeline = some boxes) :
    c.potentiallyStartActivityBox lifeline delta =
      some (if boxes.inProgress = true then c
        else { c with activityBoxes :=
          c.activityBoxes.set lifeline (boxes.startBoxAt (c.tideMark - delta)) }) := by
  unfold Creator.potentiallyStartActivityBox
  rw [hget]
  by_cases hp : boxes.inProgress = true <;> simp [hp]

theorem startBoxAt_of_not_inProgress (boxes : lifelineBoxes) (y : ℚ)
    (hnp : boxes.inProgress = false) :
    boxes.startBoxAt y = { closed := boxes.closed, openStart := some y } := by
  cases hopen : boxes.openStart with
  | none => simp [lifelineBoxes.startBoxAt, hopen]
  | some y0 => simp [lifelineBoxes.inProgress, hopen] at hnp

theorem fullDash_run (makeArrow : ArrowMaker) (c : Creator) (statement : dsl.Statement)
    (src dst : StatementPtr) (hrefs : statement.ReferencedLifelines = [src, dst])
    (hsrc : (c.activityBoxes.get src).isSome) (hdst : (c.activityBoxes.get dst).isSome)
    (evts : List eventType) (hevts : evts = fullEvents ∨ evts = dashEvents) :
    ∃ c2, Creator.statementEvents makeArrow evts statement c = some c2 ∧
      c2.tideMark = c.tideMark + ((statement.LabelSegments.length : ℚ) * c.fontHeight +
          c.sizer.InteractionLineTextPadB) +
        ((1 / 2 : ℚ) * c.sizer.ArrowHeight + c.sizer.InteractionLinePadB) ∧
      c2.ilZones = c.ilZones ++
        [{ segment := ⟨c.tideMark, c.tideMark +
              ((statement.LabelSegments.length : ℚ) * c.fontHeight +
                c.sizer.InteractionLineTextPadB)⟩,
           lifelineA := src, lifelineB := dst },
         { segment := ⟨c.tideMark + ((statement.LabelSegments.length : ℚ) * c.fontHeight +
                c.sizer.InteractionLineTextPadB),
              c.tideMark + ((statement.LabelSegments.length : ℚ) * c.fontHeight +
                c.sizer.InteractionLineTextPadB) +
              ((1 / 2 : ℚ) * c.sizer.ArrowHeight + c.sizer.InteractionLinePadB)⟩,
           lifelineA := src, lifelineB := dst }] ∧
      c2.graphicsModel.Primitives.Lines = c.graphicsModel.Primitives.Lines ++
        [{ P1 := ⟨(c.lifelineGeomH.InteractionLineEndPoints src dst).1,
                  c.tideMark + ((statement.LabelSegments.length : ℚ) * c.fontHeight +
                    c.sizer.InteractionLineTextPadB)⟩,
           P2 := ⟨(c.lifelineGeomH.InteractionLineEndPoints src dst).2,
                  c.tideMark + ((statement.LabelSegments.length : ℚ) * c.fontHeight +
                    c.sizer.InteractionLineTextPadB)⟩,
           Dashed := decide (statement.Keyword = umli.Keyword.Dash) }] := by
  obtain ⟨c1, hc1, htide1, hzones1, hlines1, hboxes1, hsizer1, -, hgeom1⟩ :=
    interactionLabel_state c statement src dst hrefs
  have hr0 : statement.ReferencedLifelines[0]? = some src := by simp [hrefs]
  have hr1 : statement.ReferencedLifelines[1]? = some dst := by simp [hrefs]
  have hfinish : ∀ cA : Creator, (cA.activityBoxes.get dst).isSome →
      cA.tideMark = c1.tideMark → cA.graphicsModel = c1.graphicsModel →
      cA.lifelineGeomH = c1.lifelineGeomH → cA.sizer = c1.sizer → cA.ilZones = c1.ilZones →
      ∃ c2, Creator.statementEvents makeArrow
          [eventType.PotentiallyStartToBox, eventType.InteractionLine] statement cA = some c2 ∧
        c2.tideMark = c1.tideMark +
          ((1 / 2 : ℚ) * c.sizer.ArrowHeight + c.sizer.InteractionLinePadB) ∧
        c2.ilZones = c1.ilZones ++
          [{ segment := ⟨c1.tideMark, c1.tideMark +
                ((1 / 2 : ℚ) * c.sizer.ArrowHeight + c.sizer.InteractionLinePadB)⟩,
             lifelineA := src, lifelineB := dst }] ∧
        c2.graphicsModel.Primitives.Lines = c.graphicsModel.Primitives.Lines ++
          [{ P1 := ⟨(c.lifelineGeomH.InteractionLineEndPoints src dst).1, c1.tideMark⟩,
             P2 := ⟨(c.lifelineGeomH.InteractionLineEndPoints src dst).2, c1.tideMark⟩,
             Dashed := decide (statement.Keyword = umli.Keyword.Dash) }] := by
    intro cA hA htA hgA hgeoA hsA hzA
    obtain ⟨cB, hcB, htB, hgB, hsB, -, hgeoB, hzB, -⟩ :=
      potentiallyStartActivityBox_frame cA dst 0 hA
    obtain ⟨cC, hcC, htC, hzC, hlinesC, -⟩ :=
      interactionLine_state makeArrow cB statement src dst hrefs
    refine ⟨cC, ?_, ?_, ?_, ?_⟩
    · simp only [Creator.statementEvents, Creator.graphicsForDrawingEvent,
        Creator.potentiallyStartToBox, hr1, hcB, hcC]
    · rw [htC, htB, htA, hsB, hsA, hsizer1]
    · rw [hzC, hzB, hzA, htB, htA, hsB, hsA, hsizer1]
    · rw [hlinesC, hgB, hgA, hlines1, htB, htA, hgeoB, hgeoA, hgeom1]
  have hwrap : ∀ c2 : Creator,
      (c2.tideMark = c1.tideMark +
          ((1 / 2 : ℚ) * c.sizer.ArrowHeight + c.sizer.InteractionLinePadB) ∧
        c2.ilZones = c1.ilZones ++
          [{ segment := ⟨c1.tideMark, c1.tideMark +
                ((1 / 2 : ℚ) * c.sizer.ArrowHeight + c.sizer.InteractionLinePadB)⟩,
             lifelineA := src, lifelineB := dst }] ∧
        c2.graphicsModel.Primitives.Lines = c.graphicsModel.Primitives.Lines ++
          [{ P1 := ⟨(c.lifelineGeomH.InteractionLineEndPoints src dst).1, c1.tideMark⟩,
             P2 := ⟨(c.lifelineGeomH.InteractionLineEndPoints src dst).2, c1.tideMark⟩,
             Dashed := decide (statement.Keyword = umli.Keyword.Dash) }]) →
      c2.tideMark = c.tideMark + ((statement.LabelSegments.length : ℚ) * c.fontHeight +
          c.sizer.InteractionLineTextPadB) +
        ((1 / 2 : ℚ) * c.sizer.ArrowHeight + c.sizer.InteractionLinePadB) ∧
      c2.ilZones = c.ilZones ++
        [{ segment := ⟨c.tideMark, c.tideMark +
              ((statement.LabelSegments.length : ℚ) * c.fontHeight +
                c.sizer.InteractionLineTextPadB)⟩,
           lifelineA := src, lifelineB := dst },
         { segment := ⟨c.tideMark + ((statement.LabelSegments.length : ℚ) * c.fontHeight +
                c.sizer.InteractionLineTextPadB),
              c.tideMark + ((statement.LabelSegments.length : ℚ) * c.fontHeight +
                c.sizer.InteractionLineTextPadB) +
              ((1 / 2 : ℚ) * c.sizer.ArrowHeight + c.sizer.InteractionLinePadB)⟩,
           lifelineA := src, lifelineB := dst }] ∧
      c2.graphicsModel.Primitives.Lines = c.graphicsModel.Primitives.Lines ++
        [{ P1 := ⟨(c.lifelineGeomH.InteractionLineEndPoints src dst).1,
                  c.tideMark + ((statement.LabelSegments.length : ℚ) * c.fontHeight +
                    c.sizer.InteractionLineTextPadB)⟩,
           P2 := ⟨(c.lifelineGeomH.InteractionLineEndPoints src dst).2,
                  c.tideMark + ((statement.LabelSegments.length : ℚ) * c.fontHeight +
                    c.sizer.InteractionLineTextPadB)⟩,
           Dashed := decide (statement.Keyword = umli.Keyword.Dash) }] := by
    intro c2 h
    rw [htide1, hzones1] at h
    refine ⟨h.1, ?_, h.2.2⟩
    rw [h.2.1, List.append_assoc]
    rfl
  rcases hevts with hfull | hdash
  · subst hfull
    obtain ⟨cA, hcA, htA, hgA, hsA, -, hgeoA, hzA, hkeep⟩ :=
      potentiallyStartActivityBox_frame c1 src c1.sizer.ActivityBoxVerticalOverlap
        (by rw [hboxes1]; exact hsrc)
    obtain ⟨c2, hc2, hrest⟩ := hfinish cA (hkeep dst (by rw [hboxes1]; exact hdst))
      htA hgA hgeoA hsA hzA
    refine ⟨c2, ?_, hwrap c2 hrest⟩
    simp only [fullEvents, Creator.statementEvents, Creator.graphicsForDrawingEvent, hc1,
      Creator.potentiallyStartFromBox, hr0, hcA]
    simpa only [Creator.statementEvents, Creator.graphicsForDrawingEvent] using hc2
  · subst hdash
    obtain ⟨c2, hc2, hrest⟩ := hfinish c1 (by rw [hboxes1]; exact hdst) rfl rfl rfl rfl rfl
    refine ⟨c2, ?_, hwrap c2 hrest⟩
    simp only [dashEvents, Creator.statementEvents, Creator.graphicsForDrawingEvent, hc1]
    simpa only [Creator.statementEvents, Creator.graphicsForDrawingEvent] using hc2

/-- C11: for a statement with two referenced lifelines (a `Full` or `Dash`
statement) and every starting tide mark, `interactionLine` returns and
advances the tide mark by exactly `0.5*ArrowHeight + InteractionLinePadB`. -/
theorem interactionLine_advances_tideMark (makeArrow : ArrowMaker) (c : Creator)
    (statement : dsl.Statement) (src dst : StatementPtr)
    (hrefs : statement.ReferencedLifelines = [src, dst]) :
    ∃ c1, c.interactionLine makeArrow statement = some c1 ∧
      c1.tideMark = c.tideMark +
        ((1 / 2 : ℚ) * c.sizer.ArrowHeight + c.sizer.InteractionLinePadB) := by
  obtain ⟨c1, hc1, htide, -⟩ := interactionLine_state makeArrow c statement src dst hrefs
  exact ⟨c1, hc1, htide⟩

/-- Witness for C11: `full AB fibble` in the Scenario 1 creator (arrow height
4, line padding 4, tide mark 30). -/
theorem interactionLine_advances_tideMark_witness :
    ∃ c1, scenarioCreator.interactionLine scenarioArrow fullAB = some c1 ∧
      c1.tideMark = scenarioCreator.tideMark +
        ((1 / 2 : ℚ) * scenarioCreator.sizer.ArrowHeight +
          scenarioCreator.sizer.InteractionLinePadB) :=
  interactionLine_advances_tideMark scenarioArrow scenarioCreator fullAB 1 2 rfl

/-- C12 (defect in the code): in Scenario 1 (tide mark 30, font height 10, text
padding 5, arrow height 4, line padding 4) the sub-steps of `full AB fibble`
draw the line at Y = 45 and leave the tide mark at 51, which is not the line's
Y plus `InteractionLinePadB` (49), the value `make_test.go` asserts. -/
theorem full_tideMark_not_lineY_plus_padding :
    ∃ c2 line, Creator.statementEvents scenarioArrow fullEvents fullAB scenarioCreator = some c2 ∧
      c2.graphicsModel.Primitives.Lines = [line] ∧
      line.P1.Y = 45 ∧ c2.tideMark = 51 ∧
      c2.tideMark ≠ line.P1.Y + scenarioCreator.sizer.InteractionLinePadB := by
  obtain ⟨c2, hc2, htide, -, hlines⟩ :=
    fullDash_run scenarioArrow scenarioCreator fullAB 1 2 rfl rfl rfl fullEvents (Or.inl rfl)
  have ht : c2.tideMark = 51 := by
    rw [htide]
    norm_num [scenarioCreator, scenarioSizes, fullAB]
  refine ⟨c2, _, hc2, hlines, ?_, ht, ?_⟩
  · norm_num [scenarioCreator, scenarioSizes, fullAB]
  · rw [ht]
    norm_num [scenarioCreator, scenarioSizes, fullAB]

/-- The tide mark the creator leaves after a `Full` statement, for every
input: when both lifelines have a tracker, the sub-steps of a `Full` statement
(label, start-from-box, start-to-box, line) return, append
exactly one line, horizontal at some `Y`, and leave the tide mark at
`Y + 0.5*ArrowHeight + InteractionLinePadB`, for every sizer
configuration. -/
theorem full_tideMark_is_lineY_plus_half_arrow_and_padding (makeArrow : ArrowMaker)
    (c : Creator) (statement : dsl.Statement) (src dst : StatementPtr)
    (hrefs : statement.ReferencedLifelines = [src, dst])
    (hsrc : (c.activityBoxes.get src).isSome) (hdst : (c.activityBoxes.get dst).isSome) :
    ∃ c2 line, Creator.statementEvents makeArrow fullEvents statement c = some c2 ∧
      c2.graphicsModel.Primitives.Lines = c.graphicsModel.Primitives.Lines ++ [line] ∧
      line.P1.Y = line.P2.Y ∧
      c2.tideMark = line.P1.Y +
        ((1 / 2 : ℚ) * c.sizer.ArrowHeight + c.sizer.InteractionLinePadB) := by
  obtain ⟨c2, hc2, htide, -, hlines⟩ :=
    fullDash_run makeArrow c statement src dst hrefs hsrc hdst fullEvents (Or.inl rfl)
  exact ⟨c2, _, hc2, hlines, rfl, htide⟩

/-- The tide mark after `full AB fibble` in the Scenario 1 creator. -/
theorem full_tideMark_is_lineY_plus_half_arrow_and_padding_witness :
    ∃ c2 line, Creator.statementEvents scenarioArrow fullEvents fullAB scenarioCreator = some c2 ∧
      c2.graphicsModel.Primitives.Lines =
        scenarioCreator.graphicsModel.Primitives.Lines ++ [line] ∧
      line.P1.Y = line.P2.Y ∧
      c2.tideMark = line.P1.Y +
        ((1 / 2 : ℚ) * scenarioCreator.sizer.ArrowHeight +
          scenarioCreator.sizer.InteractionLinePadB) :=
  full_tideMark_is_lineY_plus_half_arrow_and_padding scenarioArrow scenarioCreator fullAB 1 2
    rfl rfl rfl

/-- C13: for a statement with two referenced lifelines, `interactionLine`
returns and appends exactly one line and one filled polygon (rectangles and
labels are unchanged); the line runs between the two interaction line end
points, both at Y equal to the tide mark on entry, and it is dashed if and only
if the statement keyword is `Dash`; the polygon is the arrow made for that
line. -/
theorem interactionLine_emits_line_and_arrow (makeArrow : ArrowMaker) (c : Creator)
    (statement : dsl.Statement) (src dst : StatementPtr)
    (hrefs : statement.ReferencedLifelines = [src, dst]) :
    ∃ c1 line poly, c.interactionLine makeArrow statement = some c1 ∧
      c1.graphicsModel.Primitives.Lines = c.graphicsModel.Primitives.Lines ++ [line] ∧
      c1.graphicsModel.Primitives.FilledPolys =
        c.graphicsModel.Primitives.FilledPolys ++ [poly] ∧
      c1.graphicsModel.Primitives.Rects = c.graphicsModel.Primitives.Rects ∧
      c1.graphicsModel.Primitives.Labels = c.graphicsModel.Primitives.Labels ∧
      line.P1 = ⟨(c.lifelineGeomH.InteractionLineEndPoints src dst).1, c.tideMark⟩ ∧
      line.P2 = ⟨(c.lifelineGeomH.InteractionLineEndPoints src dst).2, c.tideMark⟩ ∧
      (line.Dashed = true ↔ statement.Keyword = umli.Keyword.Dash) ∧
      poly.Vertices = makeArrow (c.lifelineGeomH.InteractionLineEndPoints src dst).1
        (c.lifelineGeomH.InteractionLineEndPoints src dst).2 c.tideMark
        c.sizer.ArrowLen c.sizer.ArrowHeight := by
  obtain ⟨c1, hc1, -, -, hlines, hpolys, hrects, hlabels, -⟩ :=
    interactionLine_state makeArrow c statement src dst hrefs
  exact ⟨c1, _, _, hc1, hlines, hpolys, hrects, hlabels, rfl, rfl, by simp, rfl⟩

/-- Witness for C13: `dash AB fibble` in the Scenario 1 creator. -/
theorem interactionLine_emits_line_and_arrow_witness :
    ∃ c1 line poly, scenarioCreator.interactionLine scenarioArrow dashAB = some c1 ∧
      c1.graphicsModel.Primitives.Lines =
        scenarioCreator.graphicsModel.Primitives.Lines ++ [line] ∧
      c1.graphicsModel.Primitives.FilledPolys =
        scenarioCreator.graphicsModel.Primitives.FilledPolys ++ [poly] ∧
      c1.graphicsModel.Primitives.Rects = scenarioCreator.graphicsModel.Primitives.Rects ∧
      c1.graphicsModel.Primitives.Labels = scenarioCreator.graphicsModel.Primitives.Labels ∧
      line.P1 = ⟨(scenarioCreator.lifelineGeomH.InteractionLineEndPoints 1 2).1,
                 scenarioCreator.tideMark⟩ ∧
      line.P2 = ⟨(scenarioCreator.lifelineGeomH.InteractionLineEndPoints 1 2).2,
                 scenarioCreator.tideMark⟩ ∧
      (line.Dashed = true ↔ dashAB.Keyword = umli.Keyword.Dash) ∧
      poly.Vertices = scenarioArrow (scenarioCreator.lifelineGeomH.InteractionLineEndPoints 1 2).1
        (scenarioCreator.lifelineGeomH.InteractionLineEndPoints 1 2).2 scenarioCreator.tideMark
        scenarioCreator.sizer.ArrowLen scenarioCreator.sizer.ArrowHeight :=
  interactionLine_emits_line_and_arrow scenarioArrow scenarioCreator dashAB 1 2 rfl

/-- C14: when both lifelines have a tracker, the sub-steps of one `Full`
statement, or of one `Dash` statement, started at tide mark `T` return, draw
one line at some `lineY` and register exactly two no-go zones, in this order,
both tagged with the source and destination lifelines: the first spans
`[T, lineY]` and the second `[lineY, T']`, where `T'` is the tide mark after
the line; the first ends where the second starts. -/
theorem fullDash_registers_two_zones (makeArrow : ArrowMaker) (c : Creator)
    (statement : dsl.Statement) (src dst : StatementPtr)
    (hrefs : statement.ReferencedLifelines = [src, dst])
    (hsrc : (c.activityBoxes.get src).isSome) (hdst : (c.activityBoxes.get dst).isSome)
    (evts : List eventType) (hevts : evts = fullEvents ∨ evts = dashEvents) :
    ∃ c2 line, Creator.statementEvents makeArrow evts statement c = some c2 ∧
      c2.graphicsModel.Primitives.Lines = c.graphicsModel.Primitives.Lines ++ [line] ∧
      line.P1.Y = line.P2.Y ∧
      c2.ilZones = c.ilZones ++
        [{ segment := ⟨c.tideMark, line.P1.Y⟩, lifelineA := src, lifelineB := dst },
         { segment := ⟨line.P1.Y, c2.tideMark⟩, lifelineA := src, lifelineB := dst }] := by
  obtain ⟨c2, hc2, htide, hzones, hlines⟩ :=
    fullDash_run makeArrow c statement src dst hrefs hsrc hdst evts hevts
  refine ⟨c2, _, hc2, hlines, rfl, ?_⟩
  rw [hzones, htide]

/-- Witness for C14: `full AB fibble` in the Scenario 1 creator. -/
theorem fullDash_registers_two_zones_witness :
    ∃ c2 line, Creator.statementEvents scenarioArrow fullEvents fullAB scenarioCreator = some c2 ∧
      c2.graphicsModel.Primitives.Lines =
        scenarioCreator.graphicsModel.Primitives.Lines ++ [line] ∧
      line.P1.Y = line.P2.Y ∧
      c2.ilZones = scenarioCreator.ilZones ++
        [{ segment := ⟨scenarioCreator.tideMark, line.P1.Y⟩, lifelineA := 1, lifelineB := 2 },
         { segment := ⟨line.P1.Y, c2.tideMark⟩, lifelineA := 1, lifelineB := 2 }] :=
  fullDash_registers_two_zones scenarioArrow scenarioCreator fullAB 1 2 rfl rfl rfl
    fullEvents (Or.inl rfl)

/-- C15: for a statement whose first referenced lifeline is `src`, when `src`
has a tracker, `potentiallyStartFromBox` returns, leaves the tide mark, the
graphics model (it emits no primitive) and the no-go zones unchanged, and
leaves the tracker of every other lifeline unchanged; when `src` has no box in
progress its tracker gains an OPEN interval whose start is
`tideMark - ActivityBoxVerticalOverlap` (its closed intervals are kept), and
when it has one in progress nothing changes at all. -/
theorem potentiallyStartFromBox_effect (c : Creator) (statement : dsl.Statement)
    (src : StatementPtr) (rest : List StatementPtr) (boxes : lifelineBoxes)
    (hrefs : statement.ReferencedLifelines = src :: rest)
    (hget : c.activityBoxes.get src = some boxes) :
    ∃ c1, c.potentiallyStartFromBox statement = some c1 ∧
      c1.tideMark = c.tideMark ∧
      c1.graphicsModel = c.graphicsModel ∧
      c1.ilZones = c.ilZones ∧
      (∀ k, k ≠ src → c1.activityBoxes.get k = c.activityBoxes.get k) ∧
      (boxes.inProgress = false →
        c1.activityBoxes.get src = some
          { closed := boxes.closed,
            openStart := some (c.tideMark - c.sizer.ActivityBoxVerticalOverlap) }) ∧
      (boxes.inProgress = true → c1 = c) := by
  have hr0 : statement.ReferencedLifelines[0]? = some src := by simp [hrefs]
  have hrun : c.potentiallyStartFromBox statement =
      c.potentiallyStartActivityBox src c.sizer.ActivityBoxVerticalOverlap := by
    simp only [Creator.potentiallyStartFromBox, hr0]
  rw [hrun, potentiallyStartActivityBox_eq c src _ boxes hget]
  by_cases hp : boxes.inProgress = true
  · refine ⟨c, by simp [hp], rfl, rfl, rfl, fun _ _ => rfl, ?_, fun _ => rfl⟩
    intro hnp
    rw [hp] at hnp
    exact absurd hnp (by decide)
  · have hnp : boxes.inProgress = false := by simpa using hp
    refine ⟨{ c with
              activityBoxes := c.activityBoxes.set src
                (boxes.startBoxAt (c.tideMark - c.sizer.ActivityBoxVerticalOverlap)) },
      by rw [if_neg hp], rfl, rfl, rfl, ?_, ?_, ?_⟩
    · intro k hk
      simp only [ActivityBoxes.get_set, if_neg hk]
    · intro _
      simp only [ActivityBoxes.get_set, if_true, hget, Option.map_some',
        startBoxAt_of_not_inProgress boxes _ hnp]
    · intro hp'
      exact absurd hp' hp

/-- Witness for C15: `full AB fibble` in the Scenario 1 creator after its
label (tide mark 45, overlap 5): the empty tracker of `A` gains the OPEN
interval starting at 40, and the tracker of `B` is unchanged. -/
theorem potentiallyStartFromBox_effect_witness :
    ∃ c1, ({ scenarioCreator with tideMark := 45 } : Creator).potentiallyStartFromBox fullAB =
        some c1 ∧
      c1.tideMark = 45 ∧
      c1.graphicsModel = scenarioCreator.graphicsModel ∧
      c1.ilZones = scenarioCreator.ilZones ∧
      c1.activityBoxes.get 2 = some newlifelineBoxes ∧
      c1.activityBoxes.get 1 = some { closed := [], openStart := some 40 } := by
  obtain ⟨c1, hc1, htide, hgm, hzones, hothers, hopens, -⟩ :=
    potentiallyStartFromBox_effect ({ scenarioCreator with tideMark := 45 } : Creator)
      fullAB 1 [2] newlifelineBoxes rfl rfl
  refine ⟨c1, hc1, htide, hgm, hzones, ?_, ?_⟩
  · rw [hothers 2 (by decide)]
    rfl
  · rw [hopens rfl]
    norm_num [scenarioCreator, scenarioSizes, newlifelineBoxes]

/-- C16: for a statement with referenced lifelines `src, dst`, when `dst` has
a tracker with no box in progress, `potentiallyStartToBox` returns, does not
change the tide mark, and leaves the tracker of `dst` with an OPEN interval
whose start is the current tide mark exactly (its closed intervals are kept);
`interactionLine` run next draws its line at that same Y. -/
theorem potentiallyStartToBox_opens_at_tideMark (makeArrow : ArrowMaker) (c : Creator)
    (statement : dsl.Statement) (src dst : StatementPtr) (boxes : lifelineBoxes)
    (hrefs : statement.ReferencedLifelines = [src, dst])
    (hget : c.activityBoxes.get dst = some boxes)
    (hnp : boxes.inProgress = false) :
    ∃ c1, c.potentiallyStartToBox statement = some c1 ∧
      c1.tideMark = c.tideMark ∧
      c1.activityBoxes.get dst = some { closed := boxes.closed, openStart := some c.tideMark } ∧
      ∃ c2 line, c1.interactionLine makeArrow statement = some c2 ∧
        c2.graphicsModel.Primitives.Lines = c.graphicsModel.Primitives.Lines ++ [line] ∧
        line.P1.Y = c.tideMark ∧ line.P2.Y = c.tideMark ∧
        c2.activityBoxes.get dst =
          some { closed := boxes.closed, openStart := some c.tideMark } := by
  have hr1 : statement.ReferencedLifelines[1]? = some dst := by simp [hrefs]
  have hp : ¬ boxes.inProgress = true := by simp [hnp]
  have hrun : c.potentiallyStartToBox statement = c.potentiallyStartActivityBox dst 0 := by
    simp only [Creator.potentiallyStartToBox, hr1]
  have hbox : ActivityBoxes.get (ActivityBoxes.set c.activityBoxes dst
      (boxes.startBoxAt (c.tideMark - 0))) dst =
      some { closed := boxes.closed, openStart := some c.tideMark } := by
    simp only [ActivityBoxes.get_set, if_true, hget, Option.map_some',
      startBoxAt_of_not_inProgress boxes _ hnp, sub_zero]
  obtain ⟨c2, hc2, -, -, hlines, -, -, -, hboxes2⟩ :=
    interactionLine_state makeArrow
      ({ c with activityBoxes :=
          c.activityBoxes.set dst (boxes.startBoxAt (c.tideMark - 0)) } : Creator)
      statement src dst hrefs
  refine ⟨{ c with
            activityBoxes := c.activityBoxes.set dst (boxes.startBoxAt (c.tideMark - 0)) },
    by rw [hrun, potentiallyStartActivityBox_eq c dst 0 boxes hget, if_neg hp],
    rfl, hbox, c2, _, hc2, hlines, rfl, rfl, ?_⟩
  rw [hboxes2]
  exact hbox

/-- Witness for C16: `full AB fibble` in the Scenario 1 creator, whose
lifeline `B` (address 2) has an empty tracker. -/
theorem potentiallyStartToBox_opens_at_tideMark_witness :
    ∃ c1, scenarioCreator.potentiallyStartToBox fullAB = some c1 ∧
      c1.tideMark = scenarioCreator.tideMark ∧
      c1.activityBoxes.get 2 =
        some { closed := newlifelineBoxes.closed, openStart := some scenarioCreator.tideMark } ∧
      ∃ c2 line, c1.interactionLine scenarioArrow fullAB = some c2 ∧
        c2.graphicsModel.Primitives.Lines =
          scenarioCreator.graphicsModel.Primitives.Lines ++ [line] ∧
        line.P1.Y = scenarioCreator.tideMark ∧ line.P2.Y = scenarioCreator.tideMark ∧
        c2.activityBoxes.get 2 =
          some { closed := newlifelineBoxes.closed,
                 openStart := some scenarioCreator.tideMark } :=
  potentiallyStartToBox_opens_at_tideMark scenarioArrow scenarioCreator fullAB 1 2
    newlifelineBoxes rfl rfl rfl

/-- C17: starting an activity box is idempotent. For the tracker: a second
`startBoxAt` leaves it exactly as the first one left it, with an interval in
progress, whose start is the first Y when none was in progress before. For the
creator: when the lifeline has a tracker, a second
`potentiallyStartActivityBox` (whatever its offset) returns the state the
first one returned, in which the lifeline has an interval in progress, whose
start is the first request's Y when none was in progress before. -/
theorem startBox_idempotent (c : Creator) (lifeline : StatementPtr) (delta1 delta2 : ℚ)
    (boxes : lifelineBoxes) (hget : c.activityBoxes.get lifeline = some boxes) :
    (∀ y1 y2 : ℚ,
      (boxes.startBoxAt y1).startBoxAt y2 = boxes.startBoxAt y1 ∧
      (boxes.startBoxAt y1).inProgress = true ∧
      (boxes.inProgress = false →
        boxes.startBoxAt y1 = { closed := boxes.closed, openStart := some y1 })) ∧
    ∃ c1 boxes1, c.potentiallyStartActivityBox lifeline delta1 = some c1 ∧
      c1.potentiallyStartActivityBox lifeline delta2 = some c1 ∧
      c1.activityBoxes.get lifeline = some boxes1 ∧
      boxes1.inProgress = true ∧
      (boxes.inProgress = false →
        boxes1 = { closed := boxes.closed, openStart := some (c.tideMark - delta1) }) := by
  have hstart : ∀ y : ℚ, (boxes.startBoxAt y).inProgress = true := by
    intro y
    cases hopen : boxes.openStart with
    | none => simp [lifelineBoxes.startBoxAt, lifelineBoxes.inProgress, hopen]
    | some y0 => simp [lifelineBoxes.startBoxAt, lifelineBoxes.inProgress, hopen]
  constructor
  · intro y1 y2
    refine ⟨?_, hstart y1, fun hnp => startBoxAt_of_not_inProgress boxes y1 hnp⟩
    cases hopen : boxes.openStart with
    | none => simp [lifelineBoxes.startBoxAt, hopen]
    | some y0 => simp [lifelineBoxes.startBoxAt, hopen]
  · by_cases hp : boxes.inProgress = true
    · refine ⟨c, boxes, ?_, ?_, hget, hp, ?_⟩
      · rw [potentiallyStartActivityBox_eq c lifeline delta1 boxes hget, if_pos hp]
      · rw [potentiallyStartActivityBox_eq c lifeline delta2 boxes hget, if_pos hp]
      · intro hnp
        rw [hp] at hnp
        exact absurd hnp (by decide)
    · have hget1 : ActivityBoxes.get (ActivityBoxes.set c.activityBoxes lifeline
          (boxes.startBoxAt (c.tideMark - delta1))) lifeline =
          some (boxes.startBoxAt (c.tideMark - delta1)) := by
        simp only [ActivityBoxes.get_set, if_true, hget, Option.map_some']
      refine ⟨{ c with
                activityBoxes :=
                  c.activityBoxes.set lifeline (boxes.startBoxAt (c.tideMark - delta1)) },
        boxes.startBoxAt (c.tideMark - delta1), ?_, ?_, hget1, hstart _, ?_⟩
      · rw [potentiallyStartActivityBox_eq c lifeline delta1 boxes hget, if_neg hp]
      · rw [potentiallyStartActivityBox_eq _ lifeline delta2 _ hget1, if_pos (hstart _)]
      · intro hnp
        exact startBoxAt_of_not_inProgress boxes _ hnp

/-- Witness for C17: lifeline `A` of the Scenario 1 creator (tide mark 30),
started with offset 5 and then with offset 0: the tracker holds the single OPEN
interval starting at 25. -/
theorem startBox_idempotent_witness :
    (∀ y1 y2 : ℚ,
      (newlifelineBoxes.startBoxAt y1).startBoxAt y2 = newlifelineBoxes.startBoxAt y1 ∧
      (newlifelineBoxes.startBoxAt y1).inProgress = true ∧
      newlifelineBoxes.startBoxAt y1 = { closed := [], openStart := some y1 }) ∧
    ∃ c1, scenarioCreator.potentiallyStartActivityBox 1 5 = some c1 ∧
      c1.potentiallyStartActivityBox 1 0 = some c1 ∧
      c1.activityBoxes.get 1 = some { closed := [], openStart := some 25 } := by
  obtain ⟨htracker, c1, boxes1, h1, h2, hget1, -, hopen⟩ :=
    startBox_idempotent scenarioCreator 1 5 0 newlifelineBoxes rfl
  refine ⟨fun y1 y2 => ⟨(htracker y1 y2).1, (htracker y1 y2).2.1, (htracker y1 y2).2.2 rfl⟩,
    c1, h1, h2, ?_⟩
  rw [hget1, hopen rfl]
  norm_num [scenarioCreator, newlifelineBoxes]

/-- The sub-steps of the creator for a `Dash` statement: it schedules
interaction label, start-to-box and interaction line, in that order, which is
the list of a `Full` statement without its start-from-box step. When its two
lifelines are distinct and have
trackers, and the destination has no box in progress, its sub-steps return,
draw one dashed line at some `lineY`, leave the tracker of the source exactly
as it was (no interval before, none after) and leave the destination with an
OPEN interval starting at `lineY`. -/
theorem dash_never_opens_source_box (makeArrow : ArrowMaker) (c : Creator)
    (statement : dsl.Statement) (src dst : StatementPtr) (bsrc bdst : lifelineBoxes)
    (hkw : statement.Keyword = umli.Keyword.Dash)
    (hrefs : statement.ReferencedLifelines = [src, dst]) (hne : src ≠ dst)
    (hsrc : c.activityBoxes.get src = some bsrc) (hdst : c.activityBoxes.get dst = some bdst)
    (hnp : bdst.inProgress = false) :
    ((interactions.scheduled statement).map (fun d => d.fn) =
        [interactions.actionFn.interactionLabel, interactions.actionFn.startToBox,
         interactions.actionFn.interactionLine] ∧
      (interactions.scheduled statement).map (fun d => d.fn) =
        ((interactions.scheduled { statement with Keyword := umli.Keyword.Full }).map
          (fun d => d.fn)).filter
            (fun f => decide (f ≠ interactions.actionFn.startFromBox)) ∧
      dashEvents = fullEvents.filter (fun e => decide (e ≠ eventType.PotentiallyStartFromBox))) ∧
    ∃ c2 line, Creator.statementEvents makeArrow dashEvents statement c = some c2 ∧
      c2.graphicsModel.Primitives.Lines = c.graphicsModel.Primitives.Lines ++ [line] ∧
      line.P1.Y = line.P2.Y ∧ line.Dashed = true ∧
      c2.activityBoxes.get src = some bsrc ∧
      c2.activityBoxes.get dst = some { closed := bdst.closed, openStart := some line.P1.Y } := by
  refine ⟨⟨?_, ?_, ?_⟩, ?_⟩
  · simp [interactions.scheduled, hkw]
  · simp [interactions.scheduled, hkw]
  · simp [dashEvents, fullEvents]
  · obtain ⟨c1, hc1, -, -, hlines1, hboxes1, -, -, -⟩ :=
      interactionLabel_state c statement src dst hrefs
    have hr1 : statement.ReferencedLifelines[1]? = some dst := by simp [hrefs]
    have hp : ¬ bdst.inProgress = true := by simp [hnp]
    have hto : c1.potentiallyStartToBox statement =
        some { c1 with
               activityBoxes := c1.activityBoxes.set dst (bdst.startBoxAt (c1.tideMark - 0)) } := by
      simp only [Creator.potentiallyStartToBox, hr1]
      rw [potentiallyStartActivityBox_eq c1 dst 0 bdst (by rw [hboxes1]; exact hdst), if_neg hp]
    obtain ⟨c2, hc2, -, -, hlines2, -, -, -, hboxes2⟩ :=
      interactionLine_state makeArrow
        ({ c1 with
           activityBoxes := c1.activityBoxes.set dst (bdst.startBoxAt (c1.tideMark - 0)) } :
          Creator)
        statement src dst hrefs
    refine ⟨c2,
      { P1 := ⟨(c1.lifelineGeomH.InteractionLineEndPoints src dst).1, c1.tideMark⟩,
        P2 := ⟨(c1.lifelineGeomH.InteractionLineEndPoints src dst).2, c1.tideMark⟩,
        Dashed := decide (statement.Keyword = umli.Keyword.Dash) },
      ?_, ?_, rfl, ?_, ?_, ?_⟩
    · simp only [dashEvents, Creator.statementEvents, Creator.graphicsForDrawingEvent, hc1,
        hto, hc2]
    · rw [hlines2]
      simp only [hlines1]
    · simp [hkw]
    · rw [hboxes2]
      simp only [ActivityBoxes.get_set, if_neg hne, hboxes1, hsrc]
    · rw [hboxes2]
      simp only [ActivityBoxes.get_set, if_true, hboxes1, hdst, Option.map_some',
        startBoxAt_of_not_inProgress bdst _ hnp, sub_zero]

/-- The sub-steps of `dash AB fibble` in the Scenario 1 creator, whose two
lifelines have empty trackers. -/
theorem dash_never_opens_source_box_witness :
    ((interactions.scheduled dashAB).map (fun d => d.fn) =
        [interactions.actionFn.interactionLabel, interactions.actionFn.startToBox,
         interactions.actionFn.interactionLine] ∧
      (interactions.scheduled dashAB).map (fun d => d.fn) =
        ((interactions.scheduled { dashAB with Keyword := umli.Keyword.Full }).map
          (fun d => d.fn)).filter
            (fun f => decide (f ≠ interactions.actionFn.startFromBox)) ∧
      dashEvents = fullEvents.filter (fun e => decide (e ≠ eventType.PotentiallyStartFromBox))) ∧
    ∃ c2 line, Creator.statementEvents scenarioArrow dashEvents dashAB scenarioCreator = some c2 ∧
      c2.graphicsModel.Primitives.Lines =
        scenarioCreator.graphicsModel.Primitives.Lines ++ [line] ∧
      line.P1.Y = line.P2.Y ∧ line.Dashed = true ∧
      c2.activityBoxes.get 1 = some newlifelineBoxes ∧
      c2.activityBoxes.get 2 =
        some { closed := newlifelineBoxes.closed, openStart := some line.P1.Y } :=
  dash_never_opens_source_box scenarioArrow scenarioCreator dashAB 1 2 newlifelineBoxes
    newlifelineBoxes rfl rfl (by decide) rfl rfl rfl

/-- C20 (defect in the code): Scenario 3, `self A fibble` on the single
lifeline `A` with an empty tracker, tide mark 30, font height 10, text padding
5, overlap 5. `selfInteractionLines` emits the label and the loop in one step,
with the loop's top line at Y = 45, so no sub-step runs while the tide mark is
at the top line: with start-from-box run before it the OPEN interval of `A`
starts at 25, with start-from-box run after it at 74, and in neither order at
`45 - 5 = 40`. The separate label step cannot serve a `Self` statement: it
indexes a second referenced lifeline and panics. -/
theorem self_box_start_not_at_top_line :
    selfScenarioCreator.interactionLabel selfA = none ∧
    (∃ c2, Creator.statementEvents scenarioArrow
        [eventType.PotentiallyStartFromBox, eventType.SelfInteractionLines] selfA
        selfScenarioCreator = some c2 ∧
      c2.graphicsModel.Primitives.Lines[0]? = some ⟨⟨520, 45⟩, ⟨620, 45⟩, false⟩ ∧
      c2.activityBoxes.get 1 = some { closed := [], openStart := some 25 }) ∧
    (∃ c2, Creator.statementEvents scenarioArrow
        [eventType.SelfInteractionLines, eventType.PotentiallyStartFromBox] selfA
        selfScenarioCreator = some c2 ∧
      c2.graphicsModel.Primitives.Lines[0]? = some ⟨⟨520, 45⟩, ⟨620, 45⟩, false⟩ ∧
      c2.activityBoxes.get 1 = some { closed := [], openStart := some 74 }) ∧
    selfScenarioCreator.tideMark +
        (selfA.LabelSegments.length : ℚ) * selfScenarioCreator.fontHeight +
        selfScenarioCreator.sizer.InteractionLineTextPadB -
        selfScenarioCreator.sizer.ActivityBoxVerticalOverlap = 40 ∧
    (25 : ℚ) ≠ 40 ∧ (74 : ℚ) ≠ 40 := by
  refine ⟨?_, ?_, ?_, ?_, by norm_num, by norm_num⟩
  · simp [Creator.interactionLabel, selfA]
  · simp [Creator.statementEvents, Creator.graphicsForDrawingEvent,
      Creator.potentiallyStartFromBox, Creator.potentiallyStartActivityBox,
      Creator.selfInteractionLines, Creator.rowOfLabels, rowOfLabelsFrom, selfA,
      selfScenarioCreator, scenarioGeom, scenarioSizes, newlifelineBoxes,
      ActivityBoxes.get, ActivityBoxes.set, lifelineBoxes.inProgress,
      lifelineBoxes.startBoxAt, graphics.NewModel, graphics.NewPrimitives,
      graphics.Primitives.AddLine, graphics.Primitives.AddLabel,
      graphics.Primitives.AddFilledPoly]
    norm_num
  · simp [Creator.statementEvents, Creator.graphicsForDrawingEvent,
      Creator.potentiallyStartFromBox, Creator.potentiallyStartActivityBox,
      Creator.selfInteractionLines, Creator.rowOfLabels, rowOfLabelsFrom, selfA,
      selfScenarioCreator, scenarioGeom, scenarioSizes, newlifelineBoxes,
      ActivityBoxes.get, ActivityBoxes.set, lifelineBoxes.inProgress,
      lifelineBoxes.startBoxAt, graphics.NewModel, graphics.NewPrimitives,
      graphics.Primitives.AddLine, graphics.Primitives.AddLabel,
      graphics.Primitives.AddFilledPoly]
    norm_num
  · norm_num [selfScenarioCreator, scenarioSizes, selfA]

theorem selfInteractionLines_state (makeArrow : ArrowMaker) (c : Creator)
    (statement : dsl.Statement) (theLifeline : StatementPtr) (rest : List StatementPtr)
    (hrefs : statement.ReferencedLifelines = theLifeline :: rest) :
    ∃ c1, c.selfInteractionLines makeArrow statement = some c1 ∧
      c1.tideMark = c.tideMark + (statement.LabelSegments.length : ℚ) * c.fontHeight +
        c.sizer.InteractionLineTextPadB + c.sizer.SelfLoopHeight +
        c.sizer.InteractionLinePadB ∧
      c1.graphicsModel.Primitives.Lines = c.graphicsModel.Primitives.Lines ++
        [{ P1 := ⟨(c.lifelineGeomH.SelfInteractionLineXCoords theLifeline).1,
                  c.tideMark + (statement.LabelSegments.length : ℚ) * c.fontHeight +
                    c.sizer.InteractionLineTextPadB⟩,
           P2 := ⟨(c.lifelineGeomH.SelfInteractionLineXCoords theLifeline).2,
                  c.tideMark + (statement.LabelSegments.length : ℚ) * c.fontHeight +
                    c.sizer.InteractionLineTextPadB⟩,
           Dashed := false },
         { P1 := ⟨(c.lifelineGeomH.SelfInteractionLineXCoords theLifeline).2,
                  c.tideMark + (statement.LabelSegments.length : ℚ) * c.fontHeight +
                    c.sizer.InteractionLineTextPadB⟩,
           P2 := ⟨(c.lifelineGeomH.SelfInteractionLineXCoords theLifeline).2,
                  c.tideMark + (statement.LabelSegments.length : ℚ) * c.fontHeight +
                    c.sizer.InteractionLineTextPadB + c.sizer.SelfLoopHeight⟩,
           Dashed := false },
         { P1 := ⟨(c.lifelineGeomH.SelfInteractionLineXCoords theLifeline).2,
                  c.tideMark + (statement.LabelSegments.length : ℚ) * c.fontHeight +
                    c.sizer.InteractionLineTextPadB + c.sizer.SelfLoopHeight⟩,
           P2 := ⟨(c.lifelineGeomH.SelfInteractionLineXCoords theLifeline).1,
                  c.tideMark + (statement.LabelSegments.length : ℚ) * c.fontHeight +
                    c.sizer.InteractionLineTextPadB + c.sizer.SelfLoopHeight⟩,
           Dashed := false }] ∧
      c1.graphicsModel.Primitives.FilledPolys = c.graphicsModel.Primitives.FilledPolys ++
        [{ Vertices := makeArrow (c.lifelineGeomH.SelfInteractionLineXCoords theLifeline).2
            (c.lifelineGeomH.SelfInteractionLineXCoords theLifeline).1
            (c.tideMark + (statement.LabelSegments.length : ℚ) * c.fontHeight +
              c.sizer.InteractionLineTextPadB + c.sizer.SelfLoopHeight)
            c.sizer.ArrowLen c.sizer.ArrowHeight }] ∧
      c1.graphicsModel.Primitives.Rects = c.graphicsModel.Primitives.Rects ∧
      c1.graphicsModel.Primitives.Labels = c.graphicsModel.Primitives.Labels ++
        (statement.LabelSegments.enumFrom 0).map (fun q =>
          ({ TheString := q.2, FontHeight := c.fontHeight,
             Anchor := ⟨c.lifelineGeomH.CentreLine theLifeline +
                          c.sizer.InteractionLineLabelIndent,
                        c.tideMark + (q.1 : ℚ) * c.fontHeight⟩,
             HJust := graphics.Justification.Left,
             VJust := graphics.Justification.Top } : graphics.Label)) ∧
      c1.ilZones = c.ilZones ∧ c1.activityBoxes = c.activityBoxes ∧
      c1.sizer = c.sizer ∧ c1.fontHeight = c.fontHeight ∧
      c1.lifelineGeomH = c.lifelineGeomH := by
  have hothers := rowOfLabelsFrom_others c.fontHeight
    (c.lifelineGeomH.CentreLine theLifeline + c.sizer.InteractionLineLabelIndent) c.tideMark
    graphics.Justification.Left statement.LabelSegments 0 c.graphicsModel.Primitives
  have hlabels := rowOfLabelsFrom_Labels c.fontHeight
    (c.lifelineGeomH.CentreLine theLifeline + c.sizer.InteractionLineLabelIndent) c.tideMark
    graphics.Justification.Left statement.LabelSegments 0 c.graphicsModel.Primitives
  unfold Creator.selfInteractionLines
  simp [hrefs, Creator.rowOfLabels, graphics.Primitives.AddLine,
    graphics.Primitives.AddFilledPoly, hothers.1, hothers.2.1, hothers.2.2, hlabels]

theorem self_run (makeArrow : ArrowMaker) (c : Creator) (statement : dsl.Statement)
    (theLifeline : StatementPtr) (rest : List StatementPtr)
    (hrefs : statement.ReferencedLifelines = theLifeline :: rest)
    (hbox : (c.activityBoxes.get theLifeline).isSome)
    (evts : List eventType)
    (hevts : evts = [eventType.PotentiallyStartFromBox, eventType.SelfInteractionLines] ∨
      evts = [eventType.SelfInteractionLines, eventType.PotentiallyStartFromBox]) :
    ∃ c2, Creator.statementEvents makeArrow evts statement c = some c2 ∧
      c2.tideMark = c.tideMark + (statement.LabelSegments.length : ℚ) * c.fontHeight +
        c.sizer.InteractionLineTextPadB + c.sizer.SelfLoopHeight +
        c.sizer.InteractionLinePadB ∧
      c2.ilZones = c.ilZones := by
  have hr0 : statement.ReferencedLifelines[0]? = some theLifeline := by simp [hrefs]
  rcases hevts with h | h
  · subst h
    obtain ⟨cA, hcA, htA, -, hsA, hfA, -, hzA, -⟩ :=
      potentiallyStartActivityBox_frame c theLifeline c.sizer.ActivityBoxVerticalOverlap hbox
    obtain ⟨c2, hc2, ht2, -, -, -, -, hz2, -⟩ :=
      selfInteractionLines_state makeArrow cA statement theLifeline rest hrefs
    refine ⟨c2, ?_, ?_, ?_⟩
    · simp only [Creator.statementEvents, Creator.graphicsForDrawingEvent,
        Creator.potentiallyStartFromBox, hr0, hcA, hc2]
    · rw [ht2, htA, hsA, hfA]
    · rw [hz2, hzA]
  · subst h
    obtain ⟨c1, hc1, ht1, -, -, -, -, hz1, hb1, hs1, -, -⟩ :=
      selfInteractionLines_state makeArrow c statement theLifeline rest hrefs
    obtain ⟨c2, hc2, ht2, -, -, -, -, hz2, -⟩ :=
      potentiallyStartActivityBox_frame c1 theLifeline c1.sizer.ActivityBoxVerticalOverlap
        (by rw [hb1]; exact hbox)
    refine ⟨c2, ?_, ?_, ?_⟩
    · simp only [Creator.statementEvents, Creator.graphicsForDrawingEvent,
        Creator.potentiallyStartFromBox, hr0, hc1, hc2]
    · rw [ht2, ht1]
    · rw [hz2, hz1]

/-- C21: for a statement whose first referenced lifeline is `theLifeline`, with
`rows` label segments, processed at tide mark `T`, `selfInteractionLines`
returns and appends exactly three lines, none dashed, and one filled polygon
(rectangles are unchanged): with `top = T + rows*fontHeight +
InteractionLineTextPadB`, `bot = top + SelfLoopHeight` and `(left, right)` the
self-loop X extent, the lines are `(left,top)-(right,top)`,
`(right,top)-(right,bot)` and `(right,bot)-(left,bot)`, and the polygon is the
arrow made from `right` to `left` at `bot`. -/
theorem selfInteractionLines_emits_open_rectangle (makeArrow : ArrowMaker) (c : Creator)
    (statement : dsl.Statement) (theLifeline : StatementPtr) (rest : List StatementPtr)
    (hrefs : statement.ReferencedLifelines = theLifeline :: rest) :
    ∃ c1 left right top bot,
      c.selfInteractionLines makeArrow statement = some c1 ∧
      (left, right) = c.lifelineGeomH.SelfInteractionLineXCoords theLifeline ∧
      top = c.tideMark + (statement.LabelSegments.length : ℚ) * c.fontHeight +
        c.sizer.InteractionLineTextPadB ∧
      bot = top + c.sizer.SelfLoopHeight ∧
      c1.graphicsModel.Primitives.Lines = c.graphicsModel.Primitives.Lines ++
        [{ P1 := ⟨left, top⟩, P2 := ⟨right, top⟩, Dashed := false },
         { P1 := ⟨right, top⟩, P2 := ⟨right, bot⟩, Dashed := false },
         { P1 := ⟨right, bot⟩, P2 := ⟨left, bot⟩, Dashed := false }] ∧
      c1.graphicsModel.Primitives.FilledPolys = c.graphicsModel.Primitives.FilledPolys ++
        [{ Vertices := makeArrow right left bot c.sizer.ArrowLen c.sizer.ArrowHeight }] ∧
      c1.graphicsModel.Primitives.Rects = c.graphicsModel.Primitives.Rects := by
  obtain ⟨c1, hc1, -, hlines, hpolys, hrects, -⟩ :=
    selfInteractionLines_state makeArrow c statement theLifeline rest hrefs
  exact ⟨c1, (c.lifelineGeomH.SelfInteractionLineXCoords theLifeline).1,
    (c.lifelineGeomH.SelfInteractionLineXCoords theLifeline).2,
    c.tideMark + (statement.LabelSegments.length : ℚ) * c.fontHeight +
      c.sizer.InteractionLineTextPadB,
    c.tideMark + (statement.LabelSegments.length : ℚ) * c.fontHeight +
      c.sizer.InteractionLineTextPadB + c.sizer.SelfLoopHeight,
    hc1, rfl, rfl, rfl, hlines, hpolys, hrects⟩

/-- Witness for C21: `self A fibble` in the Scenario 3 creator. -/
theorem selfInteractionLines_emits_open_rectangle_witness :
    ∃ c1 left right top bot,
      selfScenarioCreator.selfInteractionLines scenarioArrow selfA = some c1 ∧
      (left, right) = selfScenarioCreator.lifelineGeomH.SelfInteractionLineXCoords 1 ∧
      top = selfScenarioCreator.tideMark +
        (selfA.LabelSegments.length : ℚ) * selfScenarioCreator.fontHeight +
        selfScenarioCreator.sizer.InteractionLineTextPadB ∧
      bot = top + selfScenarioCreator.sizer.SelfLoopHeight ∧
      c1.graphicsModel.Primitives.Lines = selfScenarioCreator.graphicsModel.Primitives.Lines ++
        [{ P1 := ⟨left, top⟩, P2 := ⟨right, top⟩, Dashed := false },
         { P1 := ⟨right, top⟩, P2 := ⟨right, bot⟩, Dashed := false },
         { P1 := ⟨right, bot⟩, P2 := ⟨left, bot⟩, Dashed := false }] ∧
      c1.graphicsModel.Primitives.FilledPolys =
        selfScenarioCreator.graphicsModel.Primitives.FilledPolys ++
        [{ Vertices := scenarioArrow right left bot selfScenarioCreator.sizer.ArrowLen
            selfScenarioCreator.sizer.ArrowHeight }] ∧
      c1.graphicsModel.Primitives.Rects = selfScenarioCreator.graphicsModel.Primitives.Rects :=
  selfInteractionLines_emits_open_rectangle scenarioArrow selfScenarioCreator selfA 1 [] rfl

/-- C22: for a statement whose first referenced lifeline is `theLifeline`,
processed at tide mark `T`, `selfInteractionLines` returns and leaves the tide
mark at the Y of the loop's bottom line plus `InteractionLinePadB`, that is at
`T + rows*fontHeight + InteractionLineTextPadB + SelfLoopHeight +
InteractionLinePadB`; and when the lifeline has a tracker the same tide mark
results from the two sub-steps of a `Self` statement, start-from-box and
self-interaction lines, run in either order. -/
theorem self_tideMark_below_loop (makeArrow : ArrowMaker) (c : Creator)
    (statement : dsl.Statement) (theLifeline : StatementPtr) (rest : List StatementPtr)
    (hrefs : statement.ReferencedLifelines = theLifeline :: rest) :
    (∃ c1 bottomLine, c.selfInteractionLines makeArrow statement = some c1 ∧
      c1.graphicsModel.Primitives.Lines.getLast? = some bottomLine ∧
      bottomLine.P1.Y = bottomLine.P2.Y ∧
      c1.tideMark = bottomLine.P1.Y + c.sizer.InteractionLinePadB ∧
      c1.tideMark = c.tideMark + (statement.LabelSegments.length : ℚ) * c.fontHeight +
        c.sizer.InteractionLineTextPadB + c.sizer.SelfLoopHeight +
        c.sizer.InteractionLinePadB) ∧
    ((c.activityBoxes.get theLifeline).isSome →
      ∀ evts,
        evts = [eventType.PotentiallyStartFromBox, eventType.SelfInteractionLines] ∨
        evts = [eventType.SelfInteractionLines, eventType.PotentiallyStartFromBox] →
        ∃ c2, Creator.statementEvents makeArrow evts statement c = some c2 ∧
          c2.tideMark = c.tideMark + (statement.LabelSegments.length : ℚ) * c.fontHeight +
            c.sizer.InteractionLineTextPadB + c.sizer.SelfLoopHeight +
            c.sizer.InteractionLinePadB) := by
  constructor
  · obtain ⟨c1, hc1, htide, hlines, -⟩ :=
      selfInteractionLines_state makeArrow c statement theLifeline rest hrefs
    refine ⟨c1,
      { P1 := ⟨(c.lifelineGeomH.SelfInteractionLineXCoords theLifeline).2,
               c.tideMark + (statement.LabelSegments.length : ℚ) * c.fontHeight +
                 c.sizer.InteractionLineTextPadB + c.sizer.SelfLoopHeight⟩,
        P2 := ⟨(c.lifelineGeomH.SelfInteractionLineXCoords theLifeline).1,
               c.tideMark + (statement.LabelSegments.length : ℚ) * c.fontHeight +
                 c.sizer.InteractionLineTextPadB + c.sizer.SelfLoopHeight⟩,
        Dashed := false },
      hc1, ?_, rfl, htide, htide⟩
    rw [hlines]
    simp [List.getLast?_append]
  · intro hbox evts hevts
    obtain ⟨c2, hc2, htide, -⟩ :=
      self_run makeArrow c statement theLifeline rest hrefs hbox evts hevts
    exact ⟨c2, hc2, htide⟩

/-- Witness for C22: `self A fibble` in the Scenario 3 creator (tide mark 30,
one row of height 10, text padding 5, loop height 30, line padding 4): the
bottom line is at Y = 75 and the tide mark ends at 79. -/
theorem self_tideMark_below_loop_witness :
    (∃ c1 bottomLine, selfScenarioCreator.selfInteractionLines scenarioArrow selfA = some c1 ∧
      c1.graphicsModel.Primitives.Lines.getLast? = some bottomLine ∧
      bottomLine.P1.Y = bottomLine.P2.Y ∧
      c1.tideMark = bottomLine.P1.Y + selfScenarioCreator.sizer.InteractionLinePadB ∧
      c1.tideMark = 79) ∧
    ∀ evts,
      evts = [eventType.PotentiallyStartFromBox, eventType.SelfInteractionLines] ∨
      evts = [eventType.SelfInteractionLines, eventType.PotentiallyStartFromBox] →
      ∃ c2, Creator.statementEvents scenarioArrow evts selfA selfScenarioCreator = some c2 ∧
        c2.tideMark = 79 := by
  have h := self_tideMark_below_loop scenarioArrow selfScenarioCreator selfA 1 [] rfl
  have hval : selfScenarioCreator.tideMark +
      (selfA.LabelSegments.length : ℚ) * selfScenarioCreator.fontHeight +
      selfScenarioCreator.sizer.InteractionLineTextPadB +
      selfScenarioCreator.sizer.SelfLoopHeight +
      selfScenarioCreator.sizer.InteractionLinePadB = 79 := by
    norm_num [selfScenarioCreator, scenarioSizes, selfA]
  constructor
  · obtain ⟨c1, bottomLine, hc1, hlast, hy, ht, ht'⟩ := h.1
    exact ⟨c1, bottomLine, hc1, hlast, hy, ht, ht'.trans hval⟩
  · intro evts hevts
    obtain ⟨c2, hc2, ht⟩ := h.2 rfl evts hevts
    exact ⟨c2, hc2, ht.trans hval⟩

/-- C23: for a statement whose first referenced lifeline is `theLifeline`,
`selfInteractionLines` returns with the registered no-go zones unchanged; and
when the lifeline has a tracker the two sub-steps of a `Self` statement,
start-from-box and self-interaction lines, run in either order, return with
the registered zones equal to the zones before, for every creator state. -/
theorem self_registers_no_zone (makeArrow : ArrowMaker) (c : Creator)
    (statement : dsl.Statement) (theLifeline : StatementPtr) (rest : List StatementPtr)
    (hrefs : statement.ReferencedLifelines = theLifeline :: rest) :
    (∃ c1, c.selfInteractionLines makeArrow statement = some c1 ∧ c1.ilZones = c.ilZones) ∧
    ((c.activityBoxes.get theLifeline).isSome →
      ∀ evts,
        evts = [eventType.PotentiallyStartFromBox, eventType.SelfInteractionLines] ∨
        evts = [eventType.SelfInteractionLines, eventType.PotentiallyStartFromBox] →
        ∃ c2, Creator.statementEvents makeArrow evts statement c = some c2 ∧
          c2.ilZones = c.ilZones) := by
  constructor
  · obtain ⟨c1, hc1, -, -, -, -, -, hzones, -⟩ :=
      selfInteractionLines_state makeArrow c statement theLifeline rest hrefs
    exact ⟨c1, hc1, hzones⟩
  · intro hbox evts hevts
    obtain ⟨c2, hc2, -, hzones⟩ :=
      self_run makeArrow c statement theLifeline rest hrefs hbox evts hevts
    exact ⟨c2, hc2, hzones⟩

/-- Witness for C23: `self A fibble` in the Scenario 3 creator, which has no
zone before and none after. -/
theorem self_registers_no_zone_witness :
    (∃ c1, selfScenarioCreator.selfInteractionLines scenarioArrow selfA = some c1 ∧
      c1.ilZones = []) ∧
    ∀ evts,
      evts = [eventType.PotentiallyStartFromBox, eventType.SelfInteractionLines] ∨
      evts = [eventType.SelfInteractionLines, eventType.PotentiallyStartFromBox] →
      ∃ c2, Creator.statementEvents scenarioArrow evts selfA selfScenarioCreator = some c2 ∧
        c2.ilZones = [] :=
  ⟨(self_registers_no_zone scenarioArrow selfScenarioCreator selfA 1 [] rfl).1,
   (self_registers_no_zone scenarioArrow selfScenarioCreator selfA 1 [] rfl).2 rfl⟩

/-- C24 (defect in the code): in Scenario 3 the loop of `self A fibble` spans
X from 520 to 620, whose midpoint is 570, and `selfInteractionLines` emits the
label `fibble` left-justified with anchor X = 500 (the centre line plus the
label indent): neither centred nor at the midpoint, which is what
`make_test.go` asserts. -/
theorem self_label_not_centred :
    ∃ c1 label, selfScenarioCreator.selfInteractionLines scenarioArrow selfA = some c1 ∧
      c1.graphicsModel.Primitives.Labels = [label] ∧
      selfScenarioCreator.lifelineGeomH.SelfInteractionLineXCoords 1 = (520, 620) ∧
      label.HJust = graphics.Justification.Left ∧
      label.HJust ≠ graphics.Justification.Centre ∧
      label.Anchor.X = 500 ∧
      label.Anchor.X ≠ (1 / 2 : ℚ) * (520 + 620) := by
  obtain ⟨c1, hc1, -, -, -, -, hlabels, -⟩ :=
    selfInteractionLines_state scenarioArrow selfScenarioCreator selfA 1 [] rfl
  refine ⟨c1,
    { TheString := "fibble", FontHeight := 10, Anchor := ⟨500, 30⟩,
      HJust := graphics.Justification.Left, VJust := graphics.Justification.Top },
    hc1, ?_, ?_, rfl, by decide, rfl, by norm_num⟩
  · rw [hlabels]
    simp [selfScenarioCreator, selfA, scenarioGeom, scenarioSizes, graphics.NewModel,
      graphics.NewPrimitives, List.enumFrom]
  · simp [selfScenarioCreator, scenarioGeom]
    norm_num

/-- The labels the creator emits for a `Self` statement, for every input: for
a statement whose first referenced lifeline is `theLifeline`, with label
segments `s_0..s_(k-1)`, processed at tide mark `T`,
`selfInteractionLines` returns and appends exactly `k` labels in order, the
`i`-th with text `s_i`, the creator's font height, horizontal justification
`Left`, vertical justification `Top`, anchor X equal to the lifeline's centre
line plus `InteractionLineLabelIndent`, and anchor Y = `T + i*fontHeight` (the
first row at the tide mark). -/
theorem self_label_left_justified_indented (makeArrow : ArrowMaker) (c : Creator)
    (statement : dsl.Statement) (theLifeline : StatementPtr) (rest : List StatementPtr)
    (hrefs : statement.ReferencedLifelines = theLifeline :: rest) :
    ∃ c1 emitted, c.selfInteractionLines makeArrow statement = some c1 ∧
      c1.graphicsModel.Primitives.Labels = c.graphicsModel.Primitives.Labels ++ emitted ∧
      emitted.length = statement.LabelSegments.length ∧
      ∀ (i : Nat) (hi : i < statement.LabelSegments.length),
        emitted[i]? = some
          { TheString := statement.LabelSegments[i],
            FontHeight := c.fontHeight,
            Anchor := ⟨c.lifelineGeomH.CentreLine theLifeline +
                         c.sizer.InteractionLineLabelIndent,
                       c.tideMark + (i : ℚ) * c.fontHeight⟩,
            HJust := graphics.Justification.Left,
            VJust := graphics.Justification.Top } := by
  obtain ⟨c1, hc1, -, -, -, -, hlabels, -⟩ :=
    selfInteractionLines_state makeArrow c statement theLifeline rest hrefs
  refine ⟨c1, _, hc1, hlabels, by simp, ?_⟩
  intro i hi
  simp [List.getElem?_enumFrom, List.getElem?_eq_getElem hi]

/-- The labels of `self A fibble` in the Scenario 3 creator. -/
theorem self_label_left_justified_indented_witness :
    ∃ c1 emitted, selfScenarioCreator.selfInteractionLines scenarioArrow selfA = some c1 ∧
      c1.graphicsModel.Primitives.Labels =
        selfScenarioCreator.graphicsModel.Primitives.Labels ++ emitted ∧
      emitted.length = selfA.LabelSegments.length ∧
      ∀ (i : Nat) (hi : i < selfA.LabelSegments.length),
        emitted[i]? = some
          { TheString := selfA.LabelSegments[i],
            FontHeight := selfScenarioCreator.fontHeight,
            Anchor := ⟨selfScenarioCreator.lifelineGeomH.CentreLine 1 +
                         selfScenarioCreator.sizer.InteractionLineLabelIndent,
                       selfScenarioCreator.tideMark +
                         (i : ℚ) * selfScenarioCreator.fontHeight⟩,
            HJust := graphics.Justification.Left,
            VJust := graphics.Justification.Top } :=
  self_label_left_justified_indented scenarioArrow selfScenarioCreator selfA 1 [] rfl

theorem finalizeActivityBox_idle (c : Creator) (lifeline : StatementPtr) (bottom : ℚ)
    (boxes : lifelineBoxes) (hget : c.activityBoxes.get lifeline = some boxes)
    (hidle : boxes.openStart = none) :
    c.finalizeActivityBox lifeline bottom = some c := by
  unfold Creator.finalizeActivityBox
  simp [hget, lifelineBoxes.inProgress, hidle]

theorem finalizeActivityBox_open (c : Creator) (lifeline : StatementPtr) (bottom y0 : ℚ)
    (boxes : lifelineBoxes) (hget : c.activityBoxes.get lifeline = some boxes)
    (hopen : boxes.openStart = some y0) :
    c.finalizeActivityBox lifeline bottom =
      some { c with
             graphicsModel :=
               { c.graphicsModel with
                 Primitives := c.graphicsModel.Primitives.AddRect
                   (c.lifelineGeomH.ActivityBoxXCoords lifeline).1 y0
                   (c.lifelineGeomH.ActivityBoxXCoords lifeline).2.2 bottom },
             tideMark := bottom,
             activityBoxes := c.activityBoxes.set lifeline
               { closed := boxes.closed ++ [⟨y0, bottom⟩], openStart := none } } := by
  unfold Creator.finalizeActivityBox
  simp [hget, lifelineBoxes.inProgress, hopen, lifelineBoxes.mostRecentStart,
    lifelineBoxes.terminateInProgressBoxAt]

theorem endBox_eq_finalizeActivityBox (c : Creator) (statement : dsl.Statement)
    (lifeline : StatementPtr) (rest : List StatementPtr)
    (hrefs : statement.ReferencedLifelines = lifeline :: rest) :
    c.endBox statement = c.finalizeActivityBox lifeline c.tideMark := by
  simp [Creator.endBox, hrefs]

/-- C25: for a `Stop` statement whose referenced lifeline has a tracker with an
OPEN interval starting at `y0`, processed at tide mark `T`, `endBox` returns,
appends exactly one rectangle, with top `y0`, bottom `T` and the lifeline's
activity-box left and right X (lines, polygons and labels are unchanged), and
leaves the tracker with that interval closed at `T` after the intervals closed
before, and with no interval in progress. -/
theorem endBox_closes_open_box (c : Creator) (statement : dsl.Statement)
    (lifeline : StatementPtr) (rest : List StatementPtr) (boxes : lifelineBoxes) (y0 : ℚ)
    (hrefs : statement.ReferencedLifelines = lifeline :: rest)
    (hget : c.activityBoxes.get lifeline = some boxes)
    (hopen : boxes.openStart = some y0) :
    ∃ c1 boxes1, c.endBox statement = some c1 ∧
      c1.graphicsModel.Primitives.Rects = c.graphicsModel.Primitives.Rects ++
        [{ Left := (c.lifelineGeomH.ActivityBoxXCoords lifeline).1, Top := y0,
           Right := (c.lifelineGeomH.ActivityBoxXCoords lifeline).2.2,
           Bottom := c.tideMark }] ∧
      c1.graphicsModel.Primitives.Lines = c.graphicsModel.Primitives.Lines ∧
      c1.graphicsModel.Primitives.FilledPolys = c.graphicsModel.Primitives.FilledPolys ∧
      c1.graphicsModel.Primitives.Labels = c.graphicsModel.Primitives.Labels ∧
      c1.activityBoxes.get lifeline = some boxes1 ∧
      boxes1 = { closed := boxes.closed ++ [⟨y0, c.tideMark⟩], openStart := none } ∧
      boxes1.inProgress = false := by
  refine ⟨_, { closed := boxes.closed ++ [⟨y0, c.tideMark⟩], openStart := none },
    (endBox_eq_finalizeActivityBox c statement lifeline rest hrefs).trans
      (finalizeActivityBox_open c lifeline c.tideMark y0 boxes hget hopen),
    rfl, rfl, rfl, rfl, ?_, rfl, rfl⟩
  simp only [ActivityBoxes.get_set, if_true, hget, Option.map_some']

/-- Witness for C25: `stop B` in Scenario 4 (tide mark 51, `B` open since
45). -/
theorem endBox_closes_open_box_witness :
    ∃ c1 boxes1, stopScenarioCreator.endBox interactions.stopB = some c1 ∧
      c1.graphicsModel.Primitives.Rects = stopScenarioCreator.graphicsModel.Primitives.Rects ++
        [{ Left := (stopScenarioCreator.lifelineGeomH.ActivityBoxXCoords 2).1, Top := 45,
           Right := (stopScenarioCreator.lifelineGeomH.ActivityBoxXCoords 2).2.2,
           Bottom := stopScenarioCreator.tideMark }] ∧
      c1.graphicsModel.Primitives.Lines = stopScenarioCreator.graphicsModel.Primitives.Lines ∧
      c1.graphicsModel.Primitives.FilledPolys =
        stopScenarioCreator.graphicsModel.Primitives.FilledPolys ∧
      c1.graphicsModel.Primitives.Labels =
        stopScenarioCreator.graphicsModel.Primitives.Labels ∧
      c1.activityBoxes.get 2 = some boxes1 ∧
      boxes1 = { closed := [] ++ [⟨45, stopScenarioCreator.tideMark⟩], openStart := none } ∧
      boxes1.inProgress = false :=
  endBox_closes_open_box stopScenarioCreator interactions.stopB 2 []
    { closed := [], openStart := some 45 } 45 rfl rfl rfl

theorem fullAB_reaches_stopScenario :
    Creator.statementEvents scenarioArrow fullEvents fullAB scenarioCreator =
      some stopScenarioCreator := by
  simp [fullEvents, Creator.statementEvents, Creator.graphicsForDrawingEvent,
    Creator.interactionLabel, Creator.interactionLine, Creator.potentiallyStartFromBox,
    Creator.potentiallyStartToBox, Creator.potentiallyStartActivityBox,
    Creator.rowOfLabels, rowOfLabelsFrom, RegisterSpaceClaim, fullAB, scenarioCreator,
    stopScenarioCreator, scenarioGeom, scenarioSizes, scenarioArrow, newlifelineBoxes,
    ActivityBoxes.get, ActivityBoxes.set, lifelineBoxes.inProgress,
    lifelineBoxes.startBoxAt, graphics.NewModel, graphics.NewPrimitives,
    graphics.Primitives.AddLine, graphics.Primitives.AddLabel,
    graphics.Primitives.AddFilledPoly]
  norm_num

theorem stopB_in_stopScenario :
    ∃ c2, Creator.statementEvents scenarioArrow stopEvents interactions.stopB
        stopScenarioCreator = some c2 ∧
      c2.graphicsModel.Primitives.Rects = [⟨980, 45, 1020, 51⟩] ∧
      c2.activityBoxes.get 2 = some { closed := [⟨45, 51⟩], openStart := none } ∧
      c2.tideMark = 51 := by
  obtain ⟨c2, hc2⟩ : ∃ c2, c2 =
      ({ stopScenarioCreator with
         graphicsModel :=
           { stopScenarioCreator.graphicsModel with
             Primitives := stopScenarioCreator.graphicsModel.Primitives.AddRect
               (stopScenarioCreator.lifelineGeomH.ActivityBoxXCoords 2).1 45
               (stopScenarioCreator.lifelineGeomH.ActivityBoxXCoords 2).2.2
               stopScenarioCreator.tideMark },
         tideMark := stopScenarioCreator.tideMark,
         activityBoxes := stopScenarioCreator.activityBoxes.set 2
           { closed := [] ++ [⟨45, stopScenarioCreator.tideMark⟩], openStart := none } } :
        Creator) := ⟨_, rfl⟩
  have hstop : stopScenarioCreator.endBox interactions.stopB = some c2 := by
    rw [hc2]
    exact (endBox_eq_finalizeActivityBox stopScenarioCreator interactions.stopB 2 [] rfl).trans
      (finalizeActivityBox_open stopScenarioCreator 2 stopScenarioCreator.tideMark 45
        { closed := [], openStart := some 45 } rfl rfl)
  refine ⟨c2, ?_, ?_, ?_, ?_⟩
  · simp only [stopEvents, Creator.statementEvents, Creator.graphicsForDrawingEvent, hstop]
  · rw [hc2]
    simp [stopScenarioCreator, scenarioGeom, graphics.Primitives.AddRect]
    norm_num
  · rw [hc2]
    simp [ActivityBoxes.get_set, stopScenarioCreator, ActivityBoxes.get]
  · rw [hc2]
    rfl

/-- C26 (defect in the code): Scenario 4. The sub-steps of `full AB fibble`
take the Scenario 1 creator to tide mark 51 with `B` open since 45; `stop B`
processed there closes the box at 51 and leaves the tide mark at 51: it is not
advanced by any positive stopped-box padding (3 in the test). -/
theorem endBox_adds_no_padding :
    Creator.statementEvents scenarioArrow fullEvents fullAB scenarioCreator =
      some stopScenarioCreator ∧
    stopScenarioCreator.tideMark = 51 ∧
    ∃ c2, Creator.statementEvents scenarioArrow stopEvents interactions.stopB
        stopScenarioCreator = some c2 ∧
      c2.activityBoxes.get 2 = some { closed := [⟨45, 51⟩], openStart := none } ∧
      c2.tideMark = 51 ∧
      c2.tideMark ≠ 51 + 3 ∧
      ∀ pad : ℚ, 0 < pad → c2.tideMark ≠ stopScenarioCreator.tideMark + pad := by
  obtain ⟨c2, hc2, -, hbox, htide⟩ := stopB_in_stopScenario
  refine ⟨fullAB_reaches_stopScenario, rfl, c2, hc2, hbox, htide, ?_, ?_⟩
  · rw [htide]
    norm_num
  · intro pad hpad
    rw [htide]
    show (51 : ℚ) ≠ 51 + pad
    intro h
    linarith

/-- C27 (counterexample): in Scenario 1 before any interaction, lifeline `B`
has a tracker with no OPEN interval; `stop B` processed there returns normally
and leaves the creator exactly as it was. -/
theorem stop_without_open_box_is_ignored :
    scenarioCreator.activityBoxes.get 2 = some newlifelineBoxes ∧
    newlifelineBoxes.inProgress = false ∧
    scenarioCreator.endBox interactions.stopB = some scenarioCreator ∧
    Creator.statementEvents scenarioArrow stopEvents interactions.stopB scenarioCreator =
      some scenarioCreator := by
  have h : scenarioCreator.endBox interactions.stopB = some scenarioCreator :=
    (endBox_eq_finalizeActivityBox scenarioCreator interactions.stopB 2 [] rfl).trans
      (finalizeActivityBox_idle scenarioCreator 2 _ newlifelineBoxes rfl rfl)
  refine ⟨rfl, rfl, h, ?_⟩
  simp only [stopEvents, Creator.statementEvents, Creator.graphicsForDrawingEvent, h]

/-- C27 (amended): a `Stop` statement that targets a lifeline whose tracker
has no OPEN interval is skipped: `endBox` returns normally and leaves the
creator state unchanged (no rectangle, same tide mark, same trackers). -/
theorem stop_without_open_box_returns_unchanged (c : Creator) (statement : dsl.Statement)
    (lifeline : StatementPtr) (rest : List StatementPtr) (boxes : lifelineBoxes)
    (hrefs : statement.ReferencedLifelines = lifeline :: rest)
    (hget : c.activityBoxes.get lifeline = some boxes)
    (hidle : boxes.inProgress = false) :
    c.endBox statement = some c := by
  have hnone : boxes.openStart = none := by
    cases hopen : boxes.openStart with
    | none => rfl
    | some y0 => simp [lifelineBoxes.inProgress, hopen] at hidle
  exact (endBox_eq_finalizeActivityBox c statement lifeline rest hrefs).trans
    (finalizeActivityBox_idle c lifeline c.tideMark boxes hget hnone)

/-- Witness for C27 (amended): `stop B` in the Scenario 1 creator. -/
theorem stop_without_open_box_returns_unchanged_witness :
    scenarioCreator.endBox interactions.stopB = some scenarioCreator :=
  stop_without_open_box_returns_unchanged scenarioCreator interactions.stopB 2 []
    newlifelineBoxes rfl rfl rfl

theorem ActivityBoxes.mem_keys_of_get (m : ActivityBoxes) (l : StatementPtr)
    (h : (ActivityBoxes.get m l).isSome) : l ∈ ActivityBoxes.keys m := by
  induction m with
  | nil => simp [ActivityBoxes.get] at h
  | cons entry rest ih =>
    obtain ⟨key, boxes⟩ := entry
    by_cases hk : key = l
    · simp [ActivityBoxes.keys, hk]
    · have h' : (ActivityBoxes.get rest l).isSome := by
        simpa [ActivityBoxes.get, hk] using h
      have := ih h'
      simp only [ActivityBoxes.keys, List.map_cons, List.mem_cons] at this ⊢
      exact Or.inr this

theorem ActivityBoxes.get_isSome_of_mem_keys (m : ActivityBoxes) (l : StatementPtr)
    (h : l ∈ ActivityBoxes.keys m) : (ActivityBoxes.get m l).isSome := by
  induction m with
  | nil => simp [ActivityBoxes.keys] at h
  | cons entry rest ih =>
    obtain ⟨key, boxes⟩ := entry
    by_cases hk : key = l
    · simp [ActivityBoxes.get, hk]
    · have h' : l ∈ ActivityBoxes.keys rest := by
        simp only [ActivityBoxes.keys, List.map_cons, List.mem_cons] at h
        rcases h with h | h
        · exact absurd h.symm hk
        · exact h
      simpa [ActivityBoxes.get, hk] using ih h'

theorem finalizeActivityBoxesLoop_spec (bottom : ℚ) (order : List StatementPtr) :
    ∀ c : Creator, order.Nodup → (∀ l ∈ order, (c.activityBoxes.get l).isSome) →
    ∃ c', Creator.finalizeActivityBoxesLoop order bottom c = some c' ∧
      (∀ l boxes y0, l ∈ order → c.activityBoxes.get l = some boxes →
        boxes.openStart = some y0 →
        c'.activityBoxes.get l =
          some { closed := boxes.closed ++ [⟨y0, bottom⟩], openStart := none }) ∧
      (∀ l boxes, c.activityBoxes.get l = some boxes → boxes.openStart = none →
        c'.activityBoxes.get l = some boxes) ∧
      (∀ l, l ∉ order → c'.activityBoxes.get l = c.activityBoxes.get l) ∧
      c'.graphicsModel.Primitives.Rects = c.graphicsModel.Primitives.Rects ++
        order.filterMap (fun l => (c.activityBoxes.get l).bind (fun b =>
          b.openStart.map (fun y0 =>
            ({ Left := (c.lifelineGeomH.ActivityBoxXCoords l).1, Top := y0,
               Right := (c.lifelineGeomH.ActivityBoxXCoords l).2.2,
               Bottom := bottom } : graphics.Rect)))) ∧
      c'.graphicsModel.Primitives.Lines = c.graphicsModel.Primitives.Lines ∧
      c'.graphicsModel.Primitives.FilledPolys = c.graphicsModel.Primitives.FilledPolys ∧
      c'.graphicsModel.Primitives.Labels = c.graphicsModel.Primitives.Labels ∧
      c'.sizer = c.sizer ∧ c'.lifelineGeomH = c.lifelineGeomH ∧ c'.ilZones = c.ilZones := by
  induction order with
  | nil =>
    intro c _ _
    exact ⟨c, rfl, fun l _ _ hl => absurd hl (List.not_mem_nil l), fun _ _ h _ => h,
      fun _ _ => rfl, by simp, rfl, rfl, rfl, rfl, rfl, rfl⟩
  | cons l rest ih =>
    intro c hnd hall
    have hl_notin : l ∉ rest := (List.nodup_cons.mp hnd).1
    have hrest_nd : rest.Nodup := (List.nodup_cons.mp hnd).2
    obtain ⟨b, hb⟩ := Option.isSome_iff_exists.mp (hall l (List.mem_cons_self l rest))
    cases hopen : b.openStart with
    | none =>
      have hstep := finalizeActivityBox_idle c l bottom b hb hopen
      obtain ⟨c', hc', h1, h2, h3, hrects, hlines, hpolys, hlabels, hsizer, hgeom, hzones⟩ :=
        ih c hrest_nd (fun k hk => hall k (List.mem_cons_of_mem l hk))
      refine ⟨c', ?_, ?_, h2, ?_, ?_, hlines, hpolys, hlabels, hsizer, hgeom, hzones⟩
      · simp only [Creator.finalizeActivityBoxesLoop, hstep, hc']
      · intro k boxes y0 hk hget hopen'
        rcases List.mem_cons.mp hk with hkl | hkrest
        · subst hkl
          rw [hb] at hget
          cases hget
          rw [hopen] at hopen'
          cases hopen'
        · exact h1 k boxes y0 hkrest hget hopen'
      · intro k hk
        exact h3 k (fun hkr => hk (List.mem_cons_of_mem l hkr))
      · rw [hrects]
        simp [List.filterMap_cons, hb, hopen]
    | some y0 =>
      have hstep := finalizeActivityBox_open c l bottom y0 b hb hopen
      obtain ⟨c1, hc1def⟩ : ∃ c1 : Creator, c1 =
          { c with
            graphicsModel :=
              { c.graphicsModel with
                Primitives := c.graphicsModel.Primitives.AddRect
                  (c.lifelineGeomH.ActivityBoxXCoords l).1 y0
                  (c.lifelineGeomH.ActivityBoxXCoords l).2.2 bottom },
            tideMark := bottom,
            activityBoxes := c.activityBoxes.set l
              { closed := b.closed ++ [⟨y0, bottom⟩], openStart := none } } := ⟨_, rfl⟩
      rw [← hc1def] at hstep
      have hget1 : ∀ k, c1.activityBoxes.get k =
          if k = l then some { closed := b.closed ++ [⟨y0, bottom⟩], openStart := none }
          else c.activityBoxes.get k := by
        intro k
        rw [hc1def]
        simp only [ActivityBoxes.get_set, hb, Option.map_some']
      have hgeom1 : c1.lifelineGeomH = c.lifelineGeomH := by rw [hc1def]
      have hrects1 : c1.graphicsModel.Primitives.Rects = c.graphicsModel.Primitives.Rects ++
          [{ Left := (c.lifelineGeomH.ActivityBoxXCoords l).1, Top := y0,
             Right := (c.lifelineGeomH.ActivityBoxXCoords l).2.2, Bottom := bottom }] := by
        rw [hc1def]
        rfl
      have hne : ∀ k, k ∈ rest → k ≠ l := fun k hk hkl => hl_notin (hkl ▸ hk)
      obtain ⟨c', hc', h1, h2, h3, hrects, hlines, hpolys, hlabels, hsizer, hgeom, hzones⟩ :=
        ih c1 hrest_nd (fun k hk => by
          rw [hget1 k, if_neg (hne k hk)]
          exact hall k (List.mem_cons_of_mem l hk))
      refine ⟨c', ?_, ?_, ?_, ?_, ?_, ?_, ?_, ?_, ?_, ?_, ?_⟩
      · simp only [Creator.finalizeActivityBoxesLoop, hstep, hc']
      · intro k boxes y1 hk hget hopen'
        rcases List.mem_cons.mp hk with hkl | hkrest
        · subst hkl
          rw [hb] at hget
          cases hget
          rw [hopen] at hopen'
          cases hopen'
          rw [h3 k hl_notin, hget1 k, if_pos rfl]
        · exact h1 k boxes y1 hkrest (by rw [hget1 k, if_neg (hne k hkrest)]; exact hget)
            hopen'
      · intro k boxes hget hidle
        have hkl : k ≠ l := by
          intro hkl
          subst hkl
          rw [hb] at hget
          cases hget
          rw [hopen] at hidle
          cases hidle
        exact h2 k boxes (by rw [hget1 k, if_neg hkl]; exact hget) hidle
      · intro k hk
        have hkl : k ≠ l := fun hkl => hk (hkl ▸ List.mem_cons_self l rest)
        rw [h3 k (fun hkr => hk (List.mem_cons_of_mem l hkr)), hget1 k, if_neg hkl]
      · rw [hrects, hrects1, List.append_assoc]
        congr 1
        have hcongr : rest.filterMap (fun k => (c1.activityBoxes.get k).bind (fun b =>
              b.openStart.map (fun y0 =>
                ({ Left := (c1.lifelineGeomH.ActivityBoxXCoords k).1, Top := y0,
                   Right := (c1.lifelineGeomH.ActivityBoxXCoords k).2.2,
                   Bottom := bottom } : graphics.Rect)))) =
            rest.filterMap (fun k => (c.activityBoxes.get k).bind (fun b =>
              b.openStart.map (fun y0 =>
                ({ Left := (c.lifelineGeomH.ActivityBoxXCoords k).1, Top := y0,
                   Right := (c.lifelineGeomH.ActivityBoxXCoords k).2.2,
                   Bottom := bottom } : graphics.Rect)))) := by
          apply List.filterMap_congr
          intro k hk
          rw [hget1 k, if_neg (hne k hk), hgeom1]
        rw [hcongr]
        simp [List.filterMap_cons, hb, hopen]
      · rw [hlines, hc1def]; rfl
      · rw [hpolys, hc1def]; rfl
      · rw [hlabels, hc1def]; rfl
      · rw [hsizer, hc1def]
      · rw [hgeom, hgeom1]
      · rw [hzones, hc1def]

/-- C28: let the pass end at tide mark `T` and let `range` visit the keys of
the `activityBoxes` map in the order `order`. Then `finalizeActivityBoxes`
returns; every lifeline whose tracker has an OPEN interval starting at `y0`
ends with that interval closed at `T + ActivityBoxVerticalOverlap`; every
lifeline with no OPEN interval keeps its tracker unchanged; the rectangles
appended are exactly one per lifeline with an OPEN interval, in visiting order,
from the interval's start to `T + ActivityBoxVerticalOverlap` at the lifeline's
activity-box X, and none for the others; afterwards no tracker has an interval
in progress. -/
theorem finalizeActivityBoxes_closes_open_boxes (c : Creator) (order : List StatementPtr)
    (hkeys : c.activityBoxes.keys.Nodup) (hperm : order.Perm c.activityBoxes.keys) :
    ∃ c', c.finalizeActivityBoxes order = some c' ∧
      (∀ l boxes y0, c.activityBoxes.get l = some boxes → boxes.openStart = some y0 →
        c'.activityBoxes.get l = some
          { closed := boxes.closed ++
              [⟨y0, c.tideMark + c.sizer.ActivityBoxVerticalOverlap⟩],
            openStart := none }) ∧
      (∀ l boxes, c.activityBoxes.get l = some boxes → boxes.openStart = none →
        c'.activityBoxes.get l = some boxes) ∧
      c'.graphicsModel.Primitives.Rects = c.graphicsModel.Primitives.Rects ++
        order.filterMap (fun l => (c.activityBoxes.get l).bind (fun b =>
          b.openStart.map (fun y0 =>
            ({ Left := (c.lifelineGeomH.ActivityBoxXCoords l).1, Top := y0,
               Right := (c.lifelineGeomH.ActivityBoxXCoords l).2.2,
               Bottom := c.tideMark + c.sizer.ActivityBoxVerticalOverlap } :
              graphics.Rect)))) ∧
      (∀ l boxes, c'.activityBoxes.get l = some boxes → boxes.inProgress = false) := by
  have hnd : order.Nodup := hperm.nodup_iff.mpr hkeys
  have hall : ∀ l ∈ order, (c.activityBoxes.get l).isSome := fun l hl =>
    ActivityBoxes.get_isSome_of_mem_keys c.activityBoxes l (hperm.mem_iff.mp hl)
  obtain ⟨c1, hc1, h1, h2, h3, hrects, -⟩ :=
    finalizeActivityBoxesLoop_spec (c.tideMark + c.sizer.ActivityBoxVerticalOverlap) order c
      hnd hall
  have hmem : ∀ l, (c.activityBoxes.get l).isSome → l ∈ order := fun l hl =>
    hperm.mem_iff.mpr (ActivityBoxes.mem_keys_of_get c.activityBoxes l hl)
  refine ⟨{ c1 with
            tideMark := c.tideMark + c.sizer.ActivityBoxVerticalOverlap +
              c1.sizer.FinalizedActivityBoxesPadB }, ?_, ?_, h2, hrects, ?_⟩
  · simp only [Creator.finalizeActivityBoxes, hc1]
  · intro l boxes y0 hget hopen
    exact h1 l boxes y0 (hmem l (by rw [hget]; rfl)) hget hopen
  · intro l boxes hget'
    show boxes.inProgress = false
    have hget1 : c1.activityBoxes.get l = some boxes := hget'
    by_cases hl : l ∈ order
    · obtain ⟨b, hb⟩ := Option.isSome_iff_exists.mp (hall l hl)
      cases hopen : b.openStart with
      | none =>
        rw [h2 l b hb hopen] at hget1
        cases hget1
        simp [lifelineBoxes.inProgress, hopen]
      | some y0 =>
        rw [h1 l b y0 hl hb hopen] at hget1
        cases hget1
        rfl
    · rw [h3 l hl] at hget1
      exact absurd (hmem l (by rw [hget1]; rfl)) hl

/-- Witness for C28: the state after `full AB fibble` in Scenario 1 (tide mark
51, overlap 5, `A` open since 40 and `B` open since 45), with the map visited
in the order `B, A`. -/
theorem finalizeActivityBoxes_closes_open_boxes_witness :
    ∃ c', stopScenarioCreator.finalizeActivityBoxes [2, 1] = some c' ∧
      c'.activityBoxes.get 1 = some { closed := [⟨40, 56⟩], openStart := none } ∧
      c'.activityBoxes.get 2 = some { closed := [⟨45, 56⟩], openStart := none } ∧
      c'.graphicsModel.Primitives.Rects = [⟨980, 45, 1020, 56⟩, ⟨480, 40, 520, 56⟩] ∧
      (∀ l boxes, c'.activityBoxes.get l = some boxes → boxes.inProgress = false) := by
  obtain ⟨c', hc', hopen, -, hrects, hdone⟩ :=
    finalizeActivityBoxes_closes_open_boxes stopScenarioCreator [2, 1]
      (by decide) (List.Perm.swap 1 2 [])
  have hbottom : stopScenarioCreator.tideMark +
      stopScenarioCreator.sizer.ActivityBoxVerticalOverlap = 56 := by
    norm_num [stopScenarioCreator, scenarioSizes]
  refine ⟨c', hc', ?_, ?_, ?_, hdone⟩
  · rw [hopen 1 { closed := [], openStart := some 40 } 40 rfl rfl, hbottom]
    rfl
  · rw [hopen 2 { closed := [], openStart := some 45 } 45 rfl rfl, hbottom]
    rfl
  · rw [hrects, hbottom]
    simp [stopScenarioCreator, scenarioGeom, ActivityBoxes.get]
    norm_num

theorem potentiallyStartActivityBox_keeps (c c1 : Creator) (lifeline : StatementPtr)
    (delta : ℚ) (h : c.potentiallyStartActivityBox lifeline delta = some c1) :
    c1.sizer = c.sizer ∧ c1.fontHeight = c.fontHeight ∧ c1.tideMark = c.tideMark ∧
      c1.graphicsModel = c.graphicsModel ∧ c1.lifelineGeomH = c.lifelineGeomH := by
  cases hget : c.activityBoxes.get lifeline with
  | none => simp [Creator.potentiallyStartActivityBox, hget] at h
  | some boxes =>
    rw [potentiallyStartActivityBox_eq c lifeline delta boxes hget] at h
    by_cases hp : boxes.inProgress = true
    · rw [if_pos hp] at h
      cases h
      exact ⟨rfl, rfl, rfl, rfl, rfl⟩
    · rw [if_neg hp] at h
      cases h
      exact ⟨rfl, rfl, rfl, rfl, rfl⟩

theorem finalizeActivityBox_keeps (c c1 : Creator) (lifeline : StatementPtr)
    (h : c.finalizeActivityBox lifeline c.tideMark = some c1) :
    c1.sizer = c.sizer ∧ c1.fontHeight = c.fontHeight ∧ c1.tideMark = c.tideMark ∧
      c1.lifelineGeomH = c.lifelineGeomH := by
  cases hget : c.activityBoxes.get lifeline with
  | none => simp [Creator.finalizeActivityBox, hget] at h
  | some boxes =>
    cases hopen : boxes.openStart with
    | none =>
      rw [finalizeActivityBox_idle c lifeline _ boxes hget hopen] at h
      cases h
      exact ⟨rfl, rfl, rfl, rfl⟩
    | some y0 =>
      rw [finalizeActivityBox_open c lifeline _ y0 boxes hget hopen] at h
      cases h
      exact ⟨rfl, rfl, rfl, rfl⟩

theorem graphicsForDrawingEvent_tideMark (makeArrow : ArrowMaker) (c c1 : Creator)
    (evt : eventType) (statement : dsl.Statement)
    (h : c.graphicsForDrawingEvent makeArrow evt statement = some c1)
    (hfont : 0 ≤ c.fontHeight) (htext : 0 ≤ c.sizer.InteractionLineTextPadB)
    (harrow : 0 ≤ c.sizer.ArrowHeight) (hline : 0 ≤ c.sizer.InteractionLinePadB)
    (hloop : 0 ≤ c.sizer.SelfLoopHeight) :
    c1.sizer = c.sizer ∧ c1.fontHeight = c.fontHeight ∧ c.tideMark ≤ c1.tideMark := by
  have hrows : (0 : ℚ) ≤ (statement.LabelSegments.length : ℚ) * c.fontHeight :=
    mul_nonneg (Nat.cast_nonneg _) hfont
  cases evt with
  | EndBox =>
    simp only [Creator.graphicsForDrawingEvent, Creator.endBox] at h
    cases hr0 : statement.ReferencedLifelines[0]? with
    | none => simp [hr0] at h
    | some l =>
      simp only [hr0] at h
      obtain ⟨hs, hf, ht, -⟩ := finalizeActivityBox_keeps c c1 l h
      exact ⟨hs, hf, le_of_eq ht.symm⟩
  | InteractionLine =>
    simp only [Creator.graphicsForDrawingEvent, Creator.interactionLine] at h
    cases hr0 : statement.ReferencedLifelines[0]? with
    | none => simp [hr0] at h
    | some src =>
      cases hr1 : statement.ReferencedLifelines[1]? with
      | none => simp [hr0, hr1] at h
      | some dst =>
        simp only [hr0, hr1, Option.some.injEq] at h
        subst h
        refine ⟨rfl, rfl, ?_⟩
        show c.tideMark ≤ c.tideMark +
          ((1 / 2 : ℚ) * c.sizer.ArrowHeight + c.sizer.InteractionLinePadB)
        linarith
  | InteractionLabel =>
    simp only [Creator.graphicsForDrawingEvent, Creator.interactionLabel] at h
    cases hr0 : statement.ReferencedLifelines[0]? with
    | none => simp [hr0] at h
    | some src =>
      cases hr1 : statement.ReferencedLifelines[1]? with
      | none => simp [hr0, hr1] at h
      | some dst =>
        simp only [hr0, hr1, Option.some.injEq] at h
        subst h
        refine ⟨rfl, rfl, ?_⟩
        show c.tideMark ≤ c.tideMark +
          ((statement.LabelSegments.length : ℚ) * c.fontHeight +
            c.sizer.InteractionLineTextPadB)
        linarith
  | SelfInteractionLines =>
    simp only [Creator.graphicsForDrawingEvent, Creator.selfInteractionLines] at h
    cases hr0 : statement.ReferencedLifelines[0]? with
    | none => simp [hr0] at h
    | some l =>
      simp only [hr0, Option.some.injEq] at h
      subst h
      refine ⟨rfl, rfl, ?_⟩
      show c.tideMark ≤ c.tideMark + (statement.LabelSegments.length : ℚ) * c.fontHeight +
        c.sizer.InteractionLineTextPadB + c.sizer.SelfLoopHeight +
        c.sizer.InteractionLinePadB
      linarith
  | PotentiallyStartFromBox =>
    simp only [Creator.graphicsForDrawingEvent, Creator.potentiallyStartFromBox] at h
    cases hr0 : statement.ReferencedLifelines[0]? with
    | none => simp [hr0] at h
    | some l =>
      simp only [hr0] at h
      obtain ⟨hs, hf, ht, -⟩ := potentiallyStartActivityBox_keeps c c1 l _ h
      exact ⟨hs, hf, le_of_eq ht.symm⟩
  | PotentiallyStartToBox =>
    simp only [Creator.graphicsForDrawingEvent, Creator.potentiallyStartToBox] at h
    cases hr1 : statement.ReferencedLifelines[1]? with
    | none => simp [hr1] at h
    | some l =>
      simp only [hr1] at h
      obtain ⟨hs, hf, ht, -⟩ := potentiallyStartActivityBox_keeps c c1 l _ h
      exact ⟨hs, hf, le_of_eq ht.symm⟩

theorem statementEvents_tideMark (makeArrow : ArrowMaker) (statement : dsl.Statement)
    (evts : List eventType) :
    ∀ c c1 : Creator, Creator.statementEvents makeArrow evts statement c = some c1 →
      0 ≤ c.fontHeight → 0 ≤ c.sizer.InteractionLineTextPadB → 0 ≤ c.sizer.ArrowHeight →
      0 ≤ c.sizer.InteractionLinePadB → 0 ≤ c.sizer.SelfLoopHeight →
      c1.sizer = c.sizer ∧ c1.fontHeight = c.fontHeight ∧ c.tideMark ≤ c1.tideMark := by
  induction evts with
  | nil =>
    intro c c1 h _ _ _ _ _
    simp only [Creator.statementEvents, Option.some.injEq] at h
    subst h
    exact ⟨rfl, rfl, le_refl _⟩
  | cons evt rest ih =>
    intro c c1 h hfont htext harrow hline hloop
    simp only [Creator.statementEvents] at h
    cases hstep : c.graphicsForDrawingEvent makeArrow evt statement with
    | none => simp [hstep] at h
    | some cA =>
      simp only [hstep] at h
      obtain ⟨hsA, hfA, htA⟩ := graphicsForDrawingEvent_tideMark makeArrow c cA evt statement
        hstep hfont htext harrow hline hloop
      obtain ⟨hs1, hf1, ht1⟩ := ih cA c1 h (by rw [hfA]; exact hfont)
        (by rw [hsA]; exact htext) (by rw [hsA]; exact harrow) (by rw [hsA]; exact hline)
        (by rw [hsA]; exact hloop)
      exact ⟨hs1.trans hsA, hf1.trans hfA, le_trans htA ht1⟩

theorem processDSLWorkingDownThePage_tideMark (makeArrow : ArrowMaker)
    (graphicalEvents : dsl.Statement → List eventType) (statements : List dsl.Statement) :
    ∀ c c1 : Creator,
      Creator.processDSLWorkingDownThePage makeArrow graphicalEvents statements c = some c1 →
      0 ≤ c.fontHeight → 0 ≤ c.sizer.InteractionLineTextPadB → 0 ≤ c.sizer.ArrowHeight →
      0 ≤ c.sizer.InteractionLinePadB → 0 ≤ c.sizer.SelfLoopHeight →
      c1.sizer = c.sizer ∧ c1.fontHeight = c.fontHeight ∧ c.tideMark ≤ c1.tideMark := by
  induction statements with
  | nil =>
    intro c c1 h _ _ _ _ _
    simp only [Creator.processDSLWorkingDownThePage, Option.some.injEq] at h
    subst h
    exact ⟨rfl, rfl, le_refl _⟩
  | cons statement rest ih =>
    intro c c1 h hfont htext harrow hline hloop
    simp only [Creator.processDSLWorkingDownThePage] at h
    cases hstep : Creator.statementEvents makeArrow (graphicalEvents statement) statement c with
    | none => simp [hstep] at h
    | some cA =>
      simp only [hstep] at h
      obtain ⟨hsA, hfA, htA⟩ := statementEvents_tideMark makeArrow statement
        (graphicalEvents statement) c cA hstep hfont htext harrow hline hloop
      obtain ⟨hs1, hf1, ht1⟩ := ih cA c1 h (by rw [hfA]; exact hfont)
        (by rw [hsA]; exact htext) (by rw [hsA]; exact harrow) (by rw [hsA]; exact hline)
        (by rw [hsA]; exact hloop)
      exact ⟨hs1.trans hsA, hf1.trans hfA, le_trans htA ht1⟩

/-- C29: given a non-negative font height and non-negative text padding, arrow
height, line padding and self-loop height, every sub-step dispatched by
`graphicsForDrawingEvent` that returns leaves the tide mark greater than or
equal to its value on entry, and so does the whole pass
`processDSLWorkingDownThePage`, for every statement sequence and every
assignment of sub-steps to statements. -/
theorem tideMark_never_decreases (makeArrow : ArrowMaker)
    (graphicalEvents : dsl.Statement → List eventType) (statements : List dsl.Statement)
    (c : Creator)
    (hfont : 0 ≤ c.fontHeight) (htext : 0 ≤ c.sizer.InteractionLineTextPadB)
    (harrow : 0 ≤ c.sizer.ArrowHeight) (hline : 0 ≤ c.sizer.InteractionLinePadB)
    (hloop : 0 ≤ c.sizer.SelfLoopHeight) :
    (∀ (evt : eventType) (statement : dsl.Statement) (c1 : Creator),
      c.graphicsForDrawingEvent makeArrow evt statement = some c1 →
        c.tideMark ≤ c1.tideMark) ∧
    (∀ c1 : Creator,
      Creator.processDSLWorkingDownThePage makeArrow graphicalEvents statements c = some c1 →
        c.tideMark ≤ c1.tideMark) :=
  ⟨fun evt statement c1 h =>
      (graphicsForDrawingEvent_tideMark makeArrow c c1 evt statement h hfont htext harrow
        hline hloop).2.2,
   fun c1 h =>
      (processDSLWorkingDownThePage_tideMark makeArrow graphicalEvents statements c c1 h
        hfont htext harrow hline hloop).2.2⟩

/-- Witness for C29: the pass over `full AB fibble` then `stop B` from the
Scenario 1 creator returns, and its tide mark is at least the initial 30. -/
theorem tideMark_never_decreases_witness :
    ∃ c1, Creator.processDSLWorkingDownThePage scenarioArrow
        (fun s => if s.Keyword = umli.Keyword.Full then fullEvents else stopEvents)
        [fullAB, interactions.stopB] scenarioCreator = some c1 ∧
      scenarioCreator.tideMark ≤ c1.tideMark := by
  obtain ⟨c2, hc2, -⟩ := stopB_in_stopScenario
  have hrun : Creator.processDSLWorkingDownThePage scenarioArrow
      (fun s => if s.Keyword = umli.Keyword.Full then fullEvents else stopEvents)
      [fullAB, interactions.stopB] scenarioCreator = some c2 := by
    have h1 : (if fullAB.Keyword = umli.Keyword.Full then fullEvents else stopEvents) =
        fullEvents := rfl
    have h2 : (if interactions.stopB.Keyword = umli.Keyword.Full then fullEvents
        else stopEvents) = stopEvents := rfl
    simp only [Creator.processDSLWorkingDownThePage, h1, h2, fullAB_reaches_stopScenario, hc2]
  exact ⟨c2, hrun,
    (tideMark_never_decreases scenarioArrow
      (fun s => if s.Keyword = umli.Keyword.Full then fullEvents else stopEvents)
      [fullAB, interactions.stopB] scenarioCreator
      (by norm_num [scenarioCreator]) (by norm_num [scenarioCreator, scenarioSizes])
      (by norm_num [scenarioCreator, scenarioSizes])
      (by norm_num [scenarioCreator, scenarioSizes])
      (by norm_num [scenarioCreator, scenarioSizes])).2 c2 hrun⟩

theorem rowOfLabels_rows_below (fontHeight x firstRowY : ℚ) (hj : graphics.Justification)
    (segs : List String) (k : Nat) (hfont : 0 ≤ fontHeight) :
    ∀ label ∈ (segs.enumFrom k).map (fun q =>
        ({ TheString := q.2, FontHeight := fontHeight,
           Anchor := ⟨x, firstRowY + (q.1 : ℚ) * fontHeight⟩,
           HJust := hj, VJust := graphics.Justification.Top } : graphics.Label)),
      firstRowY ≤ label.Anchor.Y := by
  intro label hlabel
  obtain ⟨q, -, rfl⟩ := List.mem_map.mp hlabel
  show firstRowY ≤ firstRowY + (q.1 : ℚ) * fontHeight
  have : (0 : ℚ) ≤ (q.1 : ℚ) * fontHeight := mul_nonneg (Nat.cast_nonneg _) hfont
  linarith

/-- C30 (counterexample): Scenario 4. After `full AB fibble` the tide mark is
51 and `B` is open since 45; `stop B` processed there (the tide mark is 51
before and after it) emits the rectangle of `B` with top Y = 45, which is
smaller than the tide mark at emission minus the overlap, `51 - 5 = 46`. -/
theorem stop_rectangle_top_above_overlap_bound :
    Creator.statementEvents scenarioArrow fullEvents fullAB scenarioCreator =
      some stopScenarioCreator ∧
    stopScenarioCreator.tideMark = 51 ∧
    ∃ c2 rect, Creator.statementEvents scenarioArrow stopEvents interactions.stopB
        stopScenarioCreator = some c2 ∧
      c2.tideMark = 51 ∧
      c2.graphicsModel.Primitives.Rects =
        stopScenarioCreator.graphicsModel.Primitives.Rects ++ [rect] ∧
      rect.Top = 45 ∧
      rect.Top < 51 - stopScenarioCreator.sizer.ActivityBoxVerticalOverlap := by
  obtain ⟨c2, hc2, hrects, -, htide⟩ := stopB_in_stopScenario
  refine ⟨fullAB_reaches_stopScenario, rfl, c2, ⟨980, 45, 1020, 51⟩, hc2, htide, ?_, rfl, ?_⟩
  · rw [hrects]
    rfl
  · norm_num [stopScenarioCreator, scenarioSizes]

/-- C30 (amended): given a non-negative font height, self-loop height and
overlap, in every sub-step of the pass that returns, every label and
every line it emits has a Y coordinate not smaller than the tide mark at the
moment it is added minus `ActivityBoxVerticalOverlap`: labels and the
interaction line are added at the entry tide mark `T`, the three self-loop
lines at `T + rows*fontHeight + InteractionLineTextPadB`. The same bound holds
for the vertices of the arrow polygon when the arrow maker keeps them within
half the arrow height above the line and half the arrow height does not exceed
the overlap. The start-box sub-steps emit nothing. The rectangle `endBox` emits
has its bottom at the entry tide mark and its top at the recorded start of the
OPEN interval, for which no such bound holds. -/
theorem emitted_labels_and_lines_not_above_overlap (makeArrow : ArrowMaker) (c : Creator)
    (statement : dsl.Statement)
    (hfont : 0 ≤ c.fontHeight) (hloop : 0 ≤ c.sizer.SelfLoopHeight)
    (hoverlap : 0 ≤ c.sizer.ActivityBoxVerticalOverlap) :
    (∀ c1, c.interactionLabel statement = some c1 →
      ∃ newLabels,
        c1.graphicsModel.Primitives.Labels = c.graphicsModel.Primitives.Labels ++ newLabels ∧
        c1.graphicsModel.Primitives.Lines = c.graphicsModel.Primitives.Lines ∧
        c1.graphicsModel.Primitives.FilledPolys = c.graphicsModel.Primitives.FilledPolys ∧
        c1.graphicsModel.Primitives.Rects = c.graphicsModel.Primitives.Rects ∧
        ∀ label ∈ newLabels,
          c.tideMark - c.sizer.ActivityBoxVerticalOverlap ≤ label.Anchor.Y) ∧
    (∀ c1, c.interactionLine makeArrow statement = some c1 →
      ∃ line poly,
        c1.graphicsModel.Primitives.Lines = c.graphicsModel.Primitives.Lines ++ [line] ∧
        c1.graphicsModel.Primitives.FilledPolys =
          c.graphicsModel.Primitives.FilledPolys ++ [poly] ∧
        c1.graphicsModel.Primitives.Labels = c.graphicsModel.Primitives.Labels ∧
        c1.graphicsModel.Primitives.Rects = c.graphicsModel.Primitives.Rects ∧
        c.tideMark - c.sizer.ActivityBoxVerticalOverlap ≤ line.P1.Y ∧
        c.tideMark - c.sizer.ActivityBoxVerticalOverlap ≤ line.P2.Y ∧
        ((∀ x1 x2 y, ∀ v ∈ makeArrow x1 x2 y c.sizer.ArrowLen c.sizer.ArrowHeight,
            y - c.sizer.ArrowHeight / 2 ≤ v.Y) →
          c.sizer.ArrowHeight / 2 ≤ c.sizer.ActivityBoxVerticalOverlap →
          ∀ v ∈ poly.Vertices, c.tideMark - c.sizer.ActivityBoxVerticalOverlap ≤ v.Y)) ∧
    (∀ c1, c.selfInteractionLines makeArrow statement = some c1 →
      ∃ newLabels newLines poly,
        c1.graphicsModel.Primitives.Labels = c.graphicsModel.Primitives.Labels ++ newLabels ∧
        c1.graphicsModel.Primitives.Lines = c.graphicsModel.Primitives.Lines ++ newLines ∧
        c1.graphicsModel.Primitives.FilledPolys =
          c.graphicsModel.Primitives.FilledPolys ++ [poly] ∧
        c1.graphicsModel.Primitives.Rects = c.graphicsModel.Primitives.Rects ∧
        (∀ label ∈ newLabels,
          c.tideMark - c.sizer.ActivityBoxVerticalOverlap ≤ label.Anchor.Y) ∧
        (∀ line ∈ newLines,
          c.tideMark + (statement.LabelSegments.length : ℚ) * c.fontHeight +
              c.sizer.InteractionLineTextPadB - c.sizer.ActivityBoxVerticalOverlap ≤ line.P1.Y ∧
          c.tideMark + (statement.LabelSegments.length : ℚ) * c.fontHeight +
              c.sizer.InteractionLineTextPadB - c.sizer.ActivityBoxVerticalOverlap ≤
            line.P2.Y) ∧
        ((∀ x1 x2 y, ∀ v ∈ makeArrow x1 x2 y c.sizer.ArrowLen c.sizer.ArrowHeight,
            y - c.sizer.ArrowHeight / 2 ≤ v.Y) →
          c.sizer.ArrowHeight / 2 ≤ c.sizer.ActivityBoxVerticalOverlap →
          ∀ v ∈ poly.Vertices,
            c.tideMark + (statement.LabelSegments.length : ℚ) * c.fontHeight +
              c.sizer.InteractionLineTextPadB - c.sizer.ActivityBoxVerticalOverlap ≤ v.Y)) ∧
    (∀ c1, c.potentiallyStartFromBox statement = some c1 →
      c1.graphicsModel = c.graphicsModel) ∧
    (∀ c1, c.potentiallyStartToBox statement = some c1 →
      c1.graphicsModel = c.graphicsModel) ∧
    (∀ c1, c.endBox statement = some c1 →
      c1.graphicsModel.Primitives.Labels = c.graphicsModel.Primitives.Labels ∧
      c1.graphicsModel.Primitives.Lines = c.graphicsModel.Primitives.Lines ∧
      c1.graphicsModel.Primitives.FilledPolys = c.graphicsModel.Primitives.FilledPolys ∧
      (c1.graphicsModel.Primitives.Rects = c.graphicsModel.Primitives.Rects ∨
        ∃ rect lifeline boxes,
          c1.graphicsModel.Primitives.Rects = c.graphicsModel.Primitives.Rects ++ [rect] ∧
          rect.Bottom = c.tideMark ∧
          c.activityBoxes.get lifeline = some boxes ∧
          boxes.openStart = some rect.Top)) := by
  have hrows : (0 : ℚ) ≤ (statement.LabelSegments.length : ℚ) * c.fontHeight :=
    mul_nonneg (Nat.cast_nonneg _) hfont
  refine ⟨?_, ?_, ?_, ?_, ?_, ?_⟩
  · intro c1 h
    simp only [Creator.interactionLabel] at h
    cases hr0 : statement.ReferencedLifelines[0]? with
    | none => simp [hr0] at h
    | some src =>
      cases hr1 : statement.ReferencedLifelines[1]? with
      | none => simp [hr0, hr1] at h
      | some dst =>
        simp only [hr0, hr1, Option.some.injEq] at h
        subst h
        have hothers := rowOfLabelsFrom_others c.fontHeight
          (c.lifelineGeomH.InteractionLabelPosition src dst).1 c.tideMark
          (c.lifelineGeomH.InteractionLabelPosition src dst).2 statement.LabelSegments 0
          c.graphicsModel.Primitives
        refine ⟨_, rowOfLabelsFrom_Labels c.fontHeight
          (c.lifelineGeomH.InteractionLabelPosition src dst).1 c.tideMark
          (c.lifelineGeomH.InteractionLabelPosition src dst).2 statement.LabelSegments 0
          c.graphicsModel.Primitives, hothers.1, hothers.2.2, hothers.2.1, ?_⟩
        intro label hlabel
        have := rowOfLabels_rows_below c.fontHeight _ c.tideMark _ statement.LabelSegments 0
          hfont label hlabel
        linarith
  · intro c1 h
    simp only [Creator.interactionLine] at h
    cases hr0 : statement.ReferencedLifelines[0]? with
    | none => simp [hr0] at h
    | some src =>
      cases hr1 : statement.ReferencedLifelines[1]? with
      | none => simp [hr0, hr1] at h
      | some dst =>
        simp only [hr0, hr1, Option.some.injEq] at h
        subst h
        refine ⟨{ P1 := ⟨(c.lifelineGeomH.InteractionLineEndPoints src dst).1, c.tideMark⟩,
                  P2 := ⟨(c.lifelineGeomH.InteractionLineEndPoints src dst).2, c.tideMark⟩,
                  Dashed := decide (statement.Keyword = umli.Keyword.Dash) },
          { Vertices := makeArrow (c.lifelineGeomH.InteractionLineEndPoints src dst).1
              (c.lifelineGeomH.InteractionLineEndPoints src dst).2 c.tideMark
              c.sizer.ArrowLen c.sizer.ArrowHeight },
          rfl, rfl, rfl, rfl, ?_, ?_, ?_⟩
        · show c.tideMark - c.sizer.ActivityBoxVerticalOverlap ≤ c.tideMark
          linarith
        · show c.tideMark - c.sizer.ActivityBoxVerticalOverlap ≤ c.tideMark
          linarith
        · intro hshape hhalf v hv
          have := hshape _ _ _ v hv
          linarith
  · intro c1 h
    cases hrefs : statement.ReferencedLifelines with
    | nil => simp [Creator.selfInteractionLines, hrefs] at h
    | cons l rest =>
      obtain ⟨c1', hc1', -, hlines, hpolys, hrects, hlabels, -⟩ :=
        selfInteractionLines_state makeArrow c statement l rest hrefs
      rw [hc1'] at h
      cases h
      refine ⟨_, _, _, hlabels, hlines, hpolys, hrects, ?_, ?_, ?_⟩
      · intro label hlabel
        have := rowOfLabels_rows_below c.fontHeight _ c.tideMark _ statement.LabelSegments 0
          hfont label hlabel
        linarith
      · intro line hline
        simp only [List.mem_cons, List.mem_singleton, List.not_mem_nil, or_false] at hline
        rcases hline with rfl | rfl | rfl <;> constructor <;> simp only <;> linarith
      · intro hshape hhalf v hv
        have := hshape _ _ _ v hv
        linarith
  · intro c1 h
    simp only [Creator.potentiallyStartFromBox] at h
    cases hr0 : statement.ReferencedLifelines[0]? with
    | none => simp [hr0] at h
    | some l =>
      simp only [hr0] at h
      exact (potentiallyStartActivityBox_keeps c c1 l _ h).2.2.2.1
  · intro c1 h
    simp only [Creator.potentiallyStartToBox] at h
    cases hr1 : statement.ReferencedLifelines[1]? with
    | none => simp [hr1] at h
    | some l =>
      simp only [hr1] at h
      exact (potentiallyStartActivityBox_keeps c c1 l _ h).2.2.2.1
  · intro c1 h
    simp only [Creator.endBox] at h
    cases hr0 : statement.ReferencedLifelines[0]? with
    | none => simp [hr0] at h
    | some l =>
      simp only [hr0] at h
      cases hget : c.activityBoxes.get l with
      | none => simp [Creator.finalizeActivityBox, hget] at h
      | some boxes =>
        cases hopen : boxes.openStart with
        | none =>
          rw [finalizeActivityBox_idle c l _ boxes hget hopen] at h
          cases h
          exact ⟨rfl, rfl, rfl, Or.inl rfl⟩
        | some y0 =>
          rw [finalizeActivityBox_open c l _ y0 boxes hget hopen] at h
          cases h
          exact ⟨rfl, rfl, rfl, Or.inr ⟨⟨(c.lifelineGeomH.ActivityBoxXCoords l).1, y0,
            (c.lifelineGeomH.ActivityBoxXCoords l).2.2, c.tideMark⟩, l, boxes, rfl, rfl, hget,
            hopen⟩⟩

/-- Witness for C30 (amended): `full AB fibble` and `stop B` in the Scenario 1
and Scenario 4 creators: the label is at Y = 30 at tide mark 30, the line and
the arrow are at Y >= 43 at tide mark 45, and the rectangle of `B` has its
bottom at the tide mark 51. -/
theorem emitted_labels_and_lines_not_above_overlap_witness :
    (∃ c1 newLabels, scenarioCreator.interactionLabel fullAB = some c1 ∧
      c1.graphicsModel.Primitives.Labels =
        scenarioCreator.graphicsModel.Primitives.Labels ++ newLabels ∧
      ∀ label ∈ newLabels,
        scenarioCreator.tideMark - scenarioCreator.sizer.ActivityBoxVerticalOverlap ≤
          label.Anchor.Y) ∧
    (∃ c1 line poly,
      ({ scenarioCreator with tideMark := 45 } : Creator).interactionLine scenarioArrow fullAB =
        some c1 ∧
      c1.graphicsModel.Primitives.Lines =
        scenarioCreator.graphicsModel.Primitives.Lines ++ [line] ∧
      c1.graphicsModel.Primitives.FilledPolys =
        scenarioCreator.graphicsModel.Primitives.FilledPolys ++ [poly] ∧
      45 - scenarioCreator.sizer.ActivityBoxVerticalOverlap ≤ line.P1.Y ∧
      45 - scenarioCreator.sizer.ActivityBoxVerticalOverlap ≤ line.P2.Y ∧
      ∀ v ∈ poly.Vertices, 45 - scenarioCreator.sizer.ActivityBoxVerticalOverlap ≤ v.Y) ∧
    (∃ c1 rect lifeline boxes, stopScenarioCreator.endBox interactions.stopB = some c1 ∧
      c1.graphicsModel.Primitives.Rects =
        stopScenarioCreator.graphicsModel.Primitives.Rects ++ [rect] ∧
      rect.Bottom = stopScenarioCreator.tideMark ∧
      stopScenarioCreator.activityBoxes.get lifeline = some boxes ∧
      boxes.openStart = some rect.Top) := by
  have hlabel := (emitted_labels_and_lines_not_above_overlap scenarioArrow scenarioCreator
    fullAB (by norm_num [scenarioCreator]) (by norm_num [scenarioCreator, scenarioSizes])
    (by norm_num [scenarioCreator, scenarioSizes])).1
  have hline := (emitted_labels_and_lines_not_above_overlap scenarioArrow
    ({ scenarioCreator with tideMark := 45 } : Creator)
    fullAB (by norm_num [scenarioCreator]) (by norm_num [scenarioCreator, scenarioSizes])
    (by norm_num [scenarioCreator, scenarioSizes])).2.1
  have hstop := (emitted_labels_and_lines_not_above_overlap scenarioArrow stopScenarioCreator
    interactions.stopB (by norm_num [stopScenarioCreator])
    (by norm_num [stopScenarioCreator, scenarioSizes])
    (by norm_num [stopScenarioCreator, scenarioSizes])).2.2.2.2.2
  refine ⟨?_, ?_, ?_⟩
  · obtain ⟨c1, hc1, -⟩ := interactionLabel_state scenarioCreator fullAB 1 2 rfl
    obtain ⟨newLabels, h1, -, -, -, h2⟩ := hlabel c1 hc1
    exact ⟨c1, newLabels, hc1, h1, h2⟩
  · obtain ⟨c1, hc1, -⟩ := interactionLine_state scenarioArrow
      ({ scenarioCreator with tideMark := 45 } : Creator) fullAB 1 2 rfl
    obtain ⟨line, poly, h1, h2, -, -, h3, h4, h5⟩ := hline c1 hc1
    refine ⟨c1, line, poly, hc1, h1, h2, h3, h4, h5 ?_ ?_⟩
    · intro x1 x2 y v hv
      simp only [scenarioArrow, scenarioCreator, scenarioSizes, List.mem_cons,
        List.mem_singleton, List.not_mem_nil, or_false] at hv
      rcases hv with rfl | rfl | rfl <;>
        (norm_num [scenarioCreator, scenarioSizes] <;> linarith)
    · norm_num [scenarioCreator, scenarioSizes]
  · obtain ⟨c1, -, hc1, -⟩ := endBox_closes_open_box stopScenarioCreator interactions.stopB 2 []
      { closed := [], openStart := some 45 } 45 rfl rfl rfl
    rcases (hstop c1 hc1).2.2.2 with hsame | ⟨rect, lifeline, boxes, h1, h2, h3, h4⟩
    · exfalso
      obtain ⟨c1', boxes1, hc1', hrects, -⟩ := endBox_closes_open_box stopScenarioCreator
        interactions.stopB 2 [] { closed := [], openStart := some 45 } 45 rfl rfl rfl
      rw [hc1] at hc1'
      cases hc1'
      rw [hsame] at hrects
      simp at hrects
    · exact ⟨c1, rect, lifeline, boxes, hc1, h1, h2, h3, h4⟩

/-- C31 (counterexample): font height 10 (positive) and a sizer whose values
are all non-negative, with text padding, arrow height and line padding equal to
zero. For `full AB` with an empty label-segment list processed at tide mark 30,
`interactionLabel` registers the zone `[30, 30]` and `interactionLine` registers
the zone `[30, 30]`: in both `yStart = yEnd`. -/
theorem zone_not_strict_with_zero_padding :
    0 < zeroPaddingCreator.fontHeight ∧
    (∀ v ∈ [zeroPaddingCreator.sizer.DiagPadL, zeroPaddingCreator.sizer.FrameTitleTextPadT,
        zeroPaddingCreator.sizer.FrameTitleTextPadB, zeroPaddingCreator.sizer.FrameTitleTextPadL,
        zeroPaddingCreator.sizer.FrameTitleBoxWidth, zeroPaddingCreator.sizer.FrameTitleRectPadB,
        zeroPaddingCreator.sizer.DiagramPadT, zeroPaddingCreator.sizer.DiagramPadB,
        zeroPaddingCreator.sizer.InteractionLinePadB,
        zeroPaddingCreator.sizer.InteractionLineTextPadB,
        zeroPaddingCreator.sizer.InteractionLineLabelIndent, zeroPaddingCreator.sizer.ArrowLen,
        zeroPaddingCreator.sizer.ArrowHeight, zeroPaddingCreator.sizer.DashLineDashLen,
        zeroPaddingCreator.sizer.DashLineDashGap, zeroPaddingCreator.sizer.SelfLoopHeight,
        zeroPaddingCreator.sizer.ActivityBoxVerticalOverlap,
        zeroPaddingCreator.sizer.FinalizedActivityBoxesPadB,
        zeroPaddingCreator.sizer.MinLifelineSegLength], (0 : ℚ) ≤ v) ∧
    (∃ c1 zone, zeroPaddingCreator.interactionLabel fullABNoLabel = some c1 ∧
      c1.ilZones = [zone] ∧ zone.segment = ⟨30, 30⟩ ∧
      ¬ zone.segment.start < zone.segment.stop) ∧
    (∃ c1 zone, zeroPaddingCreator.interactionLine scenarioArrow fullABNoLabel = some c1 ∧
      c1.ilZones = [zone] ∧ zone.segment = ⟨30, 30⟩ ∧
      ¬ zone.segment.start < zone.segment.stop) := by
  refine ⟨by norm_num [zeroPaddingCreator, scenarioCreator], ?_, ?_, ?_⟩
  · intro v hv
    simp only [zeroPaddingCreator, scenarioCreator, scenarioSizes, sizers.zeroSizer,
      List.mem_cons, List.mem_singleton, List.not_mem_nil, or_false] at hv
    rcases hv with h | h | h | h | h | h | h | h | h | h | h | h | h | h | h | h | h | h | h <;>
      rw [h] <;> norm_num
  · obtain ⟨c1, hc1, -, hzones, -⟩ :=
      interactionLabel_state zeroPaddingCreator fullABNoLabel 1 2 rfl
    refine ⟨c1, ⟨⟨30, 30⟩, 1, 2⟩, hc1, ?_, rfl, lt_irrefl _⟩
    rw [hzones]
    simp [zeroPaddingCreator, scenarioCreator, scenarioSizes, fullABNoLabel]
  · obtain ⟨c1, hc1, -, hzones, -⟩ :=
      interactionLine_state scenarioArrow zeroPaddingCreator fullABNoLabel 1 2 rfl
    refine ⟨c1, ⟨⟨30, 30⟩, 1, 2⟩, hc1, ?_, rfl, lt_irrefl _⟩
    rw [hzones]
    simp [zeroPaddingCreator, scenarioCreator, scenarioSizes]

/-- C31 (amended): given a non-negative font height and arrow height and
strictly positive `InteractionLineTextPadB` and `InteractionLinePadB`, for
every statement with two referenced lifelines (a `Full` or `Dash` statement,
including one with an empty label-segment list) `interactionLabel` and
`interactionLine` each return and register exactly one zone, whose `yStart` is
strictly less than its `yEnd`. -/
theorem zone_strict_with_positive_padding (makeArrow : ArrowMaker) (c : Creator)
    (statement : dsl.Statement) (src dst : StatementPtr)
    (hrefs : statement.ReferencedLifelines = [src, dst])
    (hfont : 0 ≤ c.fontHeight) (htext : 0 < c.sizer.InteractionLineTextPadB)
    (harrow : 0 ≤ c.sizer.ArrowHeight) (hline : 0 < c.sizer.InteractionLinePadB) :
    (∃ c1 zone, c.interactionLabel statement = some c1 ∧
      c1.ilZones = c.ilZones ++ [zone] ∧ zone.segment.start < zone.segment.stop) ∧
    (∃ c1 zone, c.interactionLine makeArrow statement = some c1 ∧
      c1.ilZones = c.ilZones ++ [zone] ∧ zone.segment.start < zone.segment.stop) := by
  have hrows : (0 : ℚ) ≤ (statement.LabelSegments.length : ℚ) * c.fontHeight :=
    mul_nonneg (Nat.cast_nonneg _) hfont
  constructor
  · obtain ⟨c1, hc1, -, hzones, -⟩ := interactionLabel_state c statement src dst hrefs
    refine ⟨c1, _, hc1, hzones, ?_⟩
    show c.tideMark < c.tideMark + ((statement.LabelSegments.length : ℚ) * c.fontHeight +
      c.sizer.InteractionLineTextPadB)
    linarith
  · obtain ⟨c1, hc1, -, hzones, -⟩ := interactionLine_state makeArrow c statement src dst hrefs
    refine ⟨c1, _, hc1, hzones, ?_⟩
    show c.tideMark < c.tideMark +
      ((1 / 2 : ℚ) * c.sizer.ArrowHeight + c.sizer.InteractionLinePadB)
    linarith

/-- Witness for C31 (amended): `full AB` with no label segment in the
Scenario 1 creator (text padding 5, arrow height 4, line padding 4). -/
theorem zone_strict_with_positive_padding_witness :
    (∃ c1 zone, scenarioCreator.interactionLabel fullABNoLabel = some c1 ∧
      c1.ilZones = scenarioCreator.ilZones ++ [zone] ∧
      zone.segment.start < zone.segment.stop) ∧
    (∃ c1 zone, scenarioCreator.interactionLine scenarioArrow fullABNoLabel = some c1 ∧
      c1.ilZones = scenarioCreator.ilZones ++ [zone] ∧
      zone.segment.start < zone.segment.stop) :=
  zone_strict_with_positive_padding scenarioArrow scenarioCreator fullABNoLabel 1 2 rfl
    (by norm_num [scenarioCreator]) (by norm_num [scenarioCreator, scenarioSizes])
    (by norm_num [scenarioCreator, scenarioSizes])
    (by norm_num [scenarioCreator, scenarioSizes])

/-- C38: let the keys of the `activityBoxes` map be visited in the order
`order1` or in the order `order2`. Both runs of `finalizeActivityBoxes` return;
the final tide mark is the same, namely `T + ActivityBoxVerticalOverlap +
FinalizedActivityBoxesPadB` for entry tide mark `T` (whether or not any box was
open); every lifeline's tracker ends in the same state; the rectangles emitted
are the same up to their order in the list; lines, polygons and labels are the
same. -/
theorem finalizeActivityBoxes_order_independent (c : Creator)
    (order1 order2 : List StatementPtr)
    (hkeys : c.activityBoxes.keys.Nodup)
    (hperm1 : order1.Perm c.activityBoxes.keys) (hperm2 : order2.Perm c.activityBoxes.keys) :
    ∃ c1 c2, c.finalizeActivityBoxes order1 = some c1 ∧
      c.finalizeActivityBoxes order2 = some c2 ∧
      c1.tideMark = c.tideMark + c.sizer.ActivityBoxVerticalOverlap +
        c.sizer.FinalizedActivityBoxesPadB ∧
      c2.tideMark = c.tideMark + c.sizer.ActivityBoxVerticalOverlap +
        c.sizer.FinalizedActivityBoxesPadB ∧
      (∀ l, c1.activityBoxes.get l = c2.activityBoxes.get l) ∧
      c1.graphicsModel.Primitives.Rects.Perm c2.graphicsModel.Primitives.Rects ∧
      c1.graphicsModel.Primitives.Lines = c2.graphicsModel.Primitives.Lines ∧
      c1.graphicsModel.Primitives.FilledPolys = c2.graphicsModel.Primitives.FilledPolys ∧
      c1.graphicsModel.Primitives.Labels = c2.graphicsModel.Primitives.Labels := by
  have hrun : ∀ order : List StatementPtr, order.Perm c.activityBoxes.keys →
      ∃ c', c.finalizeActivityBoxes order = some c' ∧
        c'.tideMark = c.tideMark + c.sizer.ActivityBoxVerticalOverlap +
          c.sizer.FinalizedActivityBoxesPadB ∧
        (∀ l, c'.activityBoxes.get l = (c.activityBoxes.get l).map (fun boxes =>
          match boxes.openStart with
          | none => boxes
          | some y0 =>
            { closed := boxes.closed ++
                [⟨y0, c.tideMark + c.sizer.ActivityBoxVerticalOverlap⟩],
              openStart := none })) ∧
        c'.graphicsModel.Primitives.Rects = c.graphicsModel.Primitives.Rects ++
          order.filterMap (fun l => (c.activityBoxes.get l).bind (fun b =>
            b.openStart.map (fun y0 =>
              ({ Left := (c.lifelineGeomH.ActivityBoxXCoords l).1, Top := y0,
                 Right := (c.lifelineGeomH.ActivityBoxXCoords l).2.2,
                 Bottom := c.tideMark + c.sizer.ActivityBoxVerticalOverlap } :
                graphics.Rect)))) ∧
        c'.graphicsModel.Primitives.Lines = c.graphicsModel.Primitives.Lines ∧
        c'.graphicsModel.Primitives.FilledPolys = c.graphicsModel.Primitives.FilledPolys ∧
        c'.graphicsModel.Primitives.Labels = c.graphicsModel.Primitives.Labels := by
    intro order hperm
    have hnd : order.Nodup := hperm.nodup_iff.mpr hkeys
    have hall : ∀ l ∈ order, (c.activityBoxes.get l).isSome := fun l hl =>
      ActivityBoxes.get_isSome_of_mem_keys c.activityBoxes l (hperm.mem_iff.mp hl)
    have hmem : ∀ l, (c.activityBoxes.get l).isSome → l ∈ order := fun l hl =>
      hperm.mem_iff.mpr (ActivityBoxes.mem_keys_of_get c.activityBoxes l hl)
    obtain ⟨c', hc', h1, h2, h3, hrects, hlines, hpolys, hlabels, hsizer, -⟩ :=
      finalizeActivityBoxesLoop_spec (c.tideMark + c.sizer.ActivityBoxVerticalOverlap)
        order c hnd hall
    refine ⟨{ c' with
              tideMark := c.tideMark + c.sizer.ActivityBoxVerticalOverlap +
                c'.sizer.FinalizedActivityBoxesPadB }, ?_, ?_, ?_, hrects, hlines, hpolys,
      hlabels⟩
    · simp only [Creator.finalizeActivityBoxes, hc']
    · show c.tideMark + c.sizer.ActivityBoxVerticalOverlap +
        c'.sizer.FinalizedActivityBoxesPadB = _
      rw [hsizer]
    · intro l
      show c'.activityBoxes.get l = _
      cases hget : c.activityBoxes.get l with
      | none =>
        have hl : l ∉ order := fun hl => by
          have := hall l hl
          rw [hget] at this
          exact absurd this (by simp)
        rw [h3 l hl, hget]
        rfl
      | some boxes =>
        cases hopen : boxes.openStart with
        | none => simp [h2 l boxes hget hopen, hopen]
        | some y0 =>
          simp [h1 l boxes y0 (hmem l (by rw [hget]; rfl)) hget hopen, hopen]
  obtain ⟨c1, hc1, ht1, hb1, hr1, hl1, hp1, hlab1⟩ := hrun order1 hperm1
  obtain ⟨c2, hc2, ht2, hb2, hr2, hl2, hp2, hlab2⟩ := hrun order2 hperm2
  refine ⟨c1, c2, hc1, hc2, ht1, ht2, fun l => (hb1 l).trans (hb2 l).symm, ?_,
    hl1.trans hl2.symm, hp1.trans hp2.symm, hlab1.trans hlab2.symm⟩
  rw [hr1, hr2]
  exact List.Perm.append_left _ ((hperm1.trans hperm2.symm).filterMap _)

/-- Witness for C38: the state after `full AB fibble` in Scenario 1 (tide mark
51, overlap 5, both lifelines open), visited in the orders `A, B` and
`B, A`. -/
theorem finalizeActivityBoxes_order_independent_witness :
    ∃ c1 c2, stopScenarioCreator.finalizeActivityBoxes [1, 2] = some c1 ∧
      stopScenarioCreator.finalizeActivityBoxes [2, 1] = some c2 ∧
      c1.tideMark = stopScenarioCreator.tideMark +
        stopScenarioCreator.sizer.ActivityBoxVerticalOverlap +
        stopScenarioCreator.sizer.FinalizedActivityBoxesPadB ∧
      c2.tideMark = stopScenarioCreator.tideMark +
        stopScenarioCreator.sizer.ActivityBoxVerticalOverlap +
        stopScenarioCreator.sizer.FinalizedActivityBoxesPadB ∧
      (∀ l, c1.activityBoxes.get l = c2.activityBoxes.get l) ∧
      c1.graphicsModel.Primitives.Rects.Perm c2.graphicsModel.Primitives.Rects ∧
      c1.graphicsModel.Primitives.Lines = c2.graphicsModel.Primitives.Lines ∧
      c1.graphicsModel.Primitives.FilledPolys = c2.graphicsModel.Primitives.FilledPolys ∧
      c1.graphicsModel.Primitives.Labels = c2.graphicsModel.Primitives.Labels :=
  finalizeActivityBoxes_order_independent stopScenarioCreator [1, 2] [2, 1]
    (by decide) (List.Perm.refl _) (List.Perm.swap 1 2 [])

end diag

/-! ## Lemmas on the model and the initialisation of the creator -/

namespace diag

theorem mem_LifelineStatements (m : dsl.Model) (i : StatementPtr) :
    i ∈ m.LifelineStatements ↔
      ∃ s, m.statements[i]? = some s ∧ s.Keyword = umli.Keyword.Life := by
  unfold dsl.Model.LifelineStatements
  rw [List.mem_filter, List.mem_range]
  constructor
  · rintro ⟨hi, h⟩
    rw [List.getElem?_eq_getElem hi] at h
    exact ⟨_, List.getElem?_eq_getElem hi, by simpa using h⟩
  · rintro ⟨s, hs, hk⟩
    obtain ⟨hi, -⟩ := List.getElem?_eq_some.mp hs
    refine ⟨hi, ?_⟩
    rw [hs]
    simpa using hk

theorem nodup_LifelineStatements (m : dsl.Model) : m.LifelineStatements.Nodup :=
  List.Nodup.filter _ (List.nodup_range _)

theorem addLettersLoop_getElem? (ps : List StatementPtr) (hnd : ps.Nodup) (m : dsl.Model)
    (i : Nat) :
    (addLettersLoop ps m).statements[i]? =
      (m.statements[i]?).map (fun s =>
        if i ∈ ps then
          { s with LabelSegments := s.LabelSegments ++ ["", s.LifelineName] }
        else s) := by
  induction ps generalizing m with
  | nil => simp [addLettersLoop]
  | cons p rest ih =>
    obtain ⟨hp, hrest⟩ := List.nodup_cons.mp hnd
    rw [addLettersLoop, ih hrest]
    simp only [dsl.Model.write, List.getElem?_modify, List.mem_cons]
    cases hget : m.statements[i]? with
    | none => simp
    | some s =>
      by_cases hip : p = i
      · subst hip
        simp [hp]
      · have hip2 : ¬ i = p := fun h => hip h.symm
        simp [hip, hip2]

theorem addLettersToLifelineTitles_shown (model : dsl.Model)
    (h : model.FirstStatementOfType umli.Keyword.ShowLetters = none ∨
      ∃ s, model.FirstStatementOfType umli.Keyword.ShowLetters = some s ∧
        s.ShowLetters = true) :
    (addLettersToLifelineTitles model).statements = model.statements.map (fun s =>
      if s.Keyword = umli.Keyword.Life then
        { s with LabelSegments := s.LabelSegments ++ ["", s.LifelineName] }
      else s) := by
  have hrun : addLettersToLifelineTitles model =
      addLettersLoop model.LifelineStatements model := by
    unfold addLettersToLifelineTitles
    rcases h with h | ⟨s, h, hs⟩
    · simp [h]
    · simp [h, hs]
  rw [hrun]
  apply List.ext_getElem?
  intro i
  rw [addLettersLoop_getElem? _ (nodup_LifelineStatements model), List.getElem?_map]
  cases hget : model.statements[i]? with
  | none => rfl
  | some s =>
    have hmem : i ∈ model.LifelineStatements ↔ s.Keyword = umli.Keyword.Life := by
      rw [mem_LifelineStatements]
      constructor
      · rintro ⟨s', hs', hk⟩
        rw [hget] at hs'
        cases hs'
        exact hk
      · intro hk
        exact ⟨s, hget, hk⟩
    by_cases hk : s.Keyword = umli.Keyword.Life
    · simp [hmem.mpr hk, hk]
    · have hnm : i ∉ model.LifelineStatements := fun hm => hk (hmem.mp hm)
      simp [hk, hnm]

theorem addLettersToLifelineTitles_suppressed (model : dsl.Model)
    (h : ∃ s, model.FirstStatementOfType umli.Keyword.ShowLetters = some s ∧
      s.ShowLetters = false) :
    addLettersToLifelineTitles model = model := by
  obtain ⟨s, h, hs⟩ := h
  unfold addLettersToLifelineTitles
  simp [h, hs]

theorem FirstStatementOfType_addLetters (model : dsl.Model)
    (h : model.FirstStatementOfType umli.Keyword.ShowLetters = none ∨
      ∃ s, model.FirstStatementOfType umli.Keyword.ShowLetters = some s ∧
        s.ShowLetters = true) :
    (addLettersToLifelineTitles model).FirstStatementOfType umli.Keyword.ShowLetters = none ∨
      ∃ s, (addLettersToLifelineTitles model).FirstStatementOfType umli.Keyword.ShowLetters =
        some s ∧ s.ShowLetters = true := by
  have hfind : (addLettersToLifelineTitles model).FirstStatementOfType
      umli.Keyword.ShowLetters =
      (model.FirstStatementOfType umli.Keyword.ShowLetters).map (fun s =>
        if s.Keyword = umli.Keyword.Life then
          { s with LabelSegments := s.LabelSegments ++ ["", s.LifelineName] }
        else s) := by
    unfold dsl.Model.FirstStatementOfType
    rw [addLettersToLifelineTitles_shown model h, List.find?_map]
    congr 2
    funext s
    by_cases hk : s.Keyword = umli.Keyword.Life <;> simp [hk]
  rw [hfind]
  rcases h with h | ⟨s, h, hs⟩
  · left
    rw [h]
    rfl
  · right
    rw [h]
    refine ⟨_, rfl, ?_⟩
    by_cases hk : s.Keyword = umli.Keyword.Life <;> simp [hk, hs]

end diag

namespace diag

/-- C35: `addLettersToLifelineTitles`. If the model has no `ShowLetters`
statement, or its first `ShowLetters` statement has value true, every lifeline
statement's `LabelSegments` becomes its old list followed by the empty string
and the lifeline's name (so the length grows by 2 and the last element is the
letter) and every other statement, and every other field, is unchanged. If the
first `ShowLetters` statement has value false, the model is unchanged. -/
theorem addLettersToLifelineTitles_effect (model : dsl.Model) :
    ((model.FirstStatementOfType umli.Keyword.ShowLetters = none ∨
        ∃ s, model.FirstStatementOfType umli.Keyword.ShowLetters = some s ∧
          s.ShowLetters = true) →
      (addLettersToLifelineTitles model).statements.length = model.statements.length ∧
      ∀ (i : Nat) (s : dsl.Statement), model.statements[i]? = some s →
        (s.Keyword = umli.Keyword.Life →
          ∃ s1, (addLettersToLifelineTitles model).statements[i]? = some s1 ∧
            s1 = { s with LabelSegments := s.LabelSegments ++ ["", s.LifelineName] } ∧
            s1.LabelSegments.length = s.LabelSegments.length + 2 ∧
            s1.LabelSegments.getLast? = some s.LifelineName) ∧
        (s.Keyword ≠ umli.Keyword.Life →
          (addLettersToLifelineTitles model).statements[i]? = some s)) ∧
    ((∃ s, model.FirstStatementOfType umli.Keyword.ShowLetters = some s ∧
        s.ShowLetters = false) →
      addLettersToLifelineTitles model = model) := by
  refine ⟨fun h => ?_, addLettersToLifelineTitles_suppressed model⟩
  rw [addLettersToLifelineTitles_shown model h]
  refine ⟨by simp, fun i s hget => ⟨fun hk => ?_, fun hk => ?_⟩⟩
  · refine ⟨_, ?_, rfl, by simp, by simp⟩
    rw [List.getElem?_map, hget]
    simp [hk]
  · rw [List.getElem?_map, hget]
    simp [hk]

/-- Witness for C35: the model of `TestAddLifelineLetters` (no `ShowLetters`
statement) and a model whose `ShowLetters` statement has value false. -/
theorem addLettersToLifelineTitles_effect_witness :
    ((addLettersToLifelineTitles oneLifelineModel).statements.length =
        oneLifelineModel.statements.length ∧
      ∀ (i : Nat) (s : dsl.Statement), oneLifelineModel.statements[i]? = some s →
        (s.Keyword = umli.Keyword.Life →
          ∃ s1, (addLettersToLifelineTitles oneLifelineModel).statements[i]? = some s1 ∧
            s1 = { s with LabelSegments := s.LabelSegments ++ ["", s.LifelineName] } ∧
            s1.LabelSegments.length = s.LabelSegments.length + 2 ∧
            s1.LabelSegments.getLast? = some s.LifelineName) ∧
        (s.Keyword ≠ umli.Keyword.Life →
          (addLettersToLifelineTitles oneLifelineModel).statements[i]? = some s)) ∧
    addLettersToLifelineTitles (lettersModel false) = lettersModel false :=
  ⟨(addLettersToLifelineTitles_effect oneLifelineModel).1 (Or.inl rfl),
   (addLettersToLifelineTitles_effect (lettersModel false)).2
     ⟨directive umli.Keyword.ShowLetters 0 false, rfl, rfl⟩⟩

/-- C36: `setWidthAndFontHeight` sets the width to 2000 and the font height to
the width times a ratio and changes nothing else. The ratio is 1/100 when the
model has no `TextSize` statement (font height 20) and `TextSize / 1000` for
the first `TextSize` statement when its value is not zero: a value of 10 gives
the font height of the default, 5 gives 1:200 and 20 gives 1:50. -/
theorem setWidthAndFontHeight_ratio (c : Creator) (model : dsl.Model) :
    (model.FirstStatementOfType umli.Keyword.TextSize = none →
      c.setWidthAndFontHeight model =
        some { c with width := 2000, fontHeight := 2000 * (1 / 100) } ∧
      (2000 : ℚ) * (1 / 100) = 20) ∧
    (∀ s, model.FirstStatementOfType umli.Keyword.TextSize = some s → s.TextSize ≠ 0 →
      c.setWidthAndFontHeight model =
        some { c with width := 2000, fontHeight := 2000 * (s.TextSize / 1000) } ∧
      (s.TextSize = 10 → (2000 : ℚ) * (s.TextSize / 1000) = 2000 * (1 / 100)) ∧
      (s.TextSize = 5 → (2000 : ℚ) * (s.TextSize / 1000) = 2000 * (1 / 200)) ∧
      (s.TextSize = 20 → (2000 : ℚ) * (s.TextSize / 1000) = 2000 * (1 / 50))) := by
  refine ⟨fun h => ⟨?_, by norm_num⟩, fun s h hs => ⟨?_, ?_, ?_, ?_⟩⟩
  · simp only [Creator.setWidthAndFontHeight, h]
  · simp only [Creator.setWidthAndFontHeight, h, if_neg hs]
  · intro h10
    rw [h10]
    norm_num
  · intro h5
    rw [h5]
    norm_num
  · intro h20
    rw [h20]
    norm_num

/-- Witness for C36: a model without statements and a model whose only
statement is `TextSize 5`. -/
theorem setWidthAndFontHeight_ratio_witness :
    (scenarioCreator.setWidthAndFontHeight { statements := [] } =
        some { scenarioCreator with width := 2000, fontHeight := 2000 * (1 / 100) } ∧
      (2000 : ℚ) * (1 / 100) = 20) ∧
    (scenarioCreator.setWidthAndFontHeight (textSizeModel 5) =
        some { scenarioCreator with
               width := 2000,
               fontHeight := 2000 * ((directive umli.Keyword.TextSize 5 false).TextSize / 1000) } ∧
      ((directive umli.Keyword.TextSize 5 false).TextSize = 10 →
        (2000 : ℚ) * ((directive umli.Keyword.TextSize 5 false).TextSize / 1000) =
          2000 * (1 / 100)) ∧
      ((directive umli.Keyword.TextSize 5 false).TextSize = 5 →
        (2000 : ℚ) * ((directive umli.Keyword.TextSize 5 false).TextSize / 1000) =
          2000 * (1 / 200)) ∧
      ((directive umli.Keyword.TextSize 5 false).TextSize = 20 →
        (2000 : ℚ) * ((directive umli.Keyword.TextSize 5 false).TextSize / 1000) =
          2000 * (1 / 50))) :=
  ⟨(setWidthAndFontHeight_ratio scenarioCreator { statements := [] }).1 rfl,
   (setWidthAndFontHeight_ratio scenarioCreator (textSizeModel 5)).2
     (directive umli.Keyword.TextSize 5 false) rfl (by norm_num [directive])⟩

end diag

namespace diag

/-- C34 (counterexample): the model of `TestAddLifelineLetters`, one lifeline
`A` labelled `foo`. The initialisation step of the first run leaves the
lifeline with the label segments `foo`, empty, `A`; the same step of a second
run on the same model leaves it with `foo`, empty, `A`, empty, `A`. The title
boxes of the first run carry three labels and those of the second run five. -/
theorem second_run_sees_longer_label_segments :
    (addLettersToLifelineTitles oneLifelineModel).statements.map
        (fun s => s.LabelSegments) = [["foo", "", "A"]] ∧
    (addLettersToLifelineTitles (addLettersToLifelineTitles oneLifelineModel)).statements.map
        (fun s => s.LabelSegments) = [["foo", "", "A", "", "A"]] ∧
    addLettersToLifelineTitles (addLettersToLifelineTitles oneLifelineModel) ≠
      addLettersToLifelineTitles oneLifelineModel ∧
    (∃ c1 c2,
      scenarioCreator.lifelineTitleBoxes 40 5 5
        (addLettersToLifelineTitles oneLifelineModel) = some c1 ∧
      scenarioCreator.lifelineTitleBoxes 40 5 5
        (addLettersToLifelineTitles (addLettersToLifelineTitles oneLifelineModel)) = some c2 ∧
      c1.graphicsModel.Primitives.Labels.map (fun l => l.TheString) = ["foo", "", "A"] ∧
      c2.graphicsModel.Primitives.Labels.map (fun l => l.TheString) =
        ["foo", "", "A", "", "A"]) := by
  have h1 : addLettersToLifelineTitles oneLifelineModel =
      { statements := [{ Keyword := umli.Keyword.Life, LifelineName := "A",
                         ReferencedLifelines := [], LabelSegments := ["foo", "", "A"],
                         TextSize := 0, ShowLetters := false }] } := by
    have h := addLettersToLifelineTitles_shown oneLifelineModel (Or.inl rfl)
    cases hm : addLettersToLifelineTitles oneLifelineModel with
    | mk sts =>
      rw [hm] at h
      simp only at h
      rw [h]
      simp [oneLifelineModel]
  have h2 : addLettersToLifelineTitles (addLettersToLifelineTitles oneLifelineModel) =
      { statements := [{ Keyword := umli.Keyword.Life, LifelineName := "A",
                         ReferencedLifelines := [], LabelSegments := ["foo", "", "A", "", "A"],
                         TextSize := 0, ShowLetters := false }] } := by
    rw [h1]
    have h := addLettersToLifelineTitles_shown
      { statements := [{ Keyword := umli.Keyword.Life, LifelineName := "A",
                         ReferencedLifelines := [], LabelSegments := ["foo", "", "A"],
                         TextSize := 0, ShowLetters := false }] } (Or.inl rfl)
    cases hm : addLettersToLifelineTitles
      { statements := [{ Keyword := umli.Keyword.Life, LifelineName := "A",
                         ReferencedLifelines := [], LabelSegments := ["foo", "", "A"],
                         TextSize := 0, ShowLetters := false }] } with
    | mk sts =>
      rw [hm] at h
      simp only at h
      rw [h]
      simp
  rw [h2, h1]
  refine ⟨by simp, by simp, by simp, ?_⟩
  simp [Creator.lifelineTitleBoxes, lifelineTitleBoxesLoop, dsl.Model.LifelineStatements,
    List.range, List.range.loop, Creator.rowOfLabels, rowOfLabelsFrom_Labels,
    graphics.Primitives.AddRect, scenarioCreator, graphics.NewModel, graphics.NewPrimitives,
    List.enumFrom]

end diag

namespace diag

/-- C34 (amended): the initialisation step writes to its model argument unless
letters are suppressed. When the first `ShowLetters` statement has value false
the step leaves the model unchanged, so a second run on the same model sees the
same label segments and emits the same title boxes as the first. When the model
has no `ShowLetters` statement, or the first one has value true, the second run
sees every lifeline statement's label segments of the first run followed once
more by the empty string and the lifeline's name. -/
theorem second_run_same_only_when_letters_suppressed (model : dsl.Model) (c : Creator)
    (titleBoxHeight titleBoxLabelPadB titleBoxPadB : ℚ) :
    ((∃ s, model.FirstStatementOfType umli.Keyword.ShowLetters = some s ∧
        s.ShowLetters = false) →
      addLettersToLifelineTitles model = model ∧
      addLettersToLifelineTitles (addLettersToLifelineTitles model) =
        addLettersToLifelineTitles model ∧
      c.lifelineTitleBoxes titleBoxHeight titleBoxLabelPadB titleBoxPadB
          (addLettersToLifelineTitles (addLettersToLifelineTitles model)) =
        c.lifelineTitleBoxes titleBoxHeight titleBoxLabelPadB titleBoxPadB
          (addLettersToLifelineTitles model)) ∧
    ((model.FirstStatementOfType umli.Keyword.ShowLetters = none ∨
        ∃ s, model.FirstStatementOfType umli.Keyword.ShowLetters = some s ∧
          s.ShowLetters = true) →
      (addLettersToLifelineTitles (addLettersToLifelineTitles model)).statements =
        (addLettersToLifelineTitles model).statements.map (fun s =>
          if s.Keyword = umli.Keyword.Life then
            { s with LabelSegments := s.LabelSegments ++ ["", s.LifelineName] }
          else s)) := by
  constructor
  · intro h
    have hm := addLettersToLifelineTitles_suppressed model h
    refine ⟨hm, ?_, ?_⟩
    · rw [hm, hm]
    · rw [hm, hm]
  · intro h
    exact addLettersToLifelineTitles_shown _ (FirstStatementOfType_addLetters model h)

/-- Witness for C34 (amended): a model whose `ShowLetters` statement has value
false, and the model of `TestAddLifelineLetters`, which has no such
statement. -/
theorem second_run_same_only_when_letters_suppressed_witness :
    (addLettersToLifelineTitles (lettersModel false) = lettersModel false ∧
      addLettersToLifelineTitles (addLettersToLifelineTitles (lettersModel false)) =
        addLettersToLifelineTitles (lettersModel false) ∧
      scenarioCreator.lifelineTitleBoxes 40 5 5
          (addLettersToLifelineTitles (addLettersToLifelineTitles (lettersModel false))) =
        scenarioCreator.lifelineTitleBoxes 40 5 5
          (addLettersToLifelineTitles (lettersModel false))) ∧
    (addLettersToLifelineTitles (addLettersToLifelineTitles oneLifelineModel)).statements =
      (addLettersToLifelineTitles oneLifelineModel).statements.map (fun s =>
        if s.Keyword = umli.Keyword.Life then
          { s with LabelSegments := s.LabelSegments ++ ["", s.LifelineName] }
        else s) :=
  ⟨(second_run_same_only_when_letters_suppressed (lettersModel false) scenarioCreator
      40 5 5).1 ⟨directive umli.Keyword.ShowLetters 0 false, rfl, rfl⟩,
   (second_run_same_only_when_letters_suppressed oneLifelineModel scenarioCreator
      40 5 5).2 (Or.inl rfl)⟩

end diag

/-! ## Lemmas on the sizer -/

namespace sizers

/-- C37: for every choice of the coefficients, diagram width, font height
`fh` and lifelines, `NewSizer` returns a sizer whose `FrameTitleTextPadB` is 0
(the field is never assigned) and whose `FrameTitleTextPadT` is
`frameTitleTextPadBK * fh` (the field is assigned twice, the second time from
the bottom coefficient). `ArrowHeight` is `arrowAspectRatio * (arrowLenK * fh)`
and `InteractionLineLabelIndent` is `ArrowLen + interactionLineLabelIndent *
fh`. With top coefficient 1/2, bottom coefficient 1/4 and font height 20 the
top padding is 5, not 10, and the bottom padding is 0, not 5. -/
theorem NewSizer_never_sets_FrameTitleTextPadB (k : Settings)
    (NewLifelines : Int → ℚ → List StatementPtr → Lifelines) (diagramWidth : Int) (fh : ℚ)
    (lifelineStatements : List StatementPtr) :
    (NewSizer k NewLifelines diagramWidth fh lifelineStatements).FrameTitleTextPadB = 0 ∧
    (NewSizer k NewLifelines diagramWidth fh lifelineStatements).FrameTitleTextPadT =
      k.frameTitleTextPadBK * fh ∧
    (NewSizer k NewLifelines diagramWidth fh lifelineStatements).ArrowLen = k.arrowLenK * fh ∧
    (NewSizer k NewLifelines diagramWidth fh lifelineStatements).ArrowHeight =
      k.arrowAspectRatio * (k.arrowLenK * fh) ∧
    (NewSizer k NewLifelines diagramWidth fh lifelineStatements).InteractionLineLabelIndent =
      k.arrowLenK * fh + k.interactionLineLabelIndent * fh ∧
    (NewSizer scenarioSettings scenarioNewLifelines 2000 20 [1, 2]).FrameTitleTextPadT = 5 ∧
    (NewSizer scenarioSettings scenarioNewLifelines 2000 20 [1, 2]).FrameTitleTextPadT ≠
      scenarioSettings.frameTitleTextPadTK * 20 ∧
    (NewSizer scenarioSettings scenarioNewLifelines 2000 20 [1, 2]).FrameTitleTextPadB = 0 ∧
    (NewSizer scenarioSettings scenarioNewLifelines 2000 20 [1, 2]).FrameTitleTextPadB ≠
      scenarioSettings.frameTitleTextPadBK * 20 := by
  refine ⟨rfl, rfl, rfl, rfl, rfl, ?_, ?_, rfl, ?_⟩
  · show scenarioSettings.frameTitleTextPadBK * 20 = 5
    norm_num [scenarioSettings]
  · show scenarioSettings.frameTitleTextPadBK * 20 ≠ scenarioSettings.frameTitleTextPadTK * 20
    norm_num [scenarioSettings]
  · show (0 : ℚ) ≠ scenarioSettings.frameTitleTextPadBK * 20
    norm_num [scenarioSettings]

end sizers

/-! ## Lemmas on gaps and the lifeline finalizer -/

namespace lifeline

theorem affects_iff (allLifelines : List StatementPtr) (zone : diag.NoGoZone)
    (lifeline : StatementPtr) :
    affects allLifelines zone lifeline = true ↔
      min (lifelineNumberFrom allLifelines zone.lifelineA 0).1
          (lifelineNumberFrom allLifelines zone.lifelineB 0).1 <
        (lifelineNumberFrom allLifelines lifeline 0).1 ∧
      (lifelineNumberFrom allLifelines lifeline 0).1 <
        max (lifelineNumberFrom allLifelines zone.lifelineA 0).1
          (lifelineNumberFrom allLifelines zone.lifelineB 0).1 := by
  simp [affects]

theorem covered_perm {l1 l2 : List diag.segment} (h : l1.Perm l2) (y : ℚ) :
    covered l1 y ↔ covered l2 y := by
  unfold covered
  constructor
  · rintro ⟨f, hf, hy⟩
    exact ⟨f, h.mem_iff.mp hf, hy⟩
  · rintro ⟨f, hf, hy⟩
    exact ⟨f, h.mem_iff.mpr hf, hy⟩

theorem IsMaximalUncovered_congr {fs1 fs2 : List diag.segment}
    (h : ∀ y, covered fs1 y ↔ covered fs2 y) (top bottom : ℚ) (g : diag.segment) :
    IsMaximalUncovered fs1 top bottom g ↔ IsMaximalUncovered fs2 top bottom g := by
  unfold IsMaximalUncovered
  simp only [h]

theorem sortByStart_perm (segs : List diag.segment) : (sortByStart segs).Perm segs :=
  List.perm_insertionSort _ _

theorem sortByStart_sorted (segs : List diag.segment) :
    (sortByStart segs).Pairwise startsNoLater := by
  haveI : IsTotal diag.segment startsNoLater := ⟨fun a b => le_total a.start b.start⟩
  haveI : IsTrans diag.segment startsNoLater :=
    ⟨fun a b c (hab : a.start ≤ b.start) (hbc : b.start ≤ c.start) => le_trans hab hbc⟩
  exact List.sorted_insertionSort startsNoLater segs

theorem mergeInto_spec (rest : List diag.segment) :
    ∀ cur : diag.segment, cur.start ≤ cur.stop →
      (∀ r ∈ rest, r.start ≤ r.stop) → (∀ r ∈ rest, cur.start ≤ r.start) →
      rest.Pairwise startsNoLater →
      (∀ y, covered (mergeInto cur rest) y ↔ covered (cur :: rest) y) ∧
      (∀ m ∈ mergeInto cur rest, m.start ≤ m.stop ∧ cur.start ≤ m.start) ∧
      (mergeInto cur rest).Pairwise (fun a b => a.stop < b.start) := by
  induction rest with
  | nil =>
    intro cur hcur _ _ _
    refine ⟨fun y => Iff.rfl, ?_, ?_⟩
    · intro m hm
      simp only [mergeInto, List.mem_singleton] at hm
      subst hm
      exact ⟨hcur, le_refl _⟩
    · simp [mergeInto]
  | cons g rest ih =>
    intro cur hcur hwf hstart hsorted
    have hg : g.start ≤ g.stop := hwf g (List.mem_cons_self _ _)
    have hwfrest : ∀ r ∈ rest, r.start ≤ r.stop := fun r hr => hwf r (List.mem_cons_of_mem _ hr)
    have hcg : cur.start ≤ g.start := hstart g (List.mem_cons_self _ _)
    obtain ⟨hgrest, hsortedrest⟩ := List.pairwise_cons.mp hsorted
    by_cases hov : g.start ≤ cur.stop
    · have hstep : mergeInto cur (g :: rest) =
          mergeInto ⟨cur.start, max cur.stop g.stop⟩ rest := by
        simp [mergeInto, hov]
      rw [hstep]
      obtain ⟨hcov, hwfm, hpw⟩ := ih ⟨cur.start, max cur.stop g.stop⟩
        (le_trans hcur (le_max_left _ _)) hwfrest
        (fun r hr => hstart r (List.mem_cons_of_mem _ hr)) hsortedrest
      refine ⟨fun y => ?_, hwfm, hpw⟩
      rw [hcov y]
      unfold covered
      constructor
      · rintro ⟨f, hf, hy1, hy2⟩
        rcases List.mem_cons.mp hf with hf | hf
        · subst hf
          by_cases hyc : y ≤ cur.stop
          · exact ⟨cur, List.mem_cons_self _ _, hy1, hyc⟩
          · refine ⟨g, List.mem_cons_of_mem _ (List.mem_cons_self _ _), ?_, ?_⟩
            · exact le_trans hov (le_of_lt (not_le.mp hyc))
            · rcases le_max_iff.mp hy2 with h | h
              · exact absurd h hyc
              · exact h
        · exact ⟨f, List.mem_cons_of_mem _ (List.mem_cons_of_mem _ hf), hy1, hy2⟩
      · rintro ⟨f, hf, hy1, hy2⟩
        rcases List.mem_cons.mp hf with hf | hf
        · subst hf
          exact ⟨_, List.mem_cons_self _ _, hy1, le_trans hy2 (le_max_left _ _)⟩
        · rcases List.mem_cons.mp hf with hf | hf
          · subst hf
            exact ⟨_, List.mem_cons_self _ _, le_trans hcg hy1, le_trans hy2 (le_max_right _ _)⟩
          · exact ⟨f, List.mem_cons_of_mem _ hf, hy1, hy2⟩
    · have hstep : mergeInto cur (g :: rest) = cur :: mergeInto g rest := by
        simp [mergeInto, hov]
      rw [hstep]
      obtain ⟨hcov, hwfm, hpw⟩ := ih g hg hwfrest hgrest hsortedrest
      refine ⟨fun y => ?_, ?_, ?_⟩
      · unfold covered
        constructor
        · rintro ⟨f, hf, hy⟩
          rcases List.mem_cons.mp hf with hf | hf
          · exact ⟨f, by rw [hf]; exact List.mem_cons_self _ _, hy⟩
          · obtain ⟨f2, hf2, hy2⟩ := (hcov y).mp ⟨f, hf, hy⟩
            exact ⟨f2, List.mem_cons_of_mem _ hf2, hy2⟩
        · rintro ⟨f, hf, hy⟩
          rcases List.mem_cons.mp hf with hf | hf
          · exact ⟨f, by rw [hf]; exact List.mem_cons_self _ _, hy⟩
          · obtain ⟨f2, hf2, hy2⟩ := (hcov y).mpr ⟨f, hf, hy⟩
            exact ⟨f2, List.mem_cons_of_mem _ hf2, hy2⟩
      · intro m hm
        rcases List.mem_cons.mp hm with hm | hm
        · subst hm
          exact ⟨hcur, le_refl _⟩
        · exact ⟨(hwfm m hm).1, le_trans hcg (hwfm m hm).2⟩
      · refine List.pairwise_cons.mpr ⟨fun m hm => ?_, hpw⟩
        exact lt_of_lt_of_le (not_le.mp hov) (hwfm m hm).2

theorem mergeOverlaps_spec (segs : List diag.segment)
    (hwf : ∀ r ∈ segs, r.start ≤ r.stop) (hsorted : segs.Pairwise startsNoLater) :
    (∀ y, covered (mergeOverlaps segs) y ↔ covered segs y) ∧
    (∀ m ∈ mergeOverlaps segs, m.start ≤ m.stop) ∧
    (mergeOverlaps segs).Pairwise (fun a b => a.stop < b.start) := by
  cases segs with
  | nil => simp [mergeOverlaps]
  | cons g rest =>
    obtain ⟨hgrest, hsortedrest⟩ := List.pairwise_cons.mp hsorted
    obtain ⟨hcov, hwfm, hpw⟩ := mergeInto_spec rest g (hwf g (List.mem_cons_self _ _))
      (fun r hr => hwf r (List.mem_cons_of_mem _ hr)) hgrest hsortedrest
    exact ⟨hcov, fun m hm => (hwfm m hm).1, hpw⟩

end lifeline

namespace lifeline

theorem mem_complement (bottom : ℚ) (merged : List diag.segment) :
    ∀ cursor : ℚ, (∀ m ∈ merged, m.start ≤ m.stop) →
      merged.Pairwise (fun a b => a.stop < b.start) →
      ∀ g, g ∈ complement bottom cursor merged ↔
        IsMaximalUncovered merged cursor bottom g := by
  induction merged with
  | nil =>
    intro cursor _ _ g
    unfold IsMaximalUncovered covered
    by_cases hc : cursor < bottom
    · simp only [complement, if_pos hc, List.mem_singleton]
      constructor
      · intro hg
        subst hg
        simp [hc]
      · rintro ⟨-, -, -, -, h5, h6⟩
        rcases h5 with h5 | ⟨f, hf, -⟩
        · rcases h6 with h6 | ⟨f, hf, -⟩
          · cases g
            simp only at h5 h6
            subst h5 h6
            rfl
          · exact absurd hf (List.not_mem_nil _)
        · exact absurd hf (List.not_mem_nil _)
    · simp only [complement, if_neg hc, List.not_mem_nil, false_iff]
      rintro ⟨h1, h2, h3, -⟩
      exact hc (lt_of_le_of_lt h1 (lt_of_lt_of_le h2 h3))
  | cons m rest ih =>
    intro cursor hwf hpw g
    have hm : m.start ≤ m.stop := hwf m (List.mem_cons_self _ _)
    obtain ⟨hmrest, hpwrest⟩ := List.pairwise_cons.mp hpw
    have hih := ih (max cursor m.stop) (fun r hr => hwf r (List.mem_cons_of_mem _ hr))
      hpwrest g
    have hstep : g ∈ complement bottom cursor (m :: rest) ↔
        (cursor < min m.start bottom ∧ g = ⟨cursor, min m.start bottom⟩) ∨
          g ∈ complement bottom (max cursor m.stop) rest := by
      simp only [complement, List.mem_append]
      by_cases hc : cursor < min m.start bottom
      · simp [hc]
      · simp [hc]
    rw [hstep, hih]
    unfold IsMaximalUncovered covered
    constructor
    · rintro (⟨hc, hg⟩ | ⟨h1, h2, h3, h4, h5, h6⟩)
      · subst hg
        refine ⟨le_refl _, hc, min_le_right _ _, ?_, Or.inl rfl, ?_⟩
        · rintro y hy1 hy2 ⟨f, hf, hfy1, hfy2⟩
          simp only at hy1 hy2
          have hym : y < m.start := lt_of_lt_of_le hy2 (min_le_left _ _)
          rcases List.mem_cons.mp hf with hf | hf
          · subst hf
            exact absurd hfy1 (not_le.mpr hym)
          · have := hmrest f hf
            linarith
        · simp only
          rcases min_choice m.start bottom with h | h
          · right
            exact ⟨m, List.mem_cons_self _ _, by rw [h], by rw [h]; exact hm⟩
          · left
            exact h
      · have hcg : cursor ≤ g.start := le_trans (le_max_left _ _) h1
        have hmg : m.stop ≤ g.start := le_trans (le_max_right _ _) h1
        refine ⟨hcg, h2, h3, ?_, ?_, ?_⟩
        · rintro y hy1 hy2 ⟨f, hf, hfy1, hfy2⟩
          rcases List.mem_cons.mp hf with hf | hf
          · subst hf
            linarith
          · exact h4 y hy1 hy2 ⟨f, hf, hfy1, hfy2⟩
        · rcases h5 with h5 | ⟨f, hf, hfy⟩
          · rcases max_choice cursor m.stop with h | h
            · left
              rw [h5, h]
            · right
              exact ⟨m, List.mem_cons_self _ _, by rw [h5, h]; exact hm, by rw [h5, h]⟩
          · right
            exact ⟨f, List.mem_cons_of_mem _ hf, hfy⟩
        · rcases h6 with h6 | ⟨f, hf, hfy⟩
          · left
            exact h6
          · right
            exact ⟨f, List.mem_cons_of_mem _ hf, hfy⟩
    · rintro ⟨h1, h2, h3, h4, h5, h6⟩
      by_cases hcase : g.stop ≤ m.start
      · left
        have hstart : g.start = cursor := by
          rcases h5 with h5 | ⟨f, hf, hfy1, hfy2⟩
          · exact h5
          · rcases List.mem_cons.mp hf with hf | hf
            · subst hf
              linarith
            · have := hmrest f hf
              linarith
        have hstop : g.stop = min m.start bottom := by
          rcases h6 with h6 | ⟨f, hf, hfy1, hfy2⟩
          · rw [h6, min_eq_right (h6 ▸ hcase)]
          · rcases List.mem_cons.mp hf with hf | hf
            · subst hf
              rw [min_eq_left (le_trans hfy1 h3)]
              exact le_antisymm hcase hfy1
            · have := hmrest f hf
              linarith
        refine ⟨?_, ?_⟩
        · rw [← hstart, ← hstop]
          exact h2
        · cases g
          simp only at hstart hstop
          subst hstart hstop
          rfl
      · right
        have hcase2 : m.start < g.stop := not_le.mp hcase
        have hmg : m.stop ≤ g.start := by
          by_contra hlt
          have hlt2 : g.start < m.stop := not_le.mp hlt
          by_cases hmid1 : (g.start + g.stop) / 2 < m.start
          · exact h4 m.start (by linarith) hcase2 ⟨m, List.mem_cons_self _ _, le_refl _, hm⟩
          · by_cases hmid2 : m.stop < (g.start + g.stop) / 2
            · exact h4 m.stop hlt2 (by linarith) ⟨m, List.mem_cons_self _ _, hm, le_refl _⟩
            · exact h4 ((g.start + g.stop) / 2) (by linarith) (by linarith)
                ⟨m, List.mem_cons_self _ _, not_lt.mp hmid1, not_lt.mp hmid2⟩
        refine ⟨max_le h1 hmg, h2, h3, ?_, ?_, ?_⟩
        · rintro y hy1 hy2 ⟨f, hf, hfy⟩
          exact h4 y hy1 hy2 ⟨f, List.mem_cons_of_mem _ hf, hfy⟩
        · rcases h5 with h5 | ⟨f, hf, hfy1, hfy2⟩
          · left
            rw [h5, max_eq_left (h5 ▸ hmg)]
          · rcases List.mem_cons.mp hf with hf | hf
            · subst hf
              left
              have : g.start = f.stop := le_antisymm hfy2 hmg
              rw [this, max_eq_right (this ▸ h1)]
            · right
              exact ⟨f, hf, hfy1, hfy2⟩
        · rcases h6 with h6 | ⟨f, hf, hfy1, hfy2⟩
          · left
            exact h6
          · rcases List.mem_cons.mp hf with hf | hf
            · subst hf
              linarith
            · right
              exact ⟨f, hf, hfy1, hfy2⟩

theorem complement_ordered (bottom : ℚ) (merged : List diag.segment) :
    ∀ cursor : ℚ, (∀ m ∈ merged, m.start ≤ m.stop) →
      (∀ g ∈ complement bottom cursor merged, cursor ≤ g.start ∧ g.start < g.stop) ∧
      (complement bottom cursor merged).Pairwise (fun a b => a.stop ≤ b.start) := by
  induction merged with
  | nil =>
    intro cursor _
    by_cases hc : cursor < bottom
    · simp [complement, hc]
    · simp [complement, hc]
  | cons m rest ih =>
    intro cursor hwf
    have hm : m.start ≤ m.stop := hwf m (List.mem_cons_self _ _)
    obtain ⟨hmem, hpw⟩ := ih (max cursor m.stop)
      (fun r hr => hwf r (List.mem_cons_of_mem _ hr))
    have hrest : ∀ g ∈ complement bottom (max cursor m.stop) rest,
        cursor ≤ g.start ∧ m.stop ≤ g.start ∧ g.start < g.stop := fun g hg =>
      ⟨le_trans (le_max_left _ _) (hmem g hg).1, le_trans (le_max_right _ _) (hmem g hg).1,
        (hmem g hg).2⟩
    by_cases hc : cursor < min m.start bottom
    · have hstep : complement bottom cursor (m :: rest) =
          ⟨cursor, min m.start bottom⟩ :: complement bottom (max cursor m.stop) rest := by
        simp [complement, hc]
      rw [hstep]
      refine ⟨fun g hg => ?_, List.pairwise_cons.mpr ⟨fun g hg => ?_, hpw⟩⟩
      · rcases List.mem_cons.mp hg with hg | hg
        · subst hg
          exact ⟨le_refl _, hc⟩
        · exact ⟨(hrest g hg).1, (hrest g hg).2.2⟩
      · exact le_trans (min_le_left _ _) (le_trans hm (hrest g hg).2.1)
    · have hstep : complement bottom cursor (m :: rest) =
          complement bottom (max cursor m.stop) rest := by
        simp [complement, hc]
      rw [hstep]
      exact ⟨fun g hg => ⟨(hrest g hg).1, (hrest g hg).2.2⟩, hpw⟩

end lifeline

namespace lifeline

theorem addDashedSegments_eq (x : ℚ) (segs : List diag.segment) (p : graphics.Primitives) :
    addDashedSegments x segs p =
      { p with Lines := p.Lines ++ segs.map (fun g =>
          ({ P1 := ⟨x, g.start⟩, P2 := ⟨x, g.stop⟩, Dashed := true } : graphics.Line)) } := by
  induction segs generalizing p with
  | nil => simp [addDashedSegments]
  | cons g rest ih => simp [addDashedSegments, ih, graphics.Primitives.AddLine]

theorem finalizeLoop_eq (f : Finalizer) (top bottom minSegLen : ℚ) (ls : List StatementPtr)
    (p : graphics.Primitives) :
    finalizeLoop f top bottom minSegLen ls p =
      { p with Lines := p.Lines ++ ls.flatMap (fun l =>
          (f.visibleSegments top bottom minSegLen l).map (fun g =>
            ({ P1 := ⟨f.centreLine l, g.start⟩, P2 := ⟨f.centreLine l, g.stop⟩,
               Dashed := true } : graphics.Line))) } := by
  induction ls generalizing p with
  | nil => simp [finalizeLoop]
  | cons l rest ih => simp [finalizeLoop, ih, addDashedSegments_eq, List.flatMap_cons]

theorem mem_complement_forbidden (fs : List diag.segment) (top bottom : ℚ)
    (hwf : ∀ s ∈ fs, s.start ≤ s.stop) :
    (∀ g, g ∈ complement bottom top (mergeOverlaps (sortByStart fs)) ↔
      IsMaximalUncovered fs top bottom g) ∧
    (complement bottom top (mergeOverlaps (sortByStart fs))).Pairwise
      (fun a b => a.stop ≤ b.start) := by
  have hperm := sortByStart_perm fs
  have hwfs : ∀ r ∈ sortByStart fs, r.start ≤ r.stop := fun r hr =>
    hwf r (hperm.mem_iff.mp hr)
  obtain ⟨hcov, hwfm, hpw⟩ := mergeOverlaps_spec (sortByStart fs) hwfs (sortByStart_sorted fs)
  refine ⟨fun g => ?_, (complement_ordered bottom _ top hwfm).2⟩
  rw [mem_complement bottom _ top hwfm hpw g]
  exact IsMaximalUncovered_congr (fun y => (hcov y).trans (covered_perm hperm y)) top bottom g

theorem scenarioFinalizer_forbidden :
    scenarioFinalizer.forbidden 1 = [] ∧
    scenarioFinalizer.forbidden 2 = [⟨50, 60⟩, ⟨80, 90⟩] ∧
    scenarioFinalizer.forbidden 3 = [] := by
  refine ⟨?_, ?_, ?_⟩ <;>
    simp [Finalizer.forbidden, PopulateFromNoGoZones, affects, lifelineNumberFrom,
      scenarioFinalizer]

theorem scenarioFinalizer_complement :
    complement 100 10 (mergeOverlaps (sortByStart [⟨50, 60⟩, ⟨80, 90⟩])) =
      [⟨10, 50⟩, ⟨60, 80⟩, ⟨90, 100⟩] := by
  have hsort : sortByStart [⟨50, 60⟩, ⟨80, 90⟩] = [⟨50, 60⟩, ⟨80, 90⟩] := by
    norm_num [sortByStart, List.insertionSort, List.orderedInsert, startsNoLater]
  rw [hsort]
  norm_num [mergeOverlaps, mergeInto, complement]

end lifeline

namespace lifeline

theorem visibleSegments_of_no_forbidden (f : Finalizer) (top bottom minSegLen : ℚ)
    (l : StatementPtr) (hnone : f.forbidden l = []) (hband : top < bottom)
    (hlen : minSegLen ≤ bottom - top) :
    f.visibleSegments top bottom minSegLen l = [⟨top, bottom⟩] := by
  simp [Finalizer.visibleSegments, hnone, sortByStart, mergeOverlaps, complement, hband, hlen]

theorem scenarioFinalizer_visibleSegments :
    scenarioFinalizer.visibleSegments 10 100 1 1 = [⟨10, 100⟩] ∧
    scenarioFinalizer.visibleSegments 10 100 1 2 = [⟨10, 50⟩, ⟨60, 80⟩, ⟨90, 100⟩] ∧
    scenarioFinalizer.visibleSegments 10 100 1 3 = [⟨10, 100⟩] := by
  refine ⟨?_, ?_, ?_⟩
  · exact visibleSegments_of_no_forbidden _ _ _ _ _ scenarioFinalizer_forbidden.1
      (by norm_num) (by norm_num)
  · unfold Finalizer.visibleSegments
    rw [scenarioFinalizer_forbidden.2.1, scenarioFinalizer_complement]
    norm_num [List.filter]
  · exact visibleSegments_of_no_forbidden _ _ _ _ _ scenarioFinalizer_forbidden.2.2
      (by norm_num) (by norm_num)

/-- C32: a no-go zone affects a lifeline iff the lifeline's index lies strictly
between the least and the greatest index of the zone's two tagged lifelines.
So, for zones that are all tagged with the lifelines `a` and `c`,
`PopulateFromNoGoZones` yields for a lifeline strictly between `a` and `c` one
gap per zone, equal to the zone's segment and in the zones' order, and yields
no gap for `a` and no gap for `c`. -/
theorem PopulateFromNoGoZones_betweenness (allLifelines : List StatementPtr)
    (noGoZones : List diag.NoGoZone) (a c : StatementPtr)
    (htag : ∀ zone ∈ noGoZones, zone.lifelineA = a ∧ zone.lifelineB = c) :
    (∀ (zone : diag.NoGoZone) (l : StatementPtr), affects allLifelines zone l = true ↔
      min (lifelineNumberFrom allLifelines zone.lifelineA 0).1
          (lifelineNumberFrom allLifelines zone.lifelineB 0).1 <
        (lifelineNumberFrom allLifelines l 0).1 ∧
      (lifelineNumberFrom allLifelines l 0).1 <
        max (lifelineNumberFrom allLifelines zone.lifelineA 0).1
          (lifelineNumberFrom allLifelines zone.lifelineB 0).1) ∧
    (∀ l : StatementPtr,
      min (lifelineNumberFrom allLifelines a 0).1 (lifelineNumberFrom allLifelines c 0).1 <
        (lifelineNumberFrom allLifelines l 0).1 →
      (lifelineNumberFrom allLifelines l 0).1 <
        max (lifelineNumberFrom allLifelines a 0).1 (lifelineNumberFrom allLifelines c 0).1 →
      (PopulateFromNoGoZones noGoZones l allLifelines).Items =
        noGoZones.map (fun zone => zone.segment)) ∧
    (PopulateFromNoGoZones noGoZones a allLifelines).Items = [] ∧
    (PopulateFromNoGoZones noGoZones c allLifelines).Items = [] := by
  refine ⟨affects_iff allLifelines, fun l hlo hhi => ?_, ?_, ?_⟩
  · unfold PopulateFromNoGoZones
    simp only
    congr 1
    apply List.filter_eq_self.mpr
    intro zone hz
    obtain ⟨ha, hc⟩ := htag zone hz
    rw [affects_iff, ha, hc]
    exact ⟨hlo, hhi⟩
  · unfold PopulateFromNoGoZones
    simp only [List.map_eq_nil_iff, List.filter_eq_nil_iff]
    intro zone hz
    obtain ⟨ha, hc⟩ := htag zone hz
    rw [affects_iff, ha, hc]
    rintro ⟨h1, h2⟩
    rcases min_lt_iff.mp h1 with h | h
    · exact lt_irrefl _ h
    · rcases lt_max_iff.mp h2 with h' | h'
      · exact lt_irrefl _ h'
      · exact lt_asymm h h'
  · unfold PopulateFromNoGoZones
    simp only [List.map_eq_nil_iff, List.filter_eq_nil_iff]
    intro zone hz
    obtain ⟨ha, hc⟩ := htag zone hz
    rw [affects_iff, ha, hc]
    rintro ⟨h1, h2⟩
    rcases min_lt_iff.mp h1 with h | h
    · rcases lt_max_iff.mp h2 with h' | h'
      · exact lt_asymm h h'
      · exact lt_irrefl _ h'
    · exact lt_irrefl _ h

/-- Witness for C32: the two tests of `gaps_test.go`: lifelines `a`, `b`, `c`
(addresses 1, 2, 3) and two zones between `a` and `c`; `b` gets both segments
in order, `a` and `c` get none. -/
theorem PopulateFromNoGoZones_betweenness_witness :
    (PopulateFromNoGoZones gapsTestZones 2 [1, 2, 3]).Items = [⟨1, 2⟩, ⟨5, 6⟩] ∧
    (PopulateFromNoGoZones gapsTestZones 1 [1, 2, 3]).Items = [] ∧
    (PopulateFromNoGoZones gapsTestZones 3 [1, 2, 3]).Items = [] :=
  have h := PopulateFromNoGoZones_betweenness [1, 2, 3] gapsTestZones 1 3
    (by simp [gapsTestZones])
  ⟨h.2.1 2 (by simp [lifelineNumberFrom]) (by simp [lifelineNumberFrom]), h.2.2.1, h.2.2.2⟩

/-- C33: `Finalize(top, bottom, minSegLen)` appends, for every lifeline in
order, one dashed line at the lifeline's centre line X per visible segment, and
nothing else. For a lifeline whose forbidden intervals (the no-go zones applying
to it and its activity-box intervals) are well formed, in the case where every
maximal sub-interval of `[top, bottom]` not covered by them is at least
`minSegLen` long, the visible segments are exactly those maximal sub-intervals,
from top to bottom without overlap. A lifeline with no forbidden interval gets
the single segment `(top, bottom)`. In Scenario 5 (band `[10, 100]`, no-go
`[50, 60]`, box `[80, 90]`) lifeline `B` gets exactly `(10, 50)`, `(60, 80)`,
`(90, 100)` and the lifelines `A` and `C` get `(10, 100)`. -/
theorem Finalize_emits_maximal_uncovered (f : Finalizer) (top bottom minSegLen : ℚ)
    (primitives : graphics.Primitives) :
    (f.Finalize top bottom minSegLen primitives =
      { primitives with Lines := primitives.Lines ++ f.lifelines.flatMap (fun l =>
          (f.visibleSegments top bottom minSegLen l).map (fun g =>
            ({ P1 := ⟨f.centreLine l, g.start⟩, P2 := ⟨f.centreLine l, g.stop⟩,
               Dashed := true } : graphics.Line))) }) ∧
    (∀ l : StatementPtr, (∀ s ∈ f.forbidden l, s.start ≤ s.stop) →
      (∀ g, IsMaximalUncovered (f.forbidden l) top bottom g → minSegLen ≤ g.stop - g.start) →
      (∀ g, g ∈ f.visibleSegments top bottom minSegLen l ↔
        IsMaximalUncovered (f.forbidden l) top bottom g) ∧
      (f.visibleSegments top bottom minSegLen l).Pairwise (fun a b => a.stop ≤ b.start)) ∧
    (∀ l : StatementPtr, f.forbidden l = [] → top < bottom → minSegLen ≤ bottom - top →
      f.visibleSegments top bottom minSegLen l = [⟨top, bottom⟩]) ∧
    scenarioFinalizer.visibleSegments 10 100 1 2 = [⟨10, 50⟩, ⟨60, 80⟩, ⟨90, 100⟩] ∧
    (scenarioFinalizer.Finalize 10 100 1 graphics.NewPrimitives).Lines =
      [⟨⟨500, 10⟩, ⟨500, 100⟩, true⟩,
       ⟨⟨1000, 10⟩, ⟨1000, 50⟩, true⟩, ⟨⟨1000, 60⟩, ⟨1000, 80⟩, true⟩,
       ⟨⟨1000, 90⟩, ⟨1000, 100⟩, true⟩,
       ⟨⟨1500, 10⟩, ⟨1500, 100⟩, true⟩] := by
  refine ⟨finalizeLoop_eq f top bottom minSegLen f.lifelines primitives, ?_,
    fun l => visibleSegments_of_no_forbidden f top bottom minSegLen l,
    scenarioFinalizer_visibleSegments.2.1, ?_⟩
  · intro l hwf hlen
    obtain ⟨hmem, hpw⟩ := mem_complement_forbidden (f.forbidden l) top bottom hwf
    have hkeep : f.visibleSegments top bottom minSegLen l =
        complement bottom top (mergeOverlaps (sortByStart (f.forbidden l))) := by
      unfold Finalizer.visibleSegments
      apply List.filter_eq_self.mpr
      intro g hg
      exact decide_eq_true (hlen g ((hmem g).mp hg))
    rw [hkeep]
    exact ⟨hmem, hpw⟩
  · unfold Finalizer.Finalize
    rw [finalizeLoop_eq]
    simp only [List.flatMap_cons, List.flatMap_nil, scenarioFinalizer_visibleSegments.1,
      scenarioFinalizer_visibleSegments.2.1, scenarioFinalizer_visibleSegments.2.2,
      show scenarioFinalizer.lifelines = [1, 2, 3] from rfl]
    norm_num [graphics.NewPrimitives, scenarioFinalizer]

/-- Witness for C33: lifeline `B` of Scenario 5, whose forbidden intervals are
`[50, 60]` and `[80, 90]` and whose uncovered stretches of `[10, 100]` are 40,
20 and 10 long, with `minSegLen` 1. -/
theorem Finalize_emits_maximal_uncovered_witness :
    (∀ g, g ∈ scenarioFinalizer.visibleSegments 10 100 1 2 ↔
      IsMaximalUncovered (scenarioFinalizer.forbidden 2) 10 100 g) ∧
    (scenarioFinalizer.visibleSegments 10 100 1 2).Pairwise (fun a b => a.stop ≤ b.start) ∧
    scenarioFinalizer.visibleSegments 10 100 1 1 = [⟨10, 100⟩] :=
  have hwf : ∀ s ∈ scenarioFinalizer.forbidden 2, s.start ≤ s.stop := by
    rw [scenarioFinalizer_forbidden.2.1]
    intro s hs
    simp only [List.mem_cons, List.mem_singleton, List.not_mem_nil, or_false] at hs
    rcases hs with hs | hs <;> rw [hs] <;> norm_num
  have hlen : ∀ g, IsMaximalUncovered (scenarioFinalizer.forbidden 2) 10 100 g →
      (1 : ℚ) ≤ g.stop - g.start := by
    intro g hg
    have hmem := ((mem_complement_forbidden (scenarioFinalizer.forbidden 2) 10 100 hwf).1 g).mpr hg
    rw [scenarioFinalizer_forbidden.2.1, scenarioFinalizer_complement] at hmem
    simp only [List.mem_cons, List.mem_singleton, List.not_mem_nil, or_false] at hmem
    rcases hmem with h | h | h <;> rw [h] <;> norm_num
  have h := Finalize_emits_maximal_uncovered scenarioFinalizer 10 100 1 graphics.NewPrimitives
  ⟨(h.2.1 2 hwf hlen).1, (h.2.1 2 hwf hlen).2,
    h.2.2.1 1 scenarioFinalizer_forbidden.1 (by norm_num) (by norm_num)⟩

end lifeline

/-! ## The maker on a `Dash` statement -/

namespace interactions

theorem scenarioMaker_CentreLine_registered (l : StatementPtr) (hl : l = 1 ∨ l = 2) :
    scenarioMaker.dependencies.spacer.CentreLine l = some (0, none) := by
  have h := lifeline.CentreLine_eq lifeline.scenarioSpacing l _
    lifeline.scenarioSpacing_drivingValues
  rcases hl with hl | hl <;> subst hl <;>
    simpa [scenarioMaker, NewMaker, NewMakerDependencies, lifeline.scenarioSpacing,
      lifeline.NewSpacing] using h

/-- C18 (defect in the code): `Scan` schedules for `dash AB fibble` the
interaction label, start-to-box and the interaction line, in that order, which
is the list of a `Full` statement without start-from-box. Yet `startToBox` and
`interactionLine` return `-1, nil` and leave the graphics model as it was, for
every tide mark and model: run at tide mark 30 in Scenario 2, `Scan` returns 0
with a nil error and a model that has gained the label `fibble` only. No line
is drawn and no box is recorded for the destination `B`, where `make_test.go`
expects one line and one box of `B` starting at the line's Y. -/
theorem Scan_dash_records_no_box :
    (scheduled diag.dashAB).map (fun d => d.fn) =
      [actionFn.interactionLabel, actionFn.startToBox, actionFn.interactionLine] ∧
    (scheduled diag.dashAB).map (fun d => d.fn) =
      ((scheduled { diag.dashAB with Keyword := umli.Keyword.Full }).map
        (fun d => d.fn)).filter (fun f => decide (f ≠ actionFn.startFromBox)) ∧
    (∀ (tidemark : ℚ) (gm : graphics.Model),
      Maker.startToBox scenarioMaker tidemark diag.dashAB gm = some ((-1, none), gm)) ∧
    (∀ (tidemark : ℚ) (gm : graphics.Model),
      Maker.interactionLine scenarioMaker tidemark diag.dashAB gm = some ((-1, none), gm)) ∧
    Maker.Scan midpointLabelPosn scenarioMaker 30 [diag.dashAB] scenarioModel =
      some ((0, none),
        { scenarioModel with Primitives :=
            { scenarioModel.Primitives with Labels :=
                [{ TheString := "fibble", FontHeight := 10, Anchor := ⟨0, 30⟩,
                   HJust := graphics.Justification.Centre,
                   VJust := graphics.Justification.Top }] } }) ∧
    scenarioModel.Primitives.Lines = [] ∧ scenarioModel.Primitives.Rects = [] := by
  refine ⟨by simp [scheduled, diag.dashAB], by simp [scheduled, diag.dashAB],
    fun _ _ => rfl, fun _ _ => rfl, ?_, rfl, rfl⟩
  have hcentres : scenarioMaker.LifelineCentres diag.dashAB = some (0, 0, none) := by
    unfold Maker.LifelineCentres
    simp [diag.dashAB, scenarioMaker_CentreLine_registered]
  have hlabel : Maker.interactionLabel midpointLabelPosn scenarioMaker 30 diag.dashAB
      scenarioModel =
      some ((-1, none),
        { scenarioModel with Primitives :=
            { scenarioModel.Primitives with Labels :=
                [{ TheString := "fibble", FontHeight := 10, Anchor := ⟨0, 30⟩,
                   HJust := graphics.Justification.Centre,
                   VJust := graphics.Justification.Top }] } }) := by
    unfold Maker.interactionLabel
    rw [hcentres]
    simp [midpointLabelPosn, diag.dashAB, scenarioModel, graphics.NewModel,
      graphics.NewPrimitives, graphics.Primitives.RowOfStrings,
      graphics.Primitives.RowOfStringsFrom, graphics.Primitives.AddLabel, scenarioMaker,
      NewMaker, NewMakerDependencies]
  have hsched : buildActions [diag.dashAB] =
      [⟨actionFn.interactionLabel, diag.dashAB⟩, ⟨actionFn.startToBox, diag.dashAB⟩,
       ⟨actionFn.interactionLine, diag.dashAB⟩] := by
    simp [buildActions, scheduled, diag.dashAB]
  unfold Maker.Scan
  simp only [hsched, runActions, actionFn.call, hlabel, Maker.startToBox,
    Maker.interactionLine]

end interactions
